import Mathlib

/-!
# Enrollment transaction engine

A shallow embedding of `src/server/controllers/enrollmentsController.js`
(`createEnrollment`, `updateEnrollmentById`, `deleteEnrollmentById` and the read
handlers) over an explicit relational store, and of the search and pagination of
the two enrollment tables of the client, followed by the properties proved about
them.

Modelling conventions

* The store holds the three tables as lists of rows in insertion order, plus the
  auto-increment counters of the `Enrollment` and `Minor` tables.
* A handler runs on a working copy of the store.  What is visible afterwards is
  the working copy when the transaction was committed and the rows of the
  snapshot otherwise (`settle`).
* `Faults` says which awaited storage call throws.  A throw inside the `try`
  block reaches the `catch`, which rolls back and answers 500.  The two calls
  around the `try` block, `sequelize.transaction()` and
  `transaction.rollback()`, are handled by `serve`: when one of them throws, no
  response is sent.
* Request bodies are typed: an absent (`undefined`) field is `none`, `minors`
  and `adults` are lists, numbers are integers.  JavaScript truthiness is made
  explicit by `truthyStr`, `truthyNat` and `truthyInt`.  `CreateBody` is the
  body of a create with `id_course` as it is sent, a number or a string.
* A column whose value the code leaves `undefined` is stored as `none`.
-/

namespace OdcManagement

/-! ## Data model -/

/-- Row of the `Course` table. -/
structure Course where
  id : Nat
  title : String
  tickets : Int
deriving DecidableEq

/-- Row of the `Enrollment` table. -/
structure Enrollment where
  id : Nat
  fullname : Option String
  email : Option String
  gender : Option String
  age : Option Int
  is_first_activity : Bool
  id_admin : Option Nat
  id_course : Option Nat
  group_id : Option Int
  accepts_newsletter : Bool
deriving DecidableEq

/-- Row of the `Minor` table. -/
structure Minor where
  id : Nat
  name : Option String
  age : Option Int
  enrollment_id : Nat
deriving DecidableEq

/-- The database: the three tables and the two auto-increment counters. -/
structure Store where
  courses : List Course
  enrollments : List Enrollment
  minors : List Minor
  nextEnrollmentId : Nat
  nextMinorId : Nat
deriving DecidableEq

/-- Element of the `minors` array of a request body. -/
structure MinorPayload where
  id : Option Nat
  name : Option String
  age : Option Int
  enrollment_id : Option Nat
deriving DecidableEq

/-- Element of the `adults` array of a request body. -/
structure AdultPayload where
  id : Option Nat
  fullname : Option String
  email : Option String
  gender : Option String
  age : Option Int
  is_first_activity : Option Bool
  id_admin : Option Nat
  accepts_newsletter : Option Bool
deriving DecidableEq

/-- Body of `POST /enrollments` and of `PUT /enrollments/:id`. -/
structure EnrollmentRequest where
  fullname : Option String
  email : Option String
  gender : Option String
  age : Option Int
  is_first_activity : Option Bool
  id_admin : Option Nat
  id_course : Option Nat
  group_id : Option Int
  accepts_newsletter : Option Bool
  minors : List MinorPayload
  adults : List AdultPayload
deriving DecidableEq

/-- The awaited storage calls of the handlers; the index is the position of the
payload element inside a loop.  `beginTransaction` is `sequelize.transaction()`
(lines 98, 217, 315) and `rollback` is `transaction.rollback()` (lines 209, 236,
307, 322, 329, 368). -/
inductive StorageCall where
  | beginTransaction
  | rollback
  | findCourse
  | maxGroupId
  | createPrimary
  | bulkCreateMinors
  | bulkCreateAdults
  | updateCourse
  | commit
  | findEnrollment
  | updatePrimary
  | updateMinor (i : Nat)
  | createMinor (i : Nat)
  | updateAdult (i : Nat)
  | createAdult (i : Nat)
  | findGroup
  | destroyMinors
  | destroyEnrollments
  | incrementCourse
  | findAll
deriving DecidableEq

/-- Which storage calls throw. -/
abbrev Faults := StorageCall → Bool

/-- The storage layer never throws of its own. -/
def noFaults : Faults := fun _ => false

/-- What happened to the transaction the handler opened. -/
inductive TxOutcome where
  | committed
  | rolledBack
  | leftOpen
deriving DecidableEq

/-- The HTTP response: status, message, and the payload fields of the success
responses (`enrollment` of create, `ticketsReturned` of delete). -/
structure Response where
  status : Nat
  message : String
  enrollment : Option Enrollment
  ticketsReturned : Option Int
deriving DecidableEq

/-- State of a handler when it responds: working copy, response, transaction. -/
structure Attempt where
  working : Store
  response : Response
  tx : TxOutcome
deriving DecidableEq

/-- Result of a handler: the store visible afterwards, the response and what
happened to the transaction. -/
structure Outcome where
  store : Store
  response : Response
  tx : TxOutcome
deriving DecidableEq

/-! ## JavaScript truthiness -/

/-- Truthiness of an optional string: absent and empty are falsy. -/
def truthyStr : Option String → Bool
  | some s => s != ""
  | none => false

/-- Truthiness of an optional natural number: absent and 0 are falsy. -/
def truthyNat : Option Nat → Bool
  | some n => n != 0
  | none => false

/-- Truthiness of an optional integer: absent and 0 are falsy. -/
def truthyInt : Option Int → Bool
  | some n => n != 0
  | none => false

/-- Truthiness of an optional boolean. -/
def truthyBool : Option Bool → Bool
  | some b => b
  | none => false

/-! ## Storage primitives -/

/-- Lookup of a course by primary key. -/
def Course.findByPk (s : Store) (id : Nat) : Option Course :=
  s.courses.find? (fun c => c.id == id)

/-- Lookup of an enrollment by primary key. -/
def Enrollment.findByPk (s : Store) (id : Nat) : Option Enrollment :=
  s.enrollments.find? (fun e => e.id == id)

/-- Maximum of a list of integers, `none` on the empty list. -/
def maxOpt : List Int → Option Int
  | [] => none
  | x :: xs =>
    match maxOpt xs with
    | none => some x
    | some m => some (max x m)

/-- The aggregate `Enrollment.max('group_id')`: SQL `MAX` skips NULLs and is
NULL on no rows. -/
def Enrollment.maxGroupId (s : Store) : Option Int :=
  maxOpt (s.enrollments.filterMap (fun e => e.group_id))

/-- Insertion of an enrollment row: the id is generated (the id of `row` is
ignored).  Returns the new store and the created row. -/
def Enrollment.create (s : Store) (row : Enrollment) : Store × Enrollment :=
  let e := { row with id := s.nextEnrollmentId }
  ({ s with enrollments := s.enrollments ++ [e],
            nextEnrollmentId := s.nextEnrollmentId + 1 }, e)

/-- Insertion of several enrollment rows, ids generated in order. -/
def Enrollment.bulkCreate (s : Store) (rows : List Enrollment) : Store :=
  rows.foldl (fun w row => (Enrollment.create w row).1) s

/-- Insertion of a minor row.  A NULL id is generated, and so is an id of 0 (what
an auto-increment column does with 0 depends on the database; here it is
generated, as MySQL does by default).  Another explicit id is kept and violates
the primary key when a row already has it. -/
def Minor.create (s : Store) (p : MinorPayload) (enrollment_id : Nat) :
    Except String Store :=
  if truthyNat p.id then
    let i := p.id.getD 0
    if s.minors.any (fun m => m.id == i) then
      .error "Validation error"
    else
      .ok { s with minors := s.minors ++ [⟨i, p.name, p.age, enrollment_id⟩],
                   nextMinorId := max s.nextMinorId (i + 1) }
  else
    .ok { s with minors := s.minors ++ [⟨s.nextMinorId, p.name, p.age, enrollment_id⟩],
                 nextMinorId := s.nextMinorId + 1 }

/-- Insertion of several minor rows, all owned by `enrollment_id`; the statement
fails as a whole when one row fails. -/
def Minor.bulkCreate (s : Store) (ps : List MinorPayload) (enrollment_id : Nat) :
    Except String Store :=
  match ps with
  | [] => .ok s
  | p :: rest =>
    match Minor.create s p enrollment_id with
    | .error msg => .error msg
    | .ok w => Minor.bulkCreate w rest enrollment_id

/-- The statement `Course.update({ tickets }, { where: { id } })`. -/
def Course.updateTickets (s : Store) (id : Nat) (tickets : Int) : Store :=
  { s with courses := s.courses.map (fun c => if c.id == id then { c with tickets := tickets } else c) }

/-- The statement `course.increment('tickets', { by })`. -/
def Course.increment (s : Store) (id : Nat) (by_ : Int) : Store :=
  { s with courses :=
      s.courses.map (fun c => if c.id == id then { c with tickets := c.tickets + by_ } else c) }

/-- The statement `Minor.destroy({ where: { enrollment_id: ids } })`; returns the
number of rows deleted. -/
def Minor.destroy (s : Store) (ids : List Nat) : Store × Nat :=
  ({ s with minors := s.minors.filter (fun m => !(ids.contains m.enrollment_id)) },
   (s.minors.filter (fun m => ids.contains m.enrollment_id)).length)

/-- The statement `Enrollment.destroy({ where: { id: ids } })`; returns the
number of rows deleted. -/
def Enrollment.destroy (s : Store) (ids : List Nat) : Store × Nat :=
  ({ s with enrollments := s.enrollments.filter (fun e => !(ids.contains e.id)) },
   (s.enrollments.filter (fun e => ids.contains e.id)).length)

/-! ## Transactions and responses -/

/-- The store visible once the handler has responded: the working copy if the
transaction was committed, the rows of the snapshot otherwise (generated ids are
not handed out again). -/
def settle (snapshot : Store) (a : Attempt) : Outcome :=
  match a.tx with
  | .committed => ⟨a.working, a.response, a.tx⟩
  | _ =>
    ⟨{ snapshot with nextEnrollmentId := a.working.nextEnrollmentId,
                     nextMinorId := a.working.nextMinorId },
     a.response, a.tx⟩

/-- The `catch` block of the three handlers: roll back, answer 500. -/
def thrown (w : Store) (msg : String) : Attempt :=
  ⟨w, ⟨500, msg, none, none⟩, .rolledBack⟩

/-- A response carrying only a status and a message. -/
def reply (status : Nat) (msg : String) : Response :=
  ⟨status, msg, none, none⟩

/-! ## createEnrollment -/

/-- The group id of the rows a create writes (lines 146-148):
`lastGroupId = group_id || (await Enrollment.max('group_id')) || 0` and
`newGroupId = group_id || lastGroupId + 1`. -/
def newGroupId (s : Store) (group_id : Option Int) : Int :=
  let lastGroupId : Int :=
    if truthyInt group_id then group_id.getD 0
    else if truthyInt (Enrollment.maxGroupId s) then (Enrollment.maxGroupId s).getD 0
    else 0
  if truthyInt group_id then group_id.getD 0 else lastGroupId + 1

/-- The row of the primary enrollment (lines 151-164), before its id is
generated. -/
def primaryRow (req : EnrollmentRequest) (gid : Int) : Enrollment :=
  { id := 0
    fullname := req.fullname
    email := req.email
    gender := some (req.gender.getD "NS/NC")
    age := some (req.age.getD 0)
    is_first_activity := req.is_first_activity.getD false
    id_admin := req.id_admin
    id_course := req.id_course
    group_id := some gid
    accepts_newsletter := req.accepts_newsletter.getD false }

/-- The row of a secondary adult (lines 177-187), before its id is generated. -/
def adultRow (req : EnrollmentRequest) (gid : Int) (adult : AdultPayload) : Enrollment :=
  { id := 0
    fullname := adult.fullname
    email := adult.email
    gender := adult.gender
    age := adult.age
    is_first_activity := truthyBool adult.is_first_activity
    id_admin := if truthyNat adult.id_admin then adult.id_admin else req.id_admin
    id_course := req.id_course
    group_id := some gid
    accepts_newsletter := truthyBool adult.accepts_newsletter }

/-- The number of tickets a create asks for (line 137): one for the
primary, one per adult, one per minor. -/
def totalTicketsRequired (req : EnrollmentRequest) : Int :=
  1 + req.adults.length + req.minors.length

/-- Lines 166-173: the minors are bulk-created when the array is not empty. -/
def createMinors (w : Store) (req : EnrollmentRequest) (enrollment_id : Nat)
    (faults : Faults) : Except String Store :=
  if req.minors.length > 0 then
    if faults .bulkCreateMinors then .error "storage failure"
    else Minor.bulkCreate w req.minors enrollment_id
  else .ok w

/-- Lines 175-189: the secondary adults are bulk-created when the array is not
empty. -/
def createAdults (w : Store) (req : EnrollmentRequest) (gid : Int)
    (faults : Faults) : Except String Store :=
  if req.adults.length > 0 then
    if faults .bulkCreateAdults then .error "storage failure"
    else .ok (Enrollment.bulkCreate w (req.adults.map (adultRow req gid)))
  else .ok w

/-- Lines 146-206: the writes of a create, once the course was found and has
enough tickets. -/
def createWrites (s : Store) (req : EnrollmentRequest) (course : Course)
    (total : Int) (faults : Faults) : Attempt :=
  if !(truthyInt req.group_id) && faults .maxGroupId then thrown s "storage failure"
  else
    let gid := newGroupId s req.group_id
    if faults .createPrimary then thrown s "storage failure"
    else
      let created := Enrollment.create s (primaryRow req gid)
      let enrollment := created.2
      match createMinors created.1 req enrollment.id faults with
      | .error msg => thrown created.1 msg
      | .ok w2 =>
        match createAdults w2 req gid faults with
        | .error msg => thrown w2 msg
        | .ok w3 =>
          if faults .updateCourse then thrown w3 "storage failure"
          else
            let w4 := Course.updateTickets w3 (req.id_course.getD 0)
              (course.tickets - total)
            if faults .commit then thrown w4 "storage failure"
            else
              ⟨w4, ⟨201, "Inscripción creada con éxito.", some enrollment, none⟩, .committed⟩

/-- The `try` block of `createEnrollment` together with its `catch`
(lines 97-213). -/
def createAttempt (s : Store) (req : EnrollmentRequest) (faults : Faults) : Attempt :=
  if !(truthyStr req.fullname) || !(truthyStr req.email) || !(truthyNat req.id_course) then
    ⟨s, reply 400 "Faltan datos obligatorios: fullname, email, o id_course.", .leftOpen⟩
  else if req.age.getD 0 < 14 then
    ⟨s, reply 400 "El titular debe ser mayor de 14 años.", .leftOpen⟩
  else if faults .findCourse then thrown s "storage failure"
  else
    match Course.findByPk s (req.id_course.getD 0) with
    | none => ⟨s, reply 404 "Curso no encontrado.", .leftOpen⟩
    | some course =>
      if course.tickets < totalTicketsRequired req then
        ⟨s, reply 400 "No hay suficientes tickets disponibles para esta inscripción.",
          .leftOpen⟩
      else createWrites s req course (totalTicketsRequired req) faults

/-- The handler `createEnrollment` on a typed request, once its transaction is
open and with a rollback that does not fail; `createEnrollmentHandler` adds the
body as received and the two calls around the `try` block. -/
def createEnrollment (s : Store) (req : EnrollmentRequest) (faults : Faults) : Outcome :=
  settle s (createAttempt s req faults)

/-! ## deleteEnrollmentById -/

/-- The `try` block of `deleteEnrollmentById` together with its `catch`
(lines 314-372). -/
def deleteAttempt (s : Store) (id : Nat) (faults : Faults) : Attempt :=
  if faults .findEnrollment then thrown s "storage failure"
  else
    match Enrollment.findByPk s id with
    | none => ⟨s, reply 404 "Inscripción no encontrada", .rolledBack⟩
    | some enrollment =>
      if faults .findCourse then thrown s "storage failure"
      else
        match enrollment.id_course.bind (Course.findByPk s) with
        | none => ⟨s, reply 404 "Curso no encontrado.", .rolledBack⟩
        | some course =>
          if faults .findGroup then thrown s "storage failure"
          else
            let groupEnrollments :=
              s.enrollments.filter (fun e => e.group_id == enrollment.group_id)
            let enrollmentIds := groupEnrollments.map (fun e => e.id)
            let adultCount := enrollmentIds.length
            if faults .destroyMinors then thrown s "storage failure"
            else
              let minorsDestroyed := Minor.destroy s enrollmentIds
              let minorsDeleted := minorsDestroyed.2
              if faults .destroyEnrollments then thrown minorsDestroyed.1 "storage failure"
              else
                let adultsDestroyed := Enrollment.destroy minorsDestroyed.1 enrollmentIds
                let totalTicketsToAdd : Int := minorsDeleted + adultCount
                if faults .incrementCourse then thrown adultsDestroyed.1 "storage failure"
                else
                  let w := Course.increment adultsDestroyed.1 course.id totalTicketsToAdd
                  if faults .commit then thrown w "storage failure"
                  else
                    ⟨w, ⟨200, "Inscripción eliminada correctamente.", none,
                      some totalTicketsToAdd⟩, .committed⟩

/-- The handler `deleteEnrollmentById`, once its transaction is open and with a
rollback that does not fail; `deleteEnrollmentHandler` adds the two calls around
the `try` block. -/
def deleteEnrollmentById (s : Store) (id : Nat) (faults : Faults) : Outcome :=
  settle s (deleteAttempt s id faults)

/-! ## updateEnrollmentById -/

/-- A value of an update: `undefined` values are dropped by `update`, so the
column keeps what it had. -/
def orKeep {α : Type} (new old : Option α) : Option α :=
  match new with
  | some v => some v
  | none => old

/-- The statement `enrollment.update({...}, { transaction })` of lines 241-254. -/
def Enrollment.updatePrimary (s : Store) (id : Nat) (req : EnrollmentRequest) : Store :=
  { s with enrollments := s.enrollments.map (fun e =>
      if e.id == id then
        { e with
          fullname := orKeep req.fullname e.fullname
          email := orKeep req.email e.email
          gender := orKeep req.gender e.gender
          age := orKeep req.age e.age
          is_first_activity := req.is_first_activity.getD e.is_first_activity
          id_admin := orKeep req.id_admin e.id_admin
          id_course := orKeep req.id_course e.id_course
          group_id := orKeep req.group_id e.group_id
          accepts_newsletter := req.accepts_newsletter.getD e.accepts_newsletter }
      else e) }

/-- The statement `Minor.update({ name, age }, { where: { id, enrollment_id } })`
of lines 260-263. -/
def Minor.update (s : Store) (minor : MinorPayload) (enrollment_id : Nat) : Store :=
  { s with minors := s.minors.map (fun m =>
      if m.id == minor.id.getD 0 && m.enrollment_id == enrollment_id then
        { m with name := orKeep minor.name m.name, age := orKeep minor.age m.age }
      else m) }

/-- The statement `Enrollment.update({ fullname, email, gender, age },
{ where: { id, group_id } })` of lines 274-282. -/
def Enrollment.updateAdult (s : Store) (adult : AdultPayload) (group_id : Int) : Store :=
  { s with enrollments := s.enrollments.map (fun e =>
      if e.id == adult.id.getD 0 && e.group_id == some group_id then
        { e with
          fullname := orKeep adult.fullname e.fullname
          email := orKeep adult.email e.email
          gender := orKeep adult.gender e.gender
          age := orKeep adult.age e.age }
      else e) }

/-- The row of an adult added by an update (lines 284-296), before its id is
generated; `accepts_newsletter` is not passed and takes the column default. -/
def addedAdultRow (req : EnrollmentRequest) (adult : AdultPayload) : Enrollment :=
  { id := 0
    fullname := adult.fullname
    email := adult.email
    gender := adult.gender
    age := adult.age
    is_first_activity := truthyBool adult.is_first_activity
    id_admin := if truthyNat adult.id_admin then adult.id_admin else req.id_admin
    id_course := req.id_course
    group_id := req.group_id
    accepts_newsletter := false }

/-- The loop over `minors` of lines 257-268, from index `i`; the second
component is the message of the error thrown, if any. -/
def updateMinorsLoop (id : Nat) (faults : Faults) :
    Nat → List MinorPayload → Store → Store × Option String
  | _, [], w => (w, none)
  | i, minor :: rest, w =>
    if truthyNat minor.id then
      if faults (.updateMinor i) then (w, some "storage failure")
      else updateMinorsLoop id faults (i + 1) rest (Minor.update w minor id)
    else
      if faults (.createMinor i) then (w, some "storage failure")
      else
        match Minor.create w minor id with
        | .error msg => (w, some msg)
        | .ok w1 => updateMinorsLoop id faults (i + 1) rest w1

/-- The loop over `adults` of lines 271-299, from index `i`.  A `where` clause
with an `undefined` `group_id` is refused by the storage layer. -/
def updateAdultsLoop (req : EnrollmentRequest) (faults : Faults) :
    Nat → List AdultPayload → Store → Store × Option String
  | _, [], w => (w, none)
  | i, adult :: rest, w =>
    if truthyNat adult.id then
      if faults (.updateAdult i) then (w, some "storage failure")
      else
        match req.group_id with
        | none => (w, some "WHERE parameter \"group_id\" has invalid \"undefined\" value")
        | some g => updateAdultsLoop req faults (i + 1) rest (Enrollment.updateAdult w adult g)
    else
      if faults (.createAdult i) then (w, some "storage failure")
      else
        updateAdultsLoop req faults (i + 1) rest (Enrollment.create w (addedAdultRow req adult)).1

/-- The `try` block of `updateEnrollmentById` together with its `catch`
(lines 216-311). -/
def updateAttempt (s : Store) (id : Nat) (req : EnrollmentRequest) (faults : Faults) :
    Attempt :=
  if faults .findEnrollment then thrown s "storage failure"
  else
    match Enrollment.findByPk s id with
    | none => ⟨s, reply 404 "Inscripción no encontrada", .rolledBack⟩
    | some enrollment =>
      if faults .updatePrimary then thrown s "storage failure"
      else
        let w1 := Enrollment.updatePrimary s enrollment.id req
        match updateMinorsLoop id faults 0 req.minors w1 with
        | (w2, some msg) => thrown w2 msg
        | (w2, none) =>
          match updateAdultsLoop req faults 0 req.adults w2 with
          | (w3, some msg) => thrown w3 msg
          | (w3, none) =>
            if faults .commit then thrown w3 "storage failure"
            else ⟨w3, reply 200 "Inscripción actualizada con éxito.", .committed⟩

/-- The handler `updateEnrollmentById`, once its transaction is open and with a
rollback that does not fail; `updateEnrollmentHandler` adds the two calls around
the `try` block. -/
def updateEnrollmentById (s : Store) (id : Nat) (req : EnrollmentRequest)
    (faults : Faults) : Outcome :=
  settle s (updateAttempt s id req faults)

/-! ## The body as received and the calls around the `try` block -/

/-- The value of `id_course` as the body of a create carries it: a number or a
string. -/
inductive JsonId where
  | num (n : Int)
  | text (t : String)
deriving DecidableEq

/-- Truthiness of `id_course` as sent: absent, 0 and the empty string are
falsy. -/
def truthyId : Option JsonId → Bool
  | some (.num n) => n != 0
  | some (.text t) => t != ""
  | none => false

/-- Body of `POST /enrollments` as received: the fields of `EnrollmentRequest`,
with `id_course` as sent, a number or a string (a form sends the empty string
for a course that was not chosen).  A field that is not sent is `none`. -/
structure CreateBody where
  fullname : Option String
  email : Option String
  gender : Option String
  age : Option Int
  is_first_activity : Option Bool
  id_admin : Option Nat
  id_course : Option JsonId
  group_id : Option Int
  accepts_newsletter : Option Bool
  minors : List MinorPayload
  adults : List AdultPayload
deriving DecidableEq

/-- The body once the course lookup has read `id_course` as the primary key
`cid`: the value the foreign-key column stores. -/
def CreateBody.typed (b : CreateBody) (cid : Nat) : EnrollmentRequest :=
  { fullname := b.fullname
    email := b.email
    gender := b.gender
    age := b.age
    is_first_activity := b.is_first_activity
    id_admin := b.id_admin
    id_course := some cid
    group_id := b.group_id
    accepts_newsletter := b.accepts_newsletter
    minors := b.minors
    adults := b.adults }

/-- A typed request as a body: its `id_course` is sent as a number. -/
def EnrollmentRequest.body (req : EnrollmentRequest) : CreateBody :=
  { fullname := req.fullname
    email := req.email
    gender := req.gender
    age := req.age
    is_first_activity := req.is_first_activity
    id_admin := req.id_admin
    id_course := req.id_course.map (fun n => JsonId.num n)
    group_id := req.group_id
    accepts_newsletter := req.accepts_newsletter
    minors := req.minors
    adults := req.adults }

/-- The primary key a lookup compares with when it is given `id_course`.  A
number stands for itself (no row has a negative key); what the database reads
from a string depends on the database and is the parameter `readId`. -/
def resolveId (readId : String → Option Nat) : JsonId → Option Nat
  | .num n => if 0 ≤ n then some n.toNat else none
  | .text t => readId t

/-- The lookup `Course.findByPk(id_course)` of line 128. -/
def lookupCourse (readId : String → Option Nat) (s : Store) (b : CreateBody) :
    Option Course :=
  (b.id_course.bind (resolveId readId)).bind (Course.findByPk s)

/-- The `try` block of `createEnrollment` together with its `catch`
(lines 97-213), on the body as received. -/
def createAttemptRaw (readId : String → Option Nat) (s : Store) (b : CreateBody)
    (faults : Faults) : Attempt :=
  if !(truthyStr b.fullname) || !(truthyStr b.email) || !(truthyId b.id_course) then
    ⟨s, reply 400 "Faltan datos obligatorios: fullname, email, o id_course.", .leftOpen⟩
  else if b.age.getD 0 < 14 then
    ⟨s, reply 400 "El titular debe ser mayor de 14 años.", .leftOpen⟩
  else if faults .findCourse then thrown s "storage failure"
  else
    match lookupCourse readId s b with
    | none => ⟨s, reply 404 "Curso no encontrado.", .leftOpen⟩
    | some course =>
      if course.tickets < totalTicketsRequired (b.typed course.id) then
        ⟨s, reply 400 "No hay suficientes tickets disponibles para esta inscripción.",
          .leftOpen⟩
      else
        createWrites s (b.typed course.id) course (totalTicketsRequired (b.typed course.id))
          faults

/-- What is seen of a call: the store afterwards and the response, `none` when
the handler sends none. -/
structure Served where
  store : Store
  response : Option Response
deriving DecidableEq

/-- The calls around the `try` block.  `sequelize.transaction()` is awaited
before the `try` (lines 98, 217, 315): when it throws nothing catches it, no
response is sent and nothing has run.  `transaction.rollback()` is awaited
before the response of the `catch` block (lines 209, 307, 368) and before the
404 replies of update and delete (lines 236, 322, 329): when it throws the
response is skipped, and the transaction is not committed. -/
def serve (s : Store) (faults : Faults) (a : Attempt) : Served :=
  if faults .beginTransaction then ⟨s, none⟩
  else if a.tx = .rolledBack ∧ faults .rollback = true then ⟨(settle s a).store, none⟩
  else ⟨(settle s a).store, some a.response⟩

/-- The handler `createEnrollment` as the router calls it: the body as received,
the opening of the transaction and the rollback included. -/
def createEnrollmentHandler (readId : String → Option Nat) (s : Store) (b : CreateBody)
    (faults : Faults) : Served :=
  serve s faults (createAttemptRaw readId s b faults)

/-- The handler `updateEnrollmentById` as the router calls it. -/
def updateEnrollmentHandler (s : Store) (id : Nat) (req : EnrollmentRequest)
    (faults : Faults) : Served :=
  serve s faults (updateAttempt s id req faults)

/-- The handler `deleteEnrollmentById` as the router calls it. -/
def deleteEnrollmentHandler (s : Store) (id : Nat) (faults : Faults) : Served :=
  serve s faults (deleteAttempt s id faults)

/-! ## Derived quantities -/

/-- The tickets of course `c`, when it exists. -/
def ticketsOf (s : Store) (c : Nat) : Option Int :=
  (Course.findByPk s c).map (fun course => course.tickets)

/-- The enrollment rows of course `c`. -/
def enrollmentsOfCourse (s : Store) (c : Nat) : List Enrollment :=
  s.enrollments.filter (fun e => e.id_course == some c)

/-- The minor rows attached to an enrollment row of course `c`. -/
def minorsOfCourse (s : Store) (c : Nat) : List Minor :=
  s.minors.filter (fun m => ((enrollmentsOfCourse s c).map (fun e => e.id)).contains m.enrollment_id)

/-- The enrollment rows of the group `g`. -/
def groupOf (s : Store) (g : Option Int) : List Enrollment :=
  s.enrollments.filter (fun e => e.group_id == g)

/-- The minor rows attached to a row of the group `g`. -/
def minorsOfGroup (s : Store) (g : Option Int) : List Minor :=
  s.minors.filter (fun m => ((groupOf s g).map (fun e => e.id)).contains m.enrollment_id)

/-- The ledger quantity of course `c`: tickets left, plus its enrollment rows,
plus the minor rows attached to them. -/
def ledger (s : Store) (c : Nat) : Option Int :=
  (ticketsOf s c).map (fun t =>
    t + (enrollmentsOfCourse s c).length + (minorsOfCourse s c).length)

/-- Integrity of the store: primary keys are unique and below the counters, and
every minor row refers to an enrollment row. -/
def Store.wf (s : Store) : Prop :=
  (s.courses.map (fun c => c.id)).Nodup ∧
  (s.enrollments.map (fun e => e.id)).Nodup ∧
  (s.minors.map (fun m => m.id)).Nodup ∧
  (∀ e ∈ s.enrollments, e.id < s.nextEnrollmentId) ∧
  (∀ m ∈ s.minors, m.id < s.nextMinorId) ∧
  (∀ m ∈ s.minors, ∃ e ∈ s.enrollments, e.id = m.enrollment_id)

instance (s : Store) : Decidable s.wf := by
  unfold Store.wf
  infer_instance

/-! ## Specification vocabulary -/

/-- The rows `Enrollment.bulkCreate` writes: the given rows with consecutive
generated ids starting at `next`. -/
def assignIds : Nat → List Enrollment → List Enrollment
  | _, [] => []
  | next, row :: rest => { row with id := next } :: assignIds (next + 1) rest

/-- The primary row a create writes: `primaryRow` with the generated id. -/
def createdPrimary (s : Store) (req : EnrollmentRequest) : Enrollment :=
  { primaryRow req (newGroupId s req.group_id) with id := s.nextEnrollmentId }

/-- The secondary-adult rows a create writes. -/
def createdAdults (s : Store) (req : EnrollmentRequest) : List Enrollment :=
  assignIds (s.nextEnrollmentId + 1)
    (req.adults.map (adultRow req (newGroupId s req.group_id)))

/-- What a committed create has written. -/
def CreateCommitted (s : Store) (req : EnrollmentRequest) (course : Course)
    (a : Attempt) : Prop :=
  ∃ added : List Minor,
    a.working.enrollments = s.enrollments ++ createdPrimary s req :: createdAdults s req ∧
    a.working.minors = s.minors ++ added ∧ added.length = req.minors.length ∧
    (∀ m ∈ added, m.enrollment_id = s.nextEnrollmentId) ∧
    a.working.courses = s.courses.map (fun c =>
      if c.id == req.id_course.getD 0 then
        { c with tickets := course.tickets - totalTicketsRequired req } else c) ∧
    a.response = ⟨201, "Inscripción creada con éxito.", some (createdPrimary s req), none⟩ ∧
    a.tx = .committed

/-- The required-field test of line 115: `!fullname || !email || !id_course`. -/
def missingRequired (req : EnrollmentRequest) : Bool :=
  !(truthyStr req.fullname) || !(truthyStr req.email) || !(truthyNat req.id_course)

/-- What a committed delete of a member of group `g` on course `course` has
written and answered. -/
def DeleteCommitted (s : Store) (g : Option Int) (course : Course) (a : Attempt) : Prop :=
  a.working.enrollments =
    s.enrollments.filter (fun x => !(((groupOf s g).map (fun e => e.id)).contains x.id)) ∧
  a.working.minors =
    s.minors.filter (fun m =>
      !(((groupOf s g).map (fun e => e.id)).contains m.enrollment_id)) ∧
  a.working.courses = s.courses.map (fun c =>
    if c.id == course.id then
      { c with tickets := c.tickets +
          (((minorsOfGroup s g).length : Int) + ((groupOf s g).length : Int)) }
    else c) ∧
  a.working.nextEnrollmentId = s.nextEnrollmentId ∧
  a.working.nextMinorId = s.nextMinorId ∧
  a.response = ⟨200, "Inscripción eliminada correctamente.", none,
    some (((minorsOfGroup s g).length : Int) + ((groupOf s g).length : Int))⟩ ∧
  a.tx = .committed

/-- The storage calls a create makes after the capacity check, and the ways
they can fail: an injected fault at a call that is made, or a primary-key clash
of a payload minor that carries an id. -/
def writeFails (s : Store) (req : EnrollmentRequest) (faults : Faults) : Prop :=
  (truthyInt req.group_id = false ∧ faults .maxGroupId = true) ∨
  faults .createPrimary = true ∨
  (0 < req.minors.length ∧ faults .bulkCreateMinors = true) ∨
  (0 < req.minors.length ∧
    (Minor.bulkCreate (Enrollment.create s (primaryRow req (newGroupId s req.group_id))).1
      req.minors s.nextEnrollmentId).toBool = false) ∨
  (0 < req.adults.length ∧ faults .bulkCreateAdults = true) ∨
  faults .updateCourse = true ∨
  faults .commit = true

instance (s : Store) (req : EnrollmentRequest) (faults : Faults) :
    Decidable (writeFails s req faults) := by
  unfold writeFails
  infer_instance

/-- The required-field test of line 115 on the body as received. -/
def missingBody (b : CreateBody) : Bool :=
  !(truthyStr b.fullname) || !(truthyStr b.email) || !(truthyId b.id_course)

/-- A required field is absent or empty, or `id_course` is 0. -/
def absentOrEmpty (b : CreateBody) : Prop :=
  b.fullname = none ∨ b.fullname = some "" ∨ b.email = none ∨ b.email = some "" ∨
  b.id_course = none ∨ b.id_course = some (.text "") ∨ b.id_course = some (.num 0)

instance (b : CreateBody) : Decidable (absentOrEmpty b) := by
  unfold absentOrEmpty
  infer_instance

/-- The decision list for the status of a create as the claim words it: 400 when
a required field is missing (absent), else 400 on a primary age below 14, else
404 when `id_course` does not resolve to a course, else 400 on too few tickets,
else 201. -/
def createStatusClaimed (readId : String → Option Nat) (s : Store) (b : CreateBody) : Nat :=
  if b.fullname = none ∨ b.email = none ∨ b.id_course = none then 400
  else if b.age.getD 0 < 14 then 400
  else
    match lookupCourse readId s b with
    | none => 404
    | some course =>
      if course.tickets < 1 + (b.adults.length : Int) + (b.minors.length : Int) then 400
      else 201

/-- The decision list for the status of a create with the first test as line 115
makes it: 400 when a required field is absent or empty or `id_course` is 0, else
400 on a primary age below 14, else 404 when `id_course` does not resolve to a
course, else 400 on too few tickets, else 201. -/
def createStatusList (readId : String → Option Nat) (s : Store) (b : CreateBody) : Nat :=
  if absentOrEmpty b then 400
  else if b.age.getD 0 < 14 then 400
  else
    match lookupCourse readId s b with
    | none => 404
    | some course =>
      if course.tickets < 1 + (b.adults.length : Int) + (b.minors.length : Int) then 400
      else 201

/-- The effect of `Minor.update` (lines 260-263) on one row. -/
def applyMinor (target : Nat) (p : MinorPayload) (m : Minor) : Minor :=
  if m.id == p.id.getD 0 && m.enrollment_id == target then
    { m with name := orKeep p.name m.name, age := orKeep p.age m.age }
  else m

/-- The effect on one minor row of the payload minors that carry an id, in
payload order. -/
def applyMinors (target : Nat) (ps : List MinorPayload) (m : Minor) : Minor :=
  ps.foldl (fun acc p => if truthyNat p.id then applyMinor target p acc else acc) m

/-- The effect of `Enrollment.update` with `where: { id, group_id }`
(lines 274-282) on one row. -/
def applyAdult (g : Option Int) (a : AdultPayload) (e : Enrollment) : Enrollment :=
  if e.id == a.id.getD 0 && e.group_id == g then
    { e with
      fullname := orKeep a.fullname e.fullname
      email := orKeep a.email e.email
      gender := orKeep a.gender e.gender
      age := orKeep a.age e.age }
  else e

/-- The effect on one enrollment row of the payload adults that carry an id, in
payload order. -/
def applyAdults (g : Option Int) (as : List AdultPayload) (e : Enrollment) : Enrollment :=
  as.foldl (fun acc a => if truthyNat a.id then applyAdult g a acc else acc) e

/-- The effect of the update of the primary (lines 241-254) on one row. -/
def applyPrimary (id : Nat) (req : EnrollmentRequest) (e : Enrollment) : Enrollment :=
  if e.id == id then
    { e with
      fullname := orKeep req.fullname e.fullname
      email := orKeep req.email e.email
      gender := orKeep req.gender e.gender
      age := orKeep req.age e.age
      is_first_activity := req.is_first_activity.getD e.is_first_activity
      id_admin := orKeep req.id_admin e.id_admin
      id_course := orKeep req.id_course e.id_course
      group_id := orKeep req.group_id e.group_id
      accepts_newsletter := req.accepts_newsletter.getD e.accepts_newsletter }
  else e

/-- The number of payload minors without id (absent or 0, the test of line
259). -/
def minorsWithoutId (req : EnrollmentRequest) : Nat :=
  req.minors.countP (fun p => !(truthyNat p.id))

/-- The number of payload adults without id (absent or 0, the test of line
273). -/
def adultsWithoutId (req : EnrollmentRequest) : Nat :=
  req.adults.countP (fun a => !(truthyNat a.id))

/-- Every minor row refers to an enrollment row. -/
def noOrphans (s : Store) : Prop :=
  ∀ m ∈ s.minors, ∃ e ∈ s.enrollments, e.id = m.enrollment_id

instance (s : Store) : Decidable (noOrphans s) := by
  unfold noOrphans
  infer_instance

/-! ## Read handlers -/

/-- The attributes of an included minor: `['id', 'name', 'age']`. -/
structure MinorView where
  id : Nat
  name : Option String
  age : Option Int
deriving DecidableEq

/-- The attributes of an included adult (lines 58-65). -/
structure AdultView where
  id : Nat
  fullname : Option String
  email : Option String
  age : Option Int
  gender : Option String
  is_first_activity : Bool
deriving DecidableEq

/-- An enrollment as a read handler returns it: the row and its included
relations (the title of its course, its minors, its adults). -/
structure EnrollmentView where
  enrollment : Enrollment
  course : Option String
  minors : List MinorView
  adults : List AdultView
deriving DecidableEq

/-- The response of a read handler. -/
structure ReadResponse where
  status : Nat
  message : String
  body : List EnrollmentView
deriving DecidableEq

/-- Result of a read handler: the store afterwards and the response. -/
structure ReadOutcome where
  store : Store
  response : ReadResponse
deriving DecidableEq

/-- Modelled from the spec: the `minors` association of the enrollment model
(`enrollment_id` foreign key), which is not among the sources. -/
def minorsInclude (s : Store) (e : Enrollment) : List MinorView :=
  (s.minors.filter (fun m => m.enrollment_id == e.id)).map (fun m => ⟨m.id, m.name, m.age⟩)

/-- Modelled from the spec: the `course` association of the enrollment model
(`id_course` foreign key), with `attributes: ['title']`. -/
def courseInclude (s : Store) (e : Enrollment) : Option String :=
  (e.id_course.bind (Course.findByPk s)).map (fun c => c.title)

/-- Modelled from the spec: the `adults` association of the enrollment model,
the other rows that share the `group_id` (self excluded). -/
def adultsInclude (s : Store) (e : Enrollment) : List AdultView :=
  (s.enrollments.filter (fun x => x.group_id == e.group_id && x.id != e.id)).map
    (fun x => ⟨x.id, x.fullname, x.email, x.age, x.gender, x.is_first_activity⟩)

/-- The identifiers bound in the module scope of `enrollmentsController.js`: its
imports (lines 1-5) and its own top-level constants. -/
def moduleScope : List String :=
  ["Enrollment", "Course", "Minor", "sequelize", "Op", "getEnrollmentWithMinors",
   "getAllEnrollments", "getEnrollmentById", "getEnrollmentByIdWithMinors",
   "createEnrollment", "updateEnrollmentById", "deleteEnrollmentById",
   "getAllEnrollmentsByCourseId"]

/-- Evaluation of a free identifier of the module: a `ReferenceError` when it is
not bound. -/
def resolveIdentifier (name : String) : Except String Unit :=
  if moduleScope.contains name then .ok () else .error (name ++ " is not defined")

/-- The statement `Enrollment.findAll({ where, include })`: a SELECT of the rows
that satisfy `p`, each with the relations that `view` includes.  The database is
handed back as the statement leaves it; that a SELECT changes no row, also when
it throws, is what is assumed of the storage layer. -/
def Enrollment.findAll (s : Store) (faults : Faults) (p : Enrollment → Bool)
    (view : Store → Enrollment → EnrollmentView) :
    Store × Except String (List EnrollmentView) :=
  if faults .findAll then (s, .error "storage failure")
  else (s, .ok ((s.enrollments.filter p).map (view s)))

/-- The statement `Enrollment.findByPk(id, { include })`: a SELECT of the row
with that key, with the relations that `view` includes; the database is handed
back as the statement leaves it. -/
def Enrollment.findByPkWith (s : Store) (faults : Faults) (id : Nat)
    (view : Store → Enrollment → EnrollmentView) :
    Store × Except String (Option EnrollmentView) :=
  if faults .findEnrollment then (s, .error "storage failure")
  else (s, .ok ((Enrollment.findByPk s id).map (view s)))

/-- The handler `getAllEnrollments` (lines 21-41). -/
def getAllEnrollments (s : Store) (faults : Faults) : ReadOutcome :=
  match Enrollment.findAll s faults (fun _ => true)
      (fun db e => ⟨e, courseInclude db e, minorsInclude db e, []⟩) with
  | (db, .error msg) => ⟨db, ⟨500, msg, []⟩⟩
  | (db, .ok enrollments) => ⟨db, ⟨200, "", enrollments⟩⟩

/-- The handler `getEnrollmentById` (lines 44-80).  The options of `findByPk`
are built first; they mention `Sequelize.col`, so `Sequelize` is evaluated
inside the `try` block, before any storage call. -/
def getEnrollmentById (s : Store) (id : Nat) (faults : Faults) : ReadOutcome :=
  match resolveIdentifier "Sequelize" with
  | .error msg => ⟨s, ⟨500, msg, []⟩⟩
  | .ok _ =>
    match Enrollment.findByPkWith s faults id
        (fun db e => ⟨e, none, minorsInclude db e, adultsInclude db e⟩) with
    | (db, .error msg) => ⟨db, ⟨500, msg, []⟩⟩
    | (db, .ok none) => ⟨db, ⟨404, "Inscripción no encontrada", []⟩⟩
    | (db, .ok (some enrollment)) => ⟨db, ⟨200, "", [enrollment]⟩⟩

/-- The helper `getEnrollmentWithMinors` (lines 8-18). -/
def getEnrollmentWithMinors (s : Store) (faults : Faults) (id : Nat) :
    Store × Except String (Option EnrollmentView) :=
  Enrollment.findByPkWith s faults id (fun db e => ⟨e, none, minorsInclude db e, []⟩)

/-- The handler `getEnrollmentByIdWithMinors` (lines 83-94). -/
def getEnrollmentByIdWithMinors (s : Store) (id : Nat) (faults : Faults) : ReadOutcome :=
  match getEnrollmentWithMinors s faults id with
  | (db, .error msg) => ⟨db, ⟨500, msg, []⟩⟩
  | (db, .ok none) => ⟨db, ⟨404, "Inscripción no encontrada", []⟩⟩
  | (db, .ok (some enrollment)) => ⟨db, ⟨200, "", [enrollment]⟩⟩

/-- The handler `getAllEnrollmentsByCourseId` (lines 375-398). -/
def getAllEnrollmentsByCourseId (s : Store) (courseId : Nat) (faults : Faults) :
    ReadOutcome :=
  match Enrollment.findAll s faults (fun e => e.id_course == some courseId)
      (fun db e => ⟨e, courseInclude db e, minorsInclude db e, []⟩) with
  | (db, .error msg) => ⟨db, ⟨500, msg, []⟩⟩
  | (db, .ok enrollments) => ⟨db, ⟨200, "", enrollments⟩⟩

/-- The responses of the four read handlers on one store: all enrollments, the
enrollment `id`, the enrollment `id` with its minors, the enrollments of the
course `id`. -/
def readResponses (s : Store) (id : Nat) (faults : Faults) : List ReadResponse :=
  [(getAllEnrollments s faults).response, (getEnrollmentById s id faults).response,
   (getEnrollmentByIdWithMinors s id faults).response,
   (getAllEnrollmentsByCourseId s id faults).response]

/-! ## The enrollment tables of the client -/

/-- An enrollment as the tables hold it; only `fullname` is read by the
search. -/
structure TableItem where
  id : Nat
  fullname : String
deriving DecidableEq

/-- The state of a table component that search and pagination use. -/
structure TableState where
  enrollments : List TableItem
  filteredEnrollments : List TableItem
  currentPage : Int
deriving DecidableEq

/-- Whether the first list starts with the second. -/
def startsWith : List Char → List Char → Bool
  | _, [] => true
  | [], _ :: _ => false
  | a :: as, b :: bs => a == b && startsWith as bs

/-- The method `String.prototype.includes` on character lists. -/
def includes : List Char → List Char → Bool
  | [], t => t.isEmpty
  | a :: as, t => startsWith (a :: as) t || includes as t

/-- Lower-casing of the ASCII letters only: it agrees with `toLowerCase` on ASCII
strings and differs from it on other letters (`toLowerCase` maps 'É' to 'é',
this function leaves it).  The handlers take the lower-casing as a parameter;
this one is used on ASCII data. -/
def asciiLower (s : String) : List Char :=
  s.data.map Char.toLower

/-- The method `Array.prototype.slice(start, stop)`: a negative index counts
from the end, indexes are clamped to the length. -/
def jsSlice {α : Type} (l : List α) (start stop : Int) : List α :=
  let len : Int := l.length
  let lo : Int := if start < 0 then max (len + start) 0 else min start len
  let hi : Int := if stop < 0 then max (len + stop) 0 else min stop len
  (l.drop lo.toNat).take (hi - lo).toNat

/-- The page shown: `filteredEnrollments.slice(indexOfFirstItem,
indexOfLastItem)`. -/
def currentEnrollments (itemsPerPage : Int) (st : TableState) : List TableItem :=
  let indexOfLastItem := st.currentPage * itemsPerPage
  let indexOfFirstItem := indexOfLastItem - itemsPerPage
  jsSlice st.filteredEnrollments indexOfFirstItem indexOfLastItem

/-- The function `handleSearch` of `EnrollmentsTable.jsx` (lines 45-51); `lower`
is `toLowerCase`. -/
def EnrollmentsTable.handleSearch (lower : String → List Char) (st : TableState)
    (searchTerm : String) : TableState :=
  { st with filteredEnrollments :=
      st.enrollments.filter (fun e => includes (lower e.fullname) (lower searchTerm)) }

/-- The function `handleSearch` of `EnrollmentsTableByCourse.jsx` (lines 77-84);
`lower` is `toLowerCase`. -/
def EnrollmentsTableByCourse.handleSearch (lower : String → List Char) (st : TableState)
    (searchTerm : String) : TableState :=
  { st with
    filteredEnrollments :=
      st.enrollments.filter (fun e => includes (lower e.fullname) (lower searchTerm))
    currentPage := 1 }

/-! ## Sequences of calls and group invariants -/

/-- A call of one of the three handlers that write. -/
inductive Call where
  | create (req : EnrollmentRequest) (faults : Faults)
  | update (id : Nat) (req : EnrollmentRequest) (faults : Faults)
  | delete (id : Nat) (faults : Faults)

/-- Whether the call is a create. -/
def Call.isCreate : Call → Bool
  | .create _ _ => true
  | _ => false

/-- The store after one call. -/
def Call.run (s : Store) : Call → Store
  | .create req faults => (createEnrollment s req faults).store
  | .update id req faults => (updateEnrollmentById s id req faults).store
  | .delete id faults => (deleteEnrollmentById s id faults).store

/-- The store after a sequence of create, update and delete calls. -/
def runCalls (s : Store) (calls : List Call) : Store :=
  calls.foldl Call.run s

/-- All the enrollment rows that share a `group_id` have the same
`id_course`. -/
def oneCoursePerGroup (s : Store) : Prop :=
  ∀ e1 ∈ s.enrollments, ∀ e2 ∈ s.enrollments,
    e1.group_id = e2.group_id → e1.id_course = e2.id_course

instance (s : Store) : Decidable (oneCoursePerGroup s) := by
  unfold oneCoursePerGroup
  infer_instance

/-! ## Example data -/

/-- The course of the scenario: id 1, 5 tickets, nothing enrolled yet. -/
def scenarioStore : Store :=
  ⟨[⟨1, "Taller", 5⟩], [], [], 1, 1⟩

/-- The request of the scenario: primary "A" with one minor and one adult. -/
def scenarioRequest : EnrollmentRequest :=
  { fullname := some "A"
    email := some "a@x.com"
    gender := none
    age := some 20
    is_first_activity := none
    id_admin := none
    id_course := some 1
    group_id := none
    accepts_newsletter := none
    minors := [⟨none, some "m1", some 5, none⟩]
    adults := [⟨none, some "B", some "b@x.com", none, some 21, none, none, none⟩] }

/-- A request of a single primary enrollee on course 1 with the given
`group_id`. -/
def soloRequest (group_id : Option Int) : EnrollmentRequest :=
  { fullname := some "C"
    email := some "c@x.com"
    gender := none
    age := some 30
    is_first_activity := none
    id_admin := none
    id_course := some 1
    group_id := group_id
    accepts_newsletter := none
    minors := []
    adults := [] }

/-- An enrollment row with the given id, course and group. -/
def sampleRow (id course : Nat) (group : Int) : Enrollment :=
  ⟨id, some "P", some "p@x.com", some "NS/NC", some 30, false, none, some course,
    some group, false⟩

/-- Two courses; group 7 (rows 1 and 2, one minor) on course 1 and group 8
(row 3, one minor) on course 2. -/
def busyStore : Store :=
  ⟨[⟨1, "Taller", 4⟩, ⟨2, "Charla", 9⟩],
   [sampleRow 1 1 7, sampleRow 2 1 7, sampleRow 3 2 8],
   [⟨1, some "m1", some 5, 1⟩, ⟨2, some "m2", some 6, 3⟩], 4, 3⟩

/-- Only the bulk insertion of the secondary adults fails. -/
def adultsInsertFails : Faults := fun c => c == .bulkCreateAdults

/-- An update of row 1 of `busyStore` that keeps its course and group and adds
one minor (a payload minor without id). -/
def addMinorRequest : EnrollmentRequest :=
  { fullname := some "P"
    email := some "p@x.com"
    gender := some "NS/NC"
    age := some 30
    is_first_activity := some false
    id_admin := none
    id_course := some 1
    group_id := some 7
    accepts_newsletter := some false
    minors := [⟨none, some "m3", some 4, none⟩]
    adults := [] }

/-- The store of the scenario after its first create. -/
def scenarioAfterCreate : Store :=
  (createEnrollment scenarioStore scenarioRequest noFaults).store

/-- The store of the scenario after its second, refused create. -/
def scenarioAfterRefusal : Store :=
  (createEnrollment scenarioAfterCreate scenarioRequest noFaults).store

/-- A request like the scenario's whose minor carries `enrollment_id = 99`. -/
def foreignMinorRequest : EnrollmentRequest :=
  { scenarioRequest with minors := [⟨none, some "m1", some 5, some 99⟩] }

/-- The message of the required-field rejection (line 117). -/
def missingDataMessage : String :=
  "Faltan datos obligatorios: fullname, email, o id_course."

/-- A request of a single primary that lacks `fullname`. -/
def namelessRequest : EnrollmentRequest :=
  { soloRequest none with fullname := none }

/-- A request of a single primary of the given age on course 1. -/
def agedRequest (age : Option Int) : EnrollmentRequest :=
  { soloRequest none with age := age }

/-- A request of a single primary on course 5, which `busyStore` does not
have. -/
def unknownCourseRequest : EnrollmentRequest :=
  { soloRequest none with id_course := some 5 }

/-- An update body for row 1 of `busyStore` that names group 99 instead of the
row's group 7. -/
def regroupRequest : EnrollmentRequest :=
  { addMinorRequest with group_id := some 99, minors := [] }

/-- A store in which row 1 refers to course 9, which does not exist. -/
def danglingStore : Store :=
  ⟨[⟨1, "Taller", 4⟩], [sampleRow 1 9 7], [], 2, 1⟩

/-- An update body for row 1 of `busyStore` (group 7, course 1).  Minors: id 1
(a minor of row 1), id 2 (a minor of row 3) and one without id that names
`enrollment_id = 3`.  Adults: id 2 (group 7), id 3 (group 8) and one without
id. -/
def upsertRequest : EnrollmentRequest :=
  { addMinorRequest with
    minors := [⟨some 1, some "M1", none, none⟩, ⟨some 2, some "X", some 3, none⟩,
      ⟨none, some "m3", some 4, some 3⟩]
    adults := [⟨some 2, some "Q", none, none, some 41, none, none, none⟩,
      ⟨some 3, some "Z", none, none, none, none, none, none⟩,
      ⟨none, some "N", some "n@x.com", none, some 50, none, none, none⟩] }

/-- An update body for row 1 of `busyStore` whose only minor and only adult
carry the id 0. -/
def zeroIdRequest : EnrollmentRequest :=
  { addMinorRequest with
    minors := [⟨some 0, some "z", some 2, none⟩]
    adults := [⟨some 0, some "Z", some "z@x.com", none, some 40, none, none, none⟩] }

/-- The scenario store after a first create of a single primary without
`group_id`. -/
def afterFirstSolo : Store :=
  (createEnrollment scenarioStore (soloRequest none) noFaults).store

/-- A create request on course 1 whose only minor is 20 years old. -/
def grownMinorRequest : EnrollmentRequest :=
  { soloRequest none with minors := [⟨none, some "m20", some 20, none⟩] }

/-- An update body for row 1 of `busyStore` that sets the age of minor 1 to 99
and adds a minor of age -3. -/
def badAgesRequest : EnrollmentRequest :=
  { addMinorRequest with
    minors := [⟨some 1, none, some 99, none⟩, ⟨none, some "neg", some (-3), none⟩] }

/-- A complete request of a single primary on course 1 that omits `age`. -/
def agelessRequest : EnrollmentRequest :=
  agedRequest none

/-- A create request that supplies group 7, the group of rows 1 and 2 of
`busyStore` on course 1, for course 2. -/
def crossCourseRequest : EnrollmentRequest :=
  { soloRequest (some 7) with id_course := some 2 }

/-- An update body for row 1 of `busyStore` that keeps group 7 and names course
2. -/
def moveCourseRequest : EnrollmentRequest :=
  { addMinorRequest with id_course := some 2, minors := [] }

/-- Eleven enrollments: ten named "Ana" and the eleventh named "Zoe". -/
def elevenItems : List TableItem :=
  (List.range 11).map (fun i => ⟨i + 1, if i == 10 then "Zoe" else "Ana"⟩)

/-- A table that holds `elevenItems`, unfiltered, on its second page. -/
def secondPage : TableState :=
  ⟨elevenItems, elevenItems, 2⟩

/-- A database that reads no primary key from a string. -/
def readNoId : String → Option Nat := fun _ => none

/-- The body of a single primary on the course named by `id_course` as sent. -/
def soloBody (id_course : Option JsonId) : CreateBody :=
  { (soloRequest none).body with id_course := id_course }

/-- The body of a single primary on course 1 whose `fullname` is the empty
string. -/
def emptyNameBody : CreateBody :=
  { soloBody (some (.num 1)) with fullname := some "" }

/-- Only the opening of the transaction fails. -/
def beginFails : Faults := fun c => c == .beginTransaction

/-- The insertion of the primary fails, and so does the rollback. -/
def insertAndRollbackFail : Faults := fun c => c == .createPrimary || c == .rollback

/-- Only the insertion of the primary fails. -/
def insertFails : Faults := fun c => c == .createPrimary

/-- An update body for row 1 of `afterFirstSolo` that keeps its course 1 and its
group 1. -/
def keepGroupRequest : EnrollmentRequest :=
  { soloRequest (some 1) with fullname := some "D" }

/-- The calls between two creates: a create without `group_id` (row 2, group 2),
the delete of row 2, and an update of row 1 that keeps its group. -/
def mixedCalls : List Call :=
  [.create (soloRequest none) noFaults, .delete 2 noFaults,
   .update 1 keepGroupRequest noFaults]

/-- The store `busyStore` with other values of the auto-increment counters. -/
def busyStoreLater : Store :=
  { busyStore with nextEnrollmentId := 9, nextMinorId := 7 }

/-! ## Lemmas -/

theorem settle_response (s : Store) (a : Attempt) : (settle s a).response = a.response := by
  unfold settle
  cases a.tx <;> rfl

theorem settle_tx (s : Store) (a : Attempt) : (settle s a).tx = a.tx := by
  unfold settle
  cases h : a.tx <;> simp [h]

theorem settle_committed (s : Store) (a : Attempt) (h : a.tx = .committed) :
    (settle s a).store = a.working := by
  unfold settle
  simp [h]

theorem settle_not_committed (s : Store) (a : Attempt) (h : a.tx ≠ .committed) :
    (settle s a).store.enrollments = s.enrollments ∧
    (settle s a).store.minors = s.minors ∧
    (settle s a).store.courses = s.courses := by
  unfold settle
  cases h1 : a.tx <;> simp_all

theorem assignIds_length (next : Nat) (rows : List Enrollment) :
    (assignIds next rows).length = rows.length := by
  induction rows generalizing next with
  | nil => rfl
  | cons r rs ih => simp [assignIds, ih]

theorem assignIds_mem {next : Nat} {rows : List Enrollment} {e : Enrollment}
    (h : e ∈ assignIds next rows) :
    next ≤ e.id ∧ e.id < next + rows.length ∧
      ∃ r ∈ rows, e = { r with id := e.id } := by
  induction rows generalizing next with
  | nil => simp [assignIds] at h
  | cons r rs ih =>
    simp only [assignIds, List.mem_cons] at h
    rcases h with h | h
    · subst h
      refine ⟨le_refl _, by simp, r, by simp, rfl⟩
    · obtain ⟨h1, h2, r1, hr1, he⟩ := ih h
      refine ⟨by omega, by simp only [List.length_cons]; omega, r1, by simp [hr1], he⟩

theorem Enrollment.bulkCreate_eq (s : Store) (rows : List Enrollment) :
    Enrollment.bulkCreate s rows =
      { s with enrollments := s.enrollments ++ assignIds s.nextEnrollmentId rows,
               nextEnrollmentId := s.nextEnrollmentId + rows.length } := by
  unfold Enrollment.bulkCreate
  induction rows generalizing s with
  | nil => simp [assignIds]
  | cons r rs ih =>
    rw [List.foldl_cons, ih]
    simp only [Enrollment.create, assignIds, List.length_cons, List.append_assoc,
      List.singleton_append]
    congr 1
    omega

theorem Minor.create_ok {s w : Store} {p : MinorPayload} {eid : Nat}
    (h : Minor.create s p eid = .ok w) :
    ∃ m : Minor, w.minors = s.minors ++ [m] ∧ m.enrollment_id = eid ∧
      m.name = p.name ∧ m.age = p.age ∧
      s.nextMinorId ≤ w.nextMinorId ∧
      w.enrollments = s.enrollments ∧ w.courses = s.courses ∧
      w.nextEnrollmentId = s.nextEnrollmentId := by
  unfold Minor.create at h
  split at h
  · dsimp only at h
    split at h
    · cases h
    · cases h
      exact ⟨_, rfl, rfl, rfl, rfl, le_max_left _ _, rfl, rfl, rfl⟩
  · cases h
    exact ⟨_, rfl, rfl, rfl, rfl, Nat.le_succ _, rfl, rfl, rfl⟩

theorem Minor.bulkCreate_ok {ps : List MinorPayload} {s w : Store} {eid : Nat}
    (h : Minor.bulkCreate s ps eid = .ok w) :
    ∃ added : List Minor, w.minors = s.minors ++ added ∧ added.length = ps.length ∧
      (∀ m ∈ added, m.enrollment_id = eid) ∧
      w.enrollments = s.enrollments ∧ w.courses = s.courses ∧
      w.nextEnrollmentId = s.nextEnrollmentId := by
  induction ps generalizing s with
  | nil =>
    simp only [Minor.bulkCreate, Except.ok.injEq] at h
    subst h
    exact ⟨[], by simp, rfl, by simp, rfl, rfl, rfl⟩
  | cons p rest ih =>
    simp only [Minor.bulkCreate] at h
    cases hc : Minor.create s p eid with
    | error msg => simp [hc] at h
    | ok w1 =>
      simp only [hc] at h
      obtain ⟨m, hm, hme, -, -, -, he1, hc1, hn1⟩ := Minor.create_ok hc
      obtain ⟨added, ha, hl, hall, he2, hc2, hn2⟩ := ih h
      refine ⟨m :: added, ?_, by simp [hl], ?_, he2.trans he1, hc2.trans hc1, hn2.trans hn1⟩
      · rw [ha, hm]
        simp
      · intro x hx
        rcases List.mem_cons.mp hx with hx | hx
        · rw [hx]
          exact hme
        · exact hall x hx

theorem createMinors_ok {s w : Store} {req : EnrollmentRequest} {eid : Nat} {faults : Faults}
    (h : createMinors s req eid faults = .ok w) :
    ∃ added : List Minor, w.minors = s.minors ++ added ∧ added.length = req.minors.length ∧
      (∀ m ∈ added, m.enrollment_id = eid) ∧
      w.enrollments = s.enrollments ∧ w.courses = s.courses ∧
      w.nextEnrollmentId = s.nextEnrollmentId := by
  unfold createMinors at h
  split at h
  · split at h
    · cases h
    · exact Minor.bulkCreate_ok h
  · rename_i hlen
    cases h
    have h0 : req.minors = [] := by
      cases hm : req.minors with
      | nil => rfl
      | cons a l => simp [hm] at hlen
    exact ⟨[], by simp, by simp [h0], by simp, rfl, rfl, rfl⟩

theorem createAdults_ok {s w : Store} {req : EnrollmentRequest} {gid : Int} {faults : Faults}
    (h : createAdults s req gid faults = .ok w) :
    w.enrollments =
      s.enrollments ++ assignIds s.nextEnrollmentId (req.adults.map (adultRow req gid)) ∧
    w.minors = s.minors ∧ w.courses = s.courses := by
  unfold createAdults at h
  split at h
  · split at h
    · cases h
    · cases h
      rw [Enrollment.bulkCreate_eq]
      exact ⟨rfl, rfl, rfl⟩
  · rename_i hlen
    cases h
    have h0 : req.adults = [] := by
      cases hm : req.adults with
      | nil => rfl
      | cons a l => simp [hm] at hlen
    simp [h0, assignIds]

theorem createWrites_cases (s : Store) (req : EnrollmentRequest) (course : Course)
    (faults : Faults) :
    ((createWrites s req course (totalTicketsRequired req) faults).response.status = 500 ∧
      (createWrites s req course (totalTicketsRequired req) faults).tx = .rolledBack) ∨
    CreateCommitted s req course
      (createWrites s req course (totalTicketsRequired req) faults) := by
  by_cases h1 : (!(truthyInt req.group_id) && faults .maxGroupId) = true
  · left
    simp [createWrites, h1, thrown]
  by_cases h2 : faults .createPrimary = true
  · left
    simp [createWrites, h1, h2, thrown]
  cases h3 : createMinors (Enrollment.create s (primaryRow req (newGroupId s req.group_id))).1
      req (Enrollment.create s (primaryRow req (newGroupId s req.group_id))).2.id faults with
  | error msg =>
    left
    simp [createWrites, h1, h2, h3, thrown]
  | ok w2 =>
    cases h4 : createAdults w2 req (newGroupId s req.group_id) faults with
    | error msg =>
      left
      simp [createWrites, h1, h2, h3, h4, thrown]
    | ok w3 =>
      by_cases h5 : faults .updateCourse = true
      · left
        simp [createWrites, h1, h2, h3, h4, h5, thrown]
      by_cases h6 : faults .commit = true
      · left
        simp [createWrites, h1, h2, h3, h4, h5, h6, thrown]
      right
      have key : createWrites s req course (totalTicketsRequired req) faults =
          ⟨Course.updateTickets w3 (req.id_course.getD 0)
              (course.tickets - totalTicketsRequired req),
            ⟨201, "Inscripción creada con éxito.", some (createdPrimary s req), none⟩,
            .committed⟩ := by
        simp only [createWrites, h1, h2, h3, h4, h5, h6]
        rfl
      rw [key]
      obtain ⟨added, hm, hl, hall, he, hc, hn⟩ := createMinors_ok h3
      obtain ⟨he4, hm4, hc4⟩ := createAdults_ok h4
      refine ⟨added, ?_, ?_, hl, ?_, ?_, rfl, rfl⟩
      · simp [Course.updateTickets, he4, he, hn, createdPrimary, createdAdults,
          Enrollment.create]
      · simp [Course.updateTickets, hm4, hm, Enrollment.create]
      · simpa [Enrollment.create] using hall
      · simp [Course.updateTickets, hc4, hc, Enrollment.create]

theorem createAttempt_missing {s : Store} {req : EnrollmentRequest} {faults : Faults}
    (h : missingRequired req = true) :
    createAttempt s req faults =
      ⟨s, reply 400 "Faltan datos obligatorios: fullname, email, o id_course.", .leftOpen⟩ := by
  unfold missingRequired at h
  simp only [createAttempt, h, if_true]

theorem createAttempt_age {s : Store} {req : EnrollmentRequest} {faults : Faults}
    (h : missingRequired req = false) (ha : req.age.getD 0 < 14) :
    createAttempt s req faults =
      ⟨s, reply 400 "El titular debe ser mayor de 14 años.", .leftOpen⟩ := by
  unfold missingRequired at h
  simp [createAttempt, h, ha]

theorem createAttempt_findFault {s : Store} {req : EnrollmentRequest} {faults : Faults}
    (h : missingRequired req = false) (ha : 14 ≤ req.age.getD 0)
    (hf : faults .findCourse = true) :
    createAttempt s req faults = thrown s "storage failure" := by
  unfold missingRequired at h
  simp [createAttempt, h, not_lt.mpr ha, hf]

theorem createAttempt_noCourse {s : Store} {req : EnrollmentRequest} {faults : Faults}
    (h : missingRequired req = false) (ha : 14 ≤ req.age.getD 0)
    (hf : faults .findCourse = false)
    (hc : Course.findByPk s (req.id_course.getD 0) = none) :
    createAttempt s req faults = ⟨s, reply 404 "Curso no encontrado.", .leftOpen⟩ := by
  unfold missingRequired at h
  simp [createAttempt, h, not_lt.mpr ha, hf, hc]

theorem createAttempt_noTickets {s : Store} {req : EnrollmentRequest} {faults : Faults}
    {course : Course}
    (h : missingRequired req = false) (ha : 14 ≤ req.age.getD 0)
    (hf : faults .findCourse = false)
    (hc : Course.findByPk s (req.id_course.getD 0) = some course)
    (ht : course.tickets < totalTicketsRequired req) :
    createAttempt s req faults =
      ⟨s, reply 400 "No hay suficientes tickets disponibles para esta inscripción.",
        .leftOpen⟩ := by
  unfold missingRequired at h
  simp [createAttempt, h, not_lt.mpr ha, hf, hc, ht]

theorem createAttempt_writes {s : Store} {req : EnrollmentRequest} {faults : Faults}
    {course : Course}
    (h : missingRequired req = false) (ha : 14 ≤ req.age.getD 0)
    (hf : faults .findCourse = false)
    (hc : Course.findByPk s (req.id_course.getD 0) = some course)
    (ht : totalTicketsRequired req ≤ course.tickets) :
    createAttempt s req faults =
      createWrites s req course (totalTicketsRequired req) faults := by
  unfold missingRequired at h
  simp [createAttempt, h, not_lt.mpr ha, hf, hc, not_lt.mpr ht]

/-- Every create either answers 400, 404 or 500 without committing, or commits
what `CreateCommitted` describes and answers 201. -/
theorem createAttempt_cases (s : Store) (req : EnrollmentRequest) (faults : Faults) :
    (((createAttempt s req faults).response.status = 400 ∨
        (createAttempt s req faults).response.status = 404 ∨
        (createAttempt s req faults).response.status = 500) ∧
      (createAttempt s req faults).tx ≠ .committed) ∨
    (∃ course, missingRequired req = false ∧ 14 ≤ req.age.getD 0 ∧
      Course.findByPk s (req.id_course.getD 0) = some course ∧
      totalTicketsRequired req ≤ course.tickets ∧
      CreateCommitted s req course (createAttempt s req faults)) := by
  cases h : missingRequired req with
  | true => left; rw [createAttempt_missing h]; simp [reply]
  | false =>
    by_cases ha : req.age.getD 0 < 14
    · left; rw [createAttempt_age h ha]; simp [reply]
    have ha := not_lt.mp ha
    cases hf : faults .findCourse with
    | true => left; rw [createAttempt_findFault h ha hf]; simp [thrown]
    | false =>
      cases hc : Course.findByPk s (req.id_course.getD 0) with
      | none => left; rw [createAttempt_noCourse h ha hf hc]; simp [reply]
      | some course =>
        by_cases ht : course.tickets < totalTicketsRequired req
        · left; rw [createAttempt_noTickets h ha hf hc ht]; simp [reply]
        have ht := not_lt.mp ht
        rw [createAttempt_writes h ha hf hc ht]
        rcases createWrites_cases s req course faults with h5 | h5
        · left
          exact ⟨Or.inr (Or.inr h5.1), by rw [h5.2]; simp⟩
        · right
          exact ⟨course, rfl, ha, rfl, ht, h5⟩

theorem find?_map_courses (l : List Course) (cid k : Nat) (f : Course → Course)
    (hf : ∀ c, (f c).id = c.id) :
    (l.map (fun c => if c.id == cid then f c else c)).find? (fun c => c.id == k) =
      (l.find? (fun c => c.id == k)).map (fun c => if c.id == cid then f c else c) := by
  induction l with
  | nil => rfl
  | cons c cs ih =>
    simp only [List.map_cons, List.find?_cons]
    have hid : (if c.id == cid then f c else c).id = c.id := by
      split
      · exact hf c
      · rfl
    rw [hid]
    cases hk : c.id == k with
    | true => rfl
    | false => exact ih

theorem Course.findByPk_course_id {s : Store} {cid : Nat} {course : Course}
    (h : Course.findByPk s cid = some course) : course.id = cid := by
  have := List.find?_some h
  simpa using this

theorem Course.findByPk_course_mem {s : Store} {cid : Nat} {course : Course}
    (h : Course.findByPk s cid = some course) : course ∈ s.courses :=
  List.mem_of_find?_eq_some h

theorem Enrollment.findByPk_row_id {s : Store} {id : Nat} {e : Enrollment}
    (h : Enrollment.findByPk s id = some e) : e.id = id := by
  have := List.find?_some h
  simpa using this

theorem Enrollment.findByPk_row_mem {s : Store} {id : Nat} {e : Enrollment}
    (h : Enrollment.findByPk s id = some e) : e ∈ s.enrollments :=
  List.mem_of_find?_eq_some h

/-- The tickets of course `k` after the tickets of course `cid` were set. -/
theorem ticketsOf_map_set (s w : Store) (cid k : Nat) (t : Int)
    (hw : w.courses = s.courses.map (fun c =>
      if c.id == cid then { c with tickets := t } else c)) :
    ticketsOf w k = (ticketsOf s k).map (fun old => if k = cid then t else old) := by
  unfold ticketsOf Course.findByPk
  rw [hw, find?_map_courses s.courses cid k (fun c => { c with tickets := t }) (fun _ => rfl)]
  cases hfind : s.courses.find? (fun c => c.id == k) with
  | none => rfl
  | some c =>
    have hid : c.id = k := by simpa using List.find?_some hfind
    simp only [Option.map_some', Option.some.injEq]
    by_cases hk : k = cid
    · simp [hid, hk]
    · simp [hid, hk]

/-- The tickets of course `k` after the tickets of course `cid` were incremented. -/
theorem ticketsOf_map_add (s w : Store) (cid k : Nat) (n : Int)
    (hw : w.courses = s.courses.map (fun c =>
      if c.id == cid then { c with tickets := c.tickets + n } else c)) :
    ticketsOf w k = (ticketsOf s k).map (fun old => if k = cid then old + n else old) := by
  unfold ticketsOf Course.findByPk
  rw [hw, find?_map_courses s.courses cid k (fun c => { c with tickets := c.tickets + n })
    (fun _ => rfl)]
  cases hfind : s.courses.find? (fun c => c.id == k) with
  | none => rfl
  | some c =>
    have hid : c.id = k := by simpa using List.find?_some hfind
    simp only [Option.map_some', Option.some.injEq]
    by_cases hk : k = cid
    · simp [hid, hk]
    · simp [hid, hk]

/-- A create that answers anything but 201 has not committed. -/
theorem createAttempt_not_committed {s : Store} {req : EnrollmentRequest} {faults : Faults}
    (h : (createAttempt s req faults).response.status ≠ 201) :
    (createAttempt s req faults).tx ≠ .committed := by
  rcases createAttempt_cases s req faults with h1 | ⟨course, -, -, -, -, added, -, -, -, -, -, hr, -⟩
  · exact h1.2
  · rw [hr] at h
    exact absurd rfl h

/-- Every delete either answers 404 or 500 after a rollback, or commits what
`DeleteCommitted` describes and answers 200. -/
theorem deleteAttempt_cases (s : Store) (id : Nat) (faults : Faults) :
    ((deleteAttempt s id faults).response.status = 500 ∧
      (deleteAttempt s id faults).tx = .rolledBack) ∨
    ((deleteAttempt s id faults).response.status = 404 ∧
      (deleteAttempt s id faults).tx = .rolledBack ∧
      (Enrollment.findByPk s id = none ∨
        ∃ e, Enrollment.findByPk s id = some e ∧
          e.id_course.bind (Course.findByPk s) = none)) ∨
    (∃ e course, Enrollment.findByPk s id = some e ∧
      e.id_course.bind (Course.findByPk s) = some course ∧
      DeleteCommitted s e.group_id course (deleteAttempt s id faults)) := by
  by_cases h1 : faults .findEnrollment = true
  · left
    simp [deleteAttempt, h1, thrown]
  cases he : Enrollment.findByPk s id with
  | none =>
    right; left
    simp [deleteAttempt, h1, he, reply]
  | some e =>
    by_cases h2 : faults .findCourse = true
    · left
      simp [deleteAttempt, h1, he, h2, thrown]
    cases hc : e.id_course.bind (Course.findByPk s) with
    | none =>
      refine Or.inr (Or.inl ⟨?_, ?_, Or.inr ⟨e, rfl, hc⟩⟩)
      · simp [deleteAttempt, h1, he, h2, hc, reply]
      · simp [deleteAttempt, h1, he, h2, hc, reply]
    | some course =>
      by_cases h3 : faults .findGroup = true
      · left
        simp [deleteAttempt, h1, he, h2, hc, h3, thrown]
      by_cases h4 : faults .destroyMinors = true
      · left
        simp [deleteAttempt, h1, he, h2, hc, h3, h4, thrown]
      by_cases h5 : faults .destroyEnrollments = true
      · left
        simp [deleteAttempt, h1, he, h2, hc, h3, h4, h5, thrown]
      by_cases h6 : faults .incrementCourse = true
      · left
        simp [deleteAttempt, h1, he, h2, hc, h3, h4, h5, h6, thrown]
      by_cases h7 : faults .commit = true
      · left
        simp [deleteAttempt, h1, he, h2, hc, h3, h4, h5, h6, h7, thrown]
      right; right
      refine ⟨e, course, rfl, hc, ?_⟩
      unfold DeleteCommitted
      simp [deleteAttempt, h1, he, h2, hc, h3, h4, h5, h6, h7, Minor.destroy,
        Enrollment.destroy, Course.increment, groupOf, minorsOfGroup]

theorem filter_length_add {α : Type} (p : α → Bool) (l : List α) :
    (l.filter (fun x => !(p x))).length + (l.filter p).length = l.length := by
  induction l with
  | nil => rfl
  | cons x xs ih =>
    cases hp : p x <;> simp [List.filter_cons, hp] <;> omega

/-- With unique ids, the rows whose id is one of the ids of group `g` are the
rows of group `g`. -/
theorem contains_groupIds_iff {s : Store}
    (hnd : (s.enrollments.map (fun e => e.id)).Nodup) (g : Option Int)
    {x : Enrollment} (hx : x ∈ s.enrollments) :
    ((groupOf s g).map (fun e => e.id)).contains x.id = (x.group_id == g) := by
  rw [Bool.eq_iff_iff]
  simp only [List.contains_iff_exists_mem_beq, List.mem_map, groupOf, List.mem_filter,
    beq_iff_eq]
  constructor
  · rintro ⟨i, ⟨y, ⟨hy, hg⟩, hid⟩, hxi⟩
    have := List.inj_on_of_nodup_map hnd hy hx (hid.trans hxi.symm)
    rw [← this]
    exact hg
  · intro hg
    exact ⟨x.id, ⟨x, ⟨hx, hg⟩, rfl⟩, rfl⟩

theorem maxOpt_ge {l : List Int} {x : Int} (h : x ∈ l) :
    ∃ m, maxOpt l = some m ∧ x ≤ m := by
  induction l with
  | nil => simp at h
  | cons y ys ih =>
    simp only [maxOpt]
    rcases List.mem_cons.mp h with h | h
    · subst h
      cases maxOpt ys with
      | none => exact ⟨x, rfl, le_refl _⟩
      | some m => exact ⟨max x m, rfl, le_max_left _ _⟩
    · obtain ⟨m, hm, hle⟩ := ih h
      rw [hm]
      exact ⟨max y m, rfl, le_trans hle (le_max_right _ _)⟩

theorem maxOpt_mem {l : List Int} {m : Int} (h : maxOpt l = some m) : m ∈ l := by
  induction l generalizing m with
  | nil => simp [maxOpt] at h
  | cons y ys ih =>
    simp only [maxOpt] at h
    cases hys : maxOpt ys with
    | none =>
      simp only [hys, Option.some.injEq] at h
      simp [h]
    | some m1 =>
      simp only [hys, Option.some.injEq] at h
      rcases max_choice y m1 with hmax | hmax
      · rw [hmax] at h
        simp [h]
      · rw [hmax] at h
        subst h
        exact List.mem_cons_of_mem _ (ih hys)

theorem maxOpt_eq_none {l : List Int} (h : l = []) : maxOpt l = none := by
  subst h
  rfl

/-- The group id a create generates when the request carries none (or 0): one
more than the largest group id of the table, 1 on a table without group ids. -/
theorem newGroupId_generated (s : Store) (g : Option Int) (h : truthyInt g = false) :
    newGroupId s g = (Enrollment.maxGroupId s).getD 0 + 1 := by
  unfold newGroupId
  simp only [h, Bool.false_eq_true, if_false]
  cases hm : Enrollment.maxGroupId s with
  | none => simp [truthyInt]
  | some m =>
    by_cases h0 : m = 0
    · simp [truthyInt, h0]
    · simp [truthyInt, h0]

theorem newGroupId_supplied (s : Store) (g : Option Int) (h : truthyInt g = true) :
    some (newGroupId s g) = g := by
  unfold newGroupId
  simp only [h, if_true]
  cases g with
  | none => simp [truthyInt] at h
  | some v => rfl

/-- A generated group id is carried by no existing row. -/
theorem newGroupId_fresh (s : Store) (g : Option Int)
    (h : truthyInt g = true → ∀ e ∈ s.enrollments, e.group_id ≠ g) :
    ∀ e ∈ s.enrollments, e.group_id ≠ some (newGroupId s g) := by
  intro e he
  cases ht : truthyInt g with
  | true =>
    rw [newGroupId_supplied s g ht]
    exact h ht e he
  | false =>
    rw [newGroupId_generated s g ht]
    intro hg
    have hmem : (Enrollment.maxGroupId s).getD 0 + 1 ∈
        s.enrollments.filterMap (fun e => e.group_id) :=
      List.mem_filterMap.mpr ⟨e, he, hg⟩
    obtain ⟨m, hm, hle⟩ := maxOpt_ge hmem
    have hm2 : Enrollment.maxGroupId s = some m := hm
    rw [hm2] at hle
    simp only [Option.getD_some] at hle
    omega

/-- The rows a create writes carry the new group id and the request's course,
and their ids are the generated ones. -/
theorem createdRows_spec (s : Store) (req : EnrollmentRequest) :
    ∀ x ∈ createdPrimary s req :: createdAdults s req,
      x.group_id = some (newGroupId s req.group_id) ∧ x.id_course = req.id_course ∧
      s.nextEnrollmentId ≤ x.id := by
  intro x hx
  rcases List.mem_cons.mp hx with hx | hx
  · subst hx
    exact ⟨rfl, rfl, le_refl _⟩
  · obtain ⟨h1, -, r, hr, hxr⟩ := assignIds_mem hx
    obtain ⟨adult, -, rfl⟩ := List.mem_map.mp hr
    rw [hxr]
    exact ⟨rfl, rfl, by simp only; omega⟩

theorem createdRows_length (s : Store) (req : EnrollmentRequest) :
    (createdPrimary s req :: createdAdults s req).length = 1 + req.adults.length := by
  simp [createdAdults, assignIds_length]
  omega

/-- What a create that answered 201 has left in the store. -/
theorem createEnrollment_created {s : Store} {req : EnrollmentRequest} {faults : Faults}
    (h : (createEnrollment s req faults).response.status = 201) :
    ∃ (course : Course) (added : List Minor),
      missingRequired req = false ∧ 14 ≤ req.age.getD 0 ∧
      Course.findByPk s (req.id_course.getD 0) = some course ∧
      totalTicketsRequired req ≤ course.tickets ∧
      (createEnrollment s req faults).store.enrollments =
        s.enrollments ++ createdPrimary s req :: createdAdults s req ∧
      (createEnrollment s req faults).store.minors = s.minors ++ added ∧
      added.length = req.minors.length ∧
      (∀ m ∈ added, m.enrollment_id = s.nextEnrollmentId) ∧
      (createEnrollment s req faults).store.courses = s.courses.map (fun c =>
        if c.id == req.id_course.getD 0 then
          { c with tickets := course.tickets - totalTicketsRequired req } else c) ∧
      (createEnrollment s req faults).response.enrollment = some (createdPrimary s req) ∧
      (createEnrollment s req faults).tx = .committed := by
  unfold createEnrollment at h ⊢
  rw [settle_response] at h ⊢
  rw [settle_tx]
  rcases createAttempt_cases s req faults with h1 | ⟨course, hm, ha, hc, ht, hcomm⟩
  · rcases h1.1 with h2 | h2 | h2 <;> rw [h2] at h <;> simp at h
  · obtain ⟨added, he, hmi, hl, hall, hco, hr, htx⟩ := hcomm
    rw [settle_committed _ _ htx]
    exact ⟨course, added, hm, ha, hc, ht, he, hmi, hl, hall, hco, by rw [hr], htx⟩

theorem truthyNat_some {o : Option Nat} (h : truthyNat o = true) : o = some (o.getD 0) := by
  cases o with
  | none => simp [truthyNat] at h
  | some v => rfl

theorem find?_append_of_none {α : Type} (p : α → Bool) (l1 l2 : List α)
    (h : ∀ x ∈ l1, p x = false) : (l1 ++ l2).find? p = l2.find? p := by
  induction l1 with
  | nil => rfl
  | cons x xs ih =>
    have hx : p x = false := h x (List.mem_cons_self _ _)
    simp only [List.cons_append, List.find?_cons, hx]
    exact ih (fun y hy => h y (List.mem_cons_of_mem _ hy))

theorem filter_append_left {α : Type} (p : α → Bool) (l1 l2 : List α)
    (h1 : ∀ x ∈ l1, p x = true) (h2 : ∀ x ∈ l2, p x = false) :
    (l1 ++ l2).filter p = l1 := by
  rw [List.filter_append, List.filter_eq_self.mpr h1,
    List.filter_eq_nil_iff.mpr (fun x hx => by simp [h2 x hx])]
  simp

theorem filter_append_right {α : Type} (p : α → Bool) (l1 l2 : List α)
    (h1 : ∀ x ∈ l1, p x = false) (h2 : ∀ x ∈ l2, p x = true) :
    (l1 ++ l2).filter p = l2 := by
  rw [List.filter_append, List.filter_eq_self.mpr h2,
    List.filter_eq_nil_iff.mpr (fun x hx => by simp [h1 x hx])]
  simp

theorem contains_ids_iff (l : List Enrollment) (i : Nat) :
    (l.map (fun e => e.id)).contains i = true ↔ ∃ x ∈ l, x.id = i := by
  simp only [List.contains_iff_exists_mem_beq, List.mem_map, beq_iff_eq]
  constructor
  · rintro ⟨j, ⟨x, hx, hxj⟩, hij⟩
    exact ⟨x, hx, hxj.trans hij.symm⟩
  · rintro ⟨x, hx, hxi⟩
    exact ⟨i, ⟨x, hx, hxi⟩, rfl⟩

theorem contains_ids_false (l : List Enrollment) (i : Nat) (h : ∀ x ∈ l, x.id ≠ i) :
    (l.map (fun e => e.id)).contains i = false := by
  rw [Bool.eq_false_iff]
  intro hc
  obtain ⟨x, hx, hxi⟩ := (contains_ids_iff l i).mp hc
  exact h x hx hxi

/-- Setting the tickets of the found course to `t - n` and then adding `n` to the
tickets of that course gives back the table, when ids are unique. -/
theorem courses_set_then_add (l : List Course) (cid : Nat) (course : Course) (n : Int)
    (hnd : (l.map (fun c => c.id)).Nodup) (hmem : course ∈ l) (hid : course.id = cid) :
    (l.map (fun c =>
        if c.id == cid then { c with tickets := course.tickets - n } else c)).map
      (fun c => if c.id == cid then { c with tickets := c.tickets + n } else c) = l := by
  rw [List.map_map]
  conv_rhs => rw [← List.map_id l]
  apply List.map_congr_left
  intro c hc
  simp only [Function.comp_apply, id_eq]
  by_cases hcid : c.id = cid
  · have hcc : c = course := List.inj_on_of_nodup_map hnd hc hmem (hcid.trans hid.symm)
    subst hcc
    cases c
    simp only at hcid
    simp [hcid]
  · simp [hcid]

theorem updateMinorsLoop_courses (id : Nat) (faults : Faults) (i : Nat)
    (ms : List MinorPayload) (w : Store) :
    (updateMinorsLoop id faults i ms w).1.courses = w.courses := by
  induction ms generalizing i w with
  | nil => rfl
  | cons m rest ih =>
    unfold updateMinorsLoop
    split
    · split
      · rfl
      · rw [ih]
        rfl
    · split
      · rfl
      · split
        · rfl
        · rename_i w1 hc
          rw [ih]
          obtain ⟨_, -, -, -, -, -, -, hcs, -⟩ := Minor.create_ok hc
          exact hcs

theorem updateAdultsLoop_courses (req : EnrollmentRequest) (faults : Faults) (i : Nat)
    (as : List AdultPayload) (w : Store) :
    (updateAdultsLoop req faults i as w).1.courses = w.courses := by
  induction as generalizing i w with
  | nil => rfl
  | cons a rest ih =>
    unfold updateAdultsLoop
    split
    · split
      · rfl
      · split
        · rfl
        · rw [ih]
          rfl
    · split
      · rfl
      · rw [ih]
        rfl

/-- Every update either answers 500 or 404 after a rollback, or commits the
store produced by the two loops and answers 200. -/
theorem updateAttempt_cases (s : Store) (id : Nat) (req : EnrollmentRequest)
    (faults : Faults) :
    ((updateAttempt s id req faults).response.status = 500 ∧
      (updateAttempt s id req faults).tx = .rolledBack) ∨
    ((updateAttempt s id req faults).response.status = 404 ∧
      (updateAttempt s id req faults).tx = .rolledBack ∧
      Enrollment.findByPk s id = none) ∨
    (∃ e w2 w3, Enrollment.findByPk s id = some e ∧
      updateMinorsLoop id faults 0 req.minors (Enrollment.updatePrimary s e.id req) =
        (w2, none) ∧
      updateAdultsLoop req faults 0 req.adults w2 = (w3, none) ∧
      updateAttempt s id req faults =
        ⟨w3, reply 200 "Inscripción actualizada con éxito.", .committed⟩) := by
  by_cases h1 : faults .findEnrollment = true
  · left
    simp [updateAttempt, h1, thrown]
  cases he : Enrollment.findByPk s id with
  | none =>
    right; left
    simp [updateAttempt, h1, he, reply]
  | some e =>
    by_cases h2 : faults .updatePrimary = true
    · left
      simp [updateAttempt, h1, he, h2, thrown]
    rcases hm : updateMinorsLoop id faults 0 req.minors (Enrollment.updatePrimary s e.id req)
      with ⟨w2, _ | msg⟩
    · rcases ha : updateAdultsLoop req faults 0 req.adults w2 with ⟨w3, _ | msg⟩
      · by_cases h3 : faults .commit = true
        · left
          simp [updateAttempt, h1, he, h2, hm, ha, h3, thrown]
        · right; right
          refine ⟨e, w2, w3, rfl, hm, ha, ?_⟩
          simp [updateAttempt, h1, he, h2, hm, ha, h3]
      · left
        simp [updateAttempt, h1, he, h2, hm, ha, thrown]
    · left
      simp [updateAttempt, h1, he, h2, hm, thrown]

theorem settle_courses (s : Store) (a : Attempt)
    (h : a.tx = .committed → a.working.courses = s.courses) :
    (settle s a).store.courses = s.courses := by
  unfold settle
  cases htx : a.tx with
  | committed => exact h htx
  | rolledBack => rfl
  | leftOpen => rfl

/-- No update changes the course table. -/
theorem updateEnrollmentById_courses (s : Store) (id : Nat) (req : EnrollmentRequest)
    (faults : Faults) : (updateEnrollmentById s id req faults).store.courses = s.courses := by
  unfold updateEnrollmentById
  apply settle_courses
  intro htx
  rcases updateAttempt_cases s id req faults with h | h | ⟨e, w2, w3, -, hm, ha, hu⟩
  · rw [h.2] at htx
    cases htx
  · rw [h.2.1] at htx
    cases htx
  · rw [hu]
    have h1 := updateMinorsLoop_courses id faults 0 req.minors
      (Enrollment.updatePrimary s e.id req)
    have h2 := updateAdultsLoop_courses req faults 0 req.adults w2
    rw [hm] at h1
    rw [ha] at h2
    exact h2.trans h1

/-- A bulk insertion of minors none of which carries an id cannot fail. -/
theorem Minor.bulkCreate_total (ps : List MinorPayload) (s : Store) (eid : Nat)
    (h : ∀ p ∈ ps, truthyNat p.id = false) : ∃ w, Minor.bulkCreate s ps eid = .ok w := by
  induction ps generalizing s with
  | nil => exact ⟨s, rfl⟩
  | cons p rest ih =>
    have hp : truthyNat p.id = false := h p (List.mem_cons_self _ _)
    simp only [Minor.bulkCreate, Minor.create, hp, Bool.false_eq_true, if_false]
    exact ih _ (fun q hq => h q (List.mem_cons_of_mem _ hq))

/-- A create whose writes were committed met no failing storage call. -/
theorem createWrites_committed_faults {s : Store} {req : EnrollmentRequest}
    {course : Course} {total : Int} {faults : Faults}
    (h : (createWrites s req course total faults).tx = .committed) :
    ¬ writeFails s req faults := by
  by_cases h1 : (!(truthyInt req.group_id) && faults .maxGroupId) = true
  · simp [createWrites, h1, thrown] at h
  by_cases h2 : faults .createPrimary = true
  · simp [createWrites, h1, h2, thrown] at h
  cases h3 : createMinors (Enrollment.create s (primaryRow req (newGroupId s req.group_id))).1
      req (Enrollment.create s (primaryRow req (newGroupId s req.group_id))).2.id faults with
  | error msg => simp [createWrites, h1, h2, h3, thrown] at h
  | ok w2 =>
    cases h4 : createAdults w2 req (newGroupId s req.group_id) faults with
    | error msg => simp [createWrites, h1, h2, h3, h4, thrown] at h
    | ok w3 =>
      by_cases h5 : faults .updateCourse = true
      · simp [createWrites, h1, h2, h3, h4, h5, thrown] at h
      by_cases h6 : faults .commit = true
      · simp [createWrites, h1, h2, h3, h4, h5, h6, thrown] at h
      rintro (⟨hg, hf⟩ | hf | ⟨hk, hf⟩ | ⟨hk, hf⟩ | ⟨ha, hf⟩ | hf | hf)
      · simp [hg, hf] at h1
      · exact h2 hf
      · simp [createMinors, hk, hf] at h3
      · have hid : (Enrollment.create s (primaryRow req (newGroupId s req.group_id))).2.id =
            s.nextEnrollmentId := rfl
        rw [hid] at h3
        simp only [createMinors, hk, if_true] at h3
        split at h3
        · cases h3
        · rw [h3] at hf
          cases hf
      · simp [createAdults, ha, hf] at h4
      · exact h5 hf
      · exact h6 hf

/-- Without injected faults and without payload minors that carry an id, the
writes of a create do not fail. -/
theorem not_writeFails (s : Store) (req : EnrollmentRequest) (faults : Faults)
    (hf : ∀ c, faults c = false) (hid : ∀ m ∈ req.minors, truthyNat m.id = false) :
    ¬ writeFails s req faults := by
  rintro (⟨-, h⟩ | h | ⟨-, h⟩ | ⟨-, h⟩ | ⟨-, h⟩ | h | h)
  · simp [hf] at h
  · simp [hf] at h
  · simp [hf] at h
  · obtain ⟨w, hw⟩ := Minor.bulkCreate_total req.minors
      (Enrollment.create s (primaryRow req (newGroupId s req.group_id))).1
      s.nextEnrollmentId hid
    rw [hw] at h
    cases h
  · simp [hf] at h
  · simp [hf] at h
  · simp [hf] at h

/-- A create whose writes ended in a 500 met a failing storage call. -/
theorem createWrites_failed_faults {s : Store} {req : EnrollmentRequest}
    {course : Course} {total : Int} {faults : Faults}
    (h : (createWrites s req course total faults).response.status = 500) :
    writeFails s req faults := by
  by_cases h1 : (!(truthyInt req.group_id) && faults .maxGroupId) = true
  · left
    simpa using h1
  by_cases h2 : faults .createPrimary = true
  · exact Or.inr (Or.inl h2)
  cases h3 : createMinors (Enrollment.create s (primaryRow req (newGroupId s req.group_id))).1
      req (Enrollment.create s (primaryRow req (newGroupId s req.group_id))).2.id faults with
  | error msg =>
    have hid : (Enrollment.create s (primaryRow req (newGroupId s req.group_id))).2.id =
        s.nextEnrollmentId := rfl
    rw [hid] at h3
    unfold createMinors at h3
    split at h3
    · rename_i hk
      split at h3
      · rename_i hf
        exact Or.inr (Or.inr (Or.inl ⟨by simpa using hk, hf⟩))
      · exact Or.inr (Or.inr (Or.inr (Or.inl ⟨by simpa using hk, by rw [h3]; rfl⟩)))
    · cases h3
  | ok w2 =>
    cases h4 : createAdults w2 req (newGroupId s req.group_id) faults with
    | error msg =>
      unfold createAdults at h4
      split at h4
      · rename_i hk
        split at h4
        · rename_i hf
          exact Or.inr (Or.inr (Or.inr (Or.inr (Or.inl ⟨by simpa using hk, hf⟩))))
        · cases h4
      · cases h4
    | ok w3 =>
      by_cases h5 : faults .updateCourse = true
      · exact Or.inr (Or.inr (Or.inr (Or.inr (Or.inr (Or.inl h5)))))
      by_cases h6 : faults .commit = true
      · exact Or.inr (Or.inr (Or.inr (Or.inr (Or.inr (Or.inr h6)))))
      simp [createWrites, h1, h2, h3, h4, h5, h6] at h

/-- The writes of a create answer 500 when a storage call fails and 201
otherwise. -/
theorem createWrites_status (s : Store) (req : EnrollmentRequest) (course : Course)
    (faults : Faults) :
    (writeFails s req faults →
      (createWrites s req course (totalTicketsRequired req) faults).response.status = 500) ∧
    (¬ writeFails s req faults →
      (createWrites s req course (totalTicketsRequired req) faults).response.status = 201) := by
  rcases createWrites_cases s req course faults with h | ⟨_, -, -, -, -, -, hr, htx⟩
  · exact ⟨fun _ => h.1, fun hn => absurd (createWrites_failed_faults h.1) hn⟩
  · exact ⟨fun hw => absurd hw (createWrites_committed_faults htx), fun _ => by rw [hr]⟩

/-- Without injected faults a delete never answers 500: its storage calls have
no failure of their own. -/
theorem deleteEnrollmentById_noFaults (s : Store) (id : Nat) (faults : Faults)
    (hf : ∀ c, faults c = false) :
    (deleteEnrollmentById s id faults).response.status = 404 ∨
    (deleteEnrollmentById s id faults).response.status = 200 := by
  unfold deleteEnrollmentById
  rw [settle_response]
  rcases deleteAttempt_cases s id faults with h | h | ⟨e, course, -, -, hd⟩
  · exfalso
    have h500 := h.1
    unfold deleteAttempt at h500
    simp only [hf, Bool.false_eq_true, if_false] at h500
    split at h500
    · simp [reply] at h500
    · split at h500
      · simp [reply] at h500
      · simp at h500
  · exact Or.inl h.1
  · right
    rw [hd.2.2.2.2.2.1]

/-! ### Lemmas on the update -/

theorem Minor.update_eq (w : Store) (p : MinorPayload) (target : Nat) :
    Minor.update w p target = { w with minors := w.minors.map (applyMinor target p) } := rfl

theorem Enrollment.updateAdult_eq (w : Store) (a : AdultPayload) (g : Int) :
    Enrollment.updateAdult w a g =
      { w with enrollments := w.enrollments.map (applyAdult (some g) a) } := rfl

theorem Enrollment.updatePrimary_eq (s : Store) (id : Nat) (req : EnrollmentRequest) :
    Enrollment.updatePrimary s id req =
      { s with enrollments := s.enrollments.map (applyPrimary id req) } := rfl

theorem applyMinor_keys (target : Nat) (p : MinorPayload) (m : Minor) :
    (applyMinor target p m).id = m.id ∧
    (applyMinor target p m).enrollment_id = m.enrollment_id := by
  unfold applyMinor
  split <;> exact ⟨rfl, rfl⟩

theorem applyMinors_keys (target : Nat) (ps : List MinorPayload) (m : Minor) :
    (applyMinors target ps m).id = m.id ∧
    (applyMinors target ps m).enrollment_id = m.enrollment_id := by
  unfold applyMinors
  induction ps generalizing m with
  | nil => exact ⟨rfl, rfl⟩
  | cons p rest ih =>
    simp only [List.foldl_cons]
    split
    · obtain ⟨h1, h2⟩ := ih (applyMinor target p m)
      obtain ⟨h3, h4⟩ := applyMinor_keys target p m
      exact ⟨h1.trans h3, h2.trans h4⟩
    · exact ih m

theorem applyMinors_cons_truthy (target : Nat) (p : MinorPayload) (rest : List MinorPayload)
    (m : Minor) (h : truthyNat p.id = true) :
    applyMinors target (p :: rest) m = applyMinors target rest (applyMinor target p m) := by
  simp [applyMinors, h]

theorem applyMinors_cons_falsy (target : Nat) (p : MinorPayload) (rest : List MinorPayload)
    (m : Minor) (h : ¬ truthyNat p.id = true) :
    applyMinors target (p :: rest) m = applyMinors target rest m := by
  simp [applyMinors, h]

/-- What the loop over the payload minors has done when it ends without
error. -/
theorem updateMinorsLoop_ok (id : Nat) (faults : Faults) (ps : List MinorPayload) :
    ∀ (i : Nat) (w w1 : Store), updateMinorsLoop id faults i ps w = (w1, none) →
    ∃ added : List Minor,
      w1.minors = w.minors.map (applyMinors id ps) ++ added ∧
      added.length = ps.countP (fun p => !(truthyNat p.id)) ∧
      (∀ a ∈ added, a.enrollment_id = id) ∧
      w1.enrollments = w.enrollments ∧ w1.courses = w.courses := by
  induction ps with
  | nil =>
    intro i w w1 h
    simp only [updateMinorsLoop, Prod.mk.injEq, and_true] at h
    subst h
    have hid : w.minors.map (applyMinors id []) = w.minors := by
      conv_rhs => rw [← List.map_id w.minors]
      apply List.map_congr_left
      intro m _
      rfl
    exact ⟨[], by rw [hid]; simp, rfl, by simp, rfl, rfl⟩
  | cons p rest ih =>
    intro i w w1 h
    unfold updateMinorsLoop at h
    by_cases hp : truthyNat p.id = true
    · simp only [hp, if_true] at h
      by_cases hf : faults (.updateMinor i) = true
      · simp [hf] at h
      · simp only [hf, Bool.false_eq_true, if_false] at h
        obtain ⟨added, hm, hl, hall, he, hc⟩ := ih _ _ _ h
        refine ⟨added, ?_, ?_, hall, he, hc⟩
        · rw [hm, Minor.update_eq]
          simp only [List.map_map]
          congr 1
          apply List.map_congr_left
          intro m _
          simp [applyMinors_cons_truthy id p rest m hp]
        · rw [hl]
          simp [List.countP_cons, hp]
    · simp only [hp, Bool.false_eq_true, if_false] at h
      by_cases hf : faults (.createMinor i) = true
      · simp [hf] at h
      · simp only [hf, Bool.false_eq_true, if_false] at h
        cases hcr : Minor.create w p id with
        | error msg => simp [hcr] at h
        | ok w2 =>
          simp only [hcr] at h
          obtain ⟨m0, hm0, hme, -, -, -, he0, hc0, -⟩ := Minor.create_ok hcr
          obtain ⟨added, hm, hl, hall, he, hc⟩ := ih _ _ _ h
          refine ⟨applyMinors id rest m0 :: added, ?_, ?_, ?_, he.trans he0, hc.trans hc0⟩
          · rw [hm, hm0]
            simp only [List.map_append, List.map_cons, List.map_nil, List.append_assoc,
              List.singleton_append]
            congr 1
            apply List.map_congr_left
            intro m _
            rw [applyMinors_cons_falsy id p rest m hp]
          · simp only [List.length_cons, hl]
            simp [List.countP_cons, hp]
          · intro a ha
            rcases List.mem_cons.mp ha with ha | ha
            · rw [ha, (applyMinors_keys id rest m0).2]
              exact hme
            · exact hall a ha

theorem applyAdult_keys (g : Option Int) (a : AdultPayload) (e : Enrollment) :
    (applyAdult g a e).id = e.id ∧
    (applyAdult g a e).is_first_activity = e.is_first_activity ∧
    (applyAdult g a e).id_admin = e.id_admin ∧
    (applyAdult g a e).id_course = e.id_course ∧
    (applyAdult g a e).group_id = e.group_id ∧
    (applyAdult g a e).accepts_newsletter = e.accepts_newsletter := by
  unfold applyAdult
  split <;> exact ⟨rfl, rfl, rfl, rfl, rfl, rfl⟩

theorem applyAdults_keys (g : Option Int) (as : List AdultPayload) (e : Enrollment) :
    (applyAdults g as e).id = e.id ∧
    (applyAdults g as e).is_first_activity = e.is_first_activity ∧
    (applyAdults g as e).id_admin = e.id_admin ∧
    (applyAdults g as e).id_course = e.id_course ∧
    (applyAdults g as e).group_id = e.group_id ∧
    (applyAdults g as e).accepts_newsletter = e.accepts_newsletter := by
  unfold applyAdults
  induction as generalizing e with
  | nil => exact ⟨rfl, rfl, rfl, rfl, rfl, rfl⟩
  | cons a rest ih =>
    simp only [List.foldl_cons]
    split
    · obtain ⟨h1, h2, h3, h4, h5, h6⟩ := ih (applyAdult g a e)
      obtain ⟨k1, k2, k3, k4, k5, k6⟩ := applyAdult_keys g a e
      exact ⟨h1.trans k1, h2.trans k2, h3.trans k3, h4.trans k4, h5.trans k5, h6.trans k6⟩
    · exact ih e

theorem applyAdults_cons_truthy (g : Option Int) (a : AdultPayload) (rest : List AdultPayload)
    (e : Enrollment) (h : truthyNat a.id = true) :
    applyAdults g (a :: rest) e = applyAdults g rest (applyAdult g a e) := by
  simp [applyAdults, h]

theorem applyAdults_cons_falsy (g : Option Int) (a : AdultPayload) (rest : List AdultPayload)
    (e : Enrollment) (h : ¬ truthyNat a.id = true) :
    applyAdults g (a :: rest) e = applyAdults g rest e := by
  simp [applyAdults, h]

/-- What the loop over the payload adults has done when it ends without
error. -/
theorem updateAdultsLoop_ok (req : EnrollmentRequest) (faults : Faults)
    (as : List AdultPayload) :
    ∀ (i : Nat) (w w1 : Store), updateAdultsLoop req faults i as w = (w1, none) →
    ∃ added : List Enrollment,
      w1.enrollments = w.enrollments.map (applyAdults req.group_id as) ++ added ∧
      added.length = as.countP (fun a => !(truthyNat a.id)) ∧
      (∀ x ∈ added, x.group_id = req.group_id ∧ x.id_course = req.id_course) ∧
      w1.minors = w.minors ∧ w1.courses = w.courses := by
  induction as with
  | nil =>
    intro i w w1 h
    simp only [updateAdultsLoop, Prod.mk.injEq, and_true] at h
    subst h
    have hid : w.enrollments.map (applyAdults req.group_id []) = w.enrollments := by
      conv_rhs => rw [← List.map_id w.enrollments]
      apply List.map_congr_left
      intro m _
      rfl
    exact ⟨[], by rw [hid]; simp, rfl, by simp, rfl, rfl⟩
  | cons a rest ih =>
    intro i w w1 h
    unfold updateAdultsLoop at h
    by_cases hp : truthyNat a.id = true
    · simp only [hp, if_true] at h
      by_cases hf : faults (.updateAdult i) = true
      · simp [hf] at h
      · simp only [hf, Bool.false_eq_true, if_false] at h
        cases hg : req.group_id with
        | none => simp [hg] at h
        | some g =>
          simp only [hg] at h
          obtain ⟨added, hm, hl, hall, he, hc⟩ := ih _ _ _ h
          rw [hg] at hm hall
          refine ⟨added, ?_, ?_, hall, he, hc⟩
          · rw [hm, Enrollment.updateAdult_eq]
            simp only [List.map_map]
            congr 1
            apply List.map_congr_left
            intro m _
            simp [applyAdults_cons_truthy (some g) a rest m hp]
          · rw [hl]
            simp [List.countP_cons, hp]
    · simp only [hp, Bool.false_eq_true, if_false] at h
      by_cases hf : faults (.createAdult i) = true
      · simp [hf] at h
      · simp only [hf, Bool.false_eq_true, if_false] at h
        obtain ⟨added, hm, hl, hall, he, hc⟩ := ih _ _ _ h
        refine ⟨applyAdults req.group_id rest
          { addedAdultRow req a with id := w.nextEnrollmentId } :: added, ?_, ?_, ?_, he, hc⟩
        · rw [hm]
          simp only [Enrollment.create, List.map_append, List.map_cons, List.map_nil,
            List.append_assoc, List.singleton_append]
          congr 1
          apply List.map_congr_left
          intro m _
          rw [applyAdults_cons_falsy req.group_id a rest m hp]
        · simp only [List.length_cons, hl]
          simp [List.countP_cons, hp]
        · intro x hx
          rcases List.mem_cons.mp hx with hx | hx
          · obtain ⟨-, -, -, k4, k5, -⟩ := applyAdults_keys req.group_id rest
              { addedAdultRow req a with id := w.nextEnrollmentId }
            rw [hx, k4, k5]
            exact ⟨rfl, rfl⟩
          · exact hall x hx

theorem applyPrimary_id (id : Nat) (req : EnrollmentRequest) (e : Enrollment) :
    (applyPrimary id req e).id = e.id := by
  unfold applyPrimary
  split <;> rfl

theorem applyPrimary_other (id : Nat) (req : EnrollmentRequest) (e : Enrollment)
    (h : e.id ≠ id) : applyPrimary id req e = e := by
  unfold applyPrimary
  simp [h]

/-- What an update that answered 200 has left in the store. -/
theorem updateEnrollmentById_ok {s : Store} {id : Nat} {req : EnrollmentRequest}
    {faults : Faults} (h : (updateEnrollmentById s id req faults).response.status = 200) :
    ∃ (e : Enrollment) (addedMinors : List Minor) (addedAdults : List Enrollment),
      Enrollment.findByPk s id = some e ∧
      (updateEnrollmentById s id req faults).store.enrollments =
        (s.enrollments.map (applyPrimary id req)).map (applyAdults req.group_id req.adults)
          ++ addedAdults ∧
      addedAdults.length = adultsWithoutId req ∧
      (∀ x ∈ addedAdults, x.group_id = req.group_id ∧ x.id_course = req.id_course) ∧
      (updateEnrollmentById s id req faults).store.minors =
        s.minors.map (applyMinors id req.minors) ++ addedMinors ∧
      addedMinors.length = minorsWithoutId req ∧
      (∀ m ∈ addedMinors, m.enrollment_id = id) ∧
      (updateEnrollmentById s id req faults).tx = .committed := by
  unfold updateEnrollmentById at h ⊢
  rw [settle_response] at h
  rw [settle_tx]
  rcases updateAttempt_cases s id req faults with h1 | h1 | ⟨e, w2, w3, he, hm, ha, hu⟩
  · rw [h1.1] at h
    cases h
  · rw [h1.1] at h
    cases h
  · have hid := Enrollment.findByPk_row_id he
    rw [hid] at hm
    obtain ⟨addedM, hmm, hml, hmall, hme, -⟩ := updateMinorsLoop_ok id faults req.minors _ _ _ hm
    obtain ⟨addedA, haa, hal, haall, ham, -⟩ := updateAdultsLoop_ok req faults req.adults _ _ _ ha
    rw [hu, settle_committed _ _ rfl]
    refine ⟨e, addedM, addedA, he, ?_, hal, haall, ?_, hml, hmall, rfl⟩
    · simp only
      rw [haa, hme, Enrollment.updatePrimary_eq]
    · simp only
      rw [ham, hmm, Enrollment.updatePrimary_eq]

/-- An update that answers anything but 200 leaves the rows as they were. -/
theorem updateEnrollmentById_failed {s : Store} {id : Nat} {req : EnrollmentRequest}
    {faults : Faults} (h : (updateEnrollmentById s id req faults).response.status ≠ 200) :
    (updateEnrollmentById s id req faults).store.enrollments = s.enrollments ∧
    (updateEnrollmentById s id req faults).store.minors = s.minors ∧
    (updateEnrollmentById s id req faults).store.courses = s.courses ∧
    (updateEnrollmentById s id req faults).tx = .rolledBack := by
  unfold updateEnrollmentById at h ⊢
  rw [settle_response] at h
  rw [settle_tx]
  rcases updateAttempt_cases s id req faults with h1 | h1 | ⟨e, w2, w3, he, hm, ha, hu⟩
  · have hn : (updateAttempt s id req faults).tx ≠ .committed := by rw [h1.2]; simp
    obtain ⟨k1, k2, k3⟩ := settle_not_committed s _ hn
    exact ⟨k1, k2, k3, h1.2⟩
  · have hn : (updateAttempt s id req faults).tx ≠ .committed := by rw [h1.2.1]; simp
    obtain ⟨k1, k2, k3⟩ := settle_not_committed s _ hn
    exact ⟨k1, k2, k3, h1.2.1⟩
  · rw [hu] at h
    exact absurd rfl h

theorem applyMinors_other_enrollment (target : Nat) (ps : List MinorPayload) (m : Minor)
    (h : m.enrollment_id ≠ target) : applyMinors target ps m = m := by
  unfold applyMinors
  induction ps with
  | nil => rfl
  | cons p rest ih =>
    simp only [List.foldl_cons]
    have hp : applyMinor target p m = m := by
      unfold applyMinor
      simp [h]
    split
    · rw [hp]
      exact ih
    · exact ih

theorem applyMinors_not_carried (target : Nat) (ps : List MinorPayload) (m : Minor)
    (h : ∀ p ∈ ps, truthyNat p.id = true → p.id ≠ some m.id) :
    applyMinors target ps m = m := by
  unfold applyMinors
  induction ps with
  | nil => rfl
  | cons p rest ih =>
    simp only [List.foldl_cons]
    have hrest := ih (fun q hq => h q (List.mem_cons_of_mem _ hq))
    split
    · rename_i ht
      have hne := h p (List.mem_cons_self _ _) ht
      have hp : applyMinor target p m = m := by
        unfold applyMinor
        have : ¬ m.id = p.id.getD 0 := by
          intro hm
          apply hne
          rw [truthyNat_some ht, hm]
        simp [this]
      rw [hp]
      exact hrest
    · exact hrest

theorem applyAdults_other_group (g : Option Int) (as : List AdultPayload) (e : Enrollment)
    (h : e.group_id ≠ g) : applyAdults g as e = e := by
  unfold applyAdults
  induction as with
  | nil => rfl
  | cons a rest ih =>
    simp only [List.foldl_cons]
    have hp : applyAdult g a e = e := by
      unfold applyAdult
      simp [h]
    split
    · rw [hp]
      exact ih
    · exact ih

theorem applyAdults_not_carried (g : Option Int) (as : List AdultPayload) (e : Enrollment)
    (h : ∀ a ∈ as, truthyNat a.id = true → a.id ≠ some e.id) :
    applyAdults g as e = e := by
  unfold applyAdults
  induction as with
  | nil => rfl
  | cons a rest ih =>
    simp only [List.foldl_cons]
    have hrest := ih (fun q hq => h q (List.mem_cons_of_mem _ hq))
    split
    · rename_i ht
      have hne := h a (List.mem_cons_self _ _) ht
      have hp : applyAdult g a e = e := by
        unfold applyAdult
        have : ¬ e.id = a.id.getD 0 := by
          intro hm
          apply hne
          rw [truthyNat_some ht, hm]
        simp [this]
      rw [hp]
      exact hrest
    · exact hrest

theorem applyMinors_eq_foldl (target : Nat) (ps : List MinorPayload) (m : Minor) :
    applyMinors target ps m =
      (ps.filter (fun p => truthyNat p.id)).foldl (fun acc p => applyMinor target p acc) m := by
  unfold applyMinors
  induction ps generalizing m with
  | nil => rfl
  | cons p rest ih =>
    by_cases hp : truthyNat p.id = true
    · simp only [List.foldl_cons, hp, if_true, List.filter_cons_of_pos]
      exact ih _
    · have hp2 : truthyNat p.id = false := by simpa using hp
      simp only [List.foldl_cons, List.filter_cons, hp2, Bool.false_eq_true, if_false]
      exact ih _

theorem applyAdults_eq_foldl (g : Option Int) (as : List AdultPayload) (e : Enrollment) :
    applyAdults g as e =
      (as.filter (fun a => truthyNat a.id)).foldl (fun acc a => applyAdult g a acc) e := by
  unfold applyAdults
  induction as generalizing e with
  | nil => rfl
  | cons a rest ih =>
    by_cases hp : truthyNat a.id = true
    · simp only [List.foldl_cons, hp, if_true, List.filter_cons_of_pos]
      exact ih _
    · have hp2 : truthyNat a.id = false := by simpa using hp
      simp only [List.foldl_cons, List.filter_cons, hp2, Bool.false_eq_true, if_false]
      exact ih _

/-! ### Lemmas on sequences and groups -/

theorem createEnrollment_keeps_rows (s : Store) (req : EnrollmentRequest) (faults : Faults) :
    ∀ x ∈ s.enrollments, x ∈ (createEnrollment s req faults).store.enrollments := by
  intro x hx
  by_cases hst : (createEnrollment s req faults).response.status = 201
  · obtain ⟨course, added, -, -, -, -, he, -, -, -, -, -, -⟩ := createEnrollment_created hst
    rw [he]
    exact List.mem_append_left _ hx
  · have hn : (createAttempt s req faults).tx ≠ .committed := by
      apply createAttempt_not_committed
      unfold createEnrollment at hst
      rw [settle_response] at hst
      exact hst
    unfold createEnrollment
    rw [(settle_not_committed s _ hn).1]
    exact hx

theorem runCalls_keeps_rows (calls : List Call) (s : Store)
    (h : ∀ c ∈ calls, c.isCreate = true) :
    ∀ x ∈ s.enrollments, x ∈ (runCalls s calls).enrollments := by
  induction calls generalizing s with
  | nil => exact fun x hx => hx
  | cons c rest ih =>
    intro x hx
    unfold runCalls
    rw [List.foldl_cons]
    have hc := h c (List.mem_cons_self _ _)
    cases c with
    | create req faults =>
      exact ih _ (fun d hd => h d (List.mem_cons_of_mem _ hd)) x
        (createEnrollment_keeps_rows s req faults x hx)
    | update id req faults => simp [Call.isCreate] at hc
    | delete id faults => simp [Call.isCreate] at hc

/-- A generated group id is greater than every group id of the table. -/
theorem newGroupId_gt (s : Store) (g0 : Option Int) (h : truthyInt g0 = false) :
    ∀ e ∈ s.enrollments, ∀ g : Int, e.group_id = some g → g < newGroupId s g0 := by
  intro e he g hg
  rw [newGroupId_generated s g0 h]
  have hmem : g ∈ s.enrollments.filterMap (fun e => e.group_id) :=
    List.mem_filterMap.mpr ⟨e, he, hg⟩
  obtain ⟨m, hm, hle⟩ := maxOpt_ge hmem
  have hm2 : Enrollment.maxGroupId s = some m := hm
  rw [hm2]
  simp only [Option.getD_some]
  omega

theorem orKeep_self {α : Type} (a : Option α) : orKeep a a = a := by
  cases a <;> rfl

/-- The invariant of one course per group, on a table extended by rows of one
group and one course. -/
theorem oneCourse_append (l1 l2 : List Enrollment) (g : Option Int) (c : Option Nat)
    (h1 : ∀ e1 ∈ l1, ∀ e2 ∈ l1, e1.group_id = e2.group_id → e1.id_course = e2.id_course)
    (h2 : ∀ x ∈ l2, x.group_id = g ∧ x.id_course = c)
    (h12 : ∀ x ∈ l1, x.group_id = g → x.id_course = c) :
    ∀ e1 ∈ l1 ++ l2, ∀ e2 ∈ l1 ++ l2,
      e1.group_id = e2.group_id → e1.id_course = e2.id_course := by
  intro e1 hm1 e2 hm2 hg
  rcases List.mem_append.mp hm1 with hm1 | hm1 <;> rcases List.mem_append.mp hm2 with hm2 | hm2
  · exact h1 e1 hm1 e2 hm2 hg
  · rw [(h2 e2 hm2).2]
    exact h12 e1 hm1 (hg.trans (h2 e2 hm2).1)
  · rw [(h2 e1 hm1).2]
    exact (h12 e2 hm2 (hg.symm.trans (h2 e1 hm1).1)).symm
  · rw [(h2 e1 hm1).2, (h2 e2 hm2).2]

/-- What a delete that answered 200 has left in the store. -/
theorem deleteEnrollmentById_ok {s : Store} {id : Nat} {faults : Faults} {e : Enrollment}
    (hfind : Enrollment.findByPk s id = some e)
    (hok : (deleteEnrollmentById s id faults).response.status = 200) :
    ∃ course, e.id_course.bind (Course.findByPk s) = some course ∧
      (deleteEnrollmentById s id faults).store.enrollments =
        s.enrollments.filter
          (fun x => !(((groupOf s e.group_id).map (fun e => e.id)).contains x.id)) ∧
      (deleteEnrollmentById s id faults).store.minors =
        s.minors.filter (fun m =>
          !(((groupOf s e.group_id).map (fun e => e.id)).contains m.enrollment_id)) ∧
      (deleteEnrollmentById s id faults).store.courses = s.courses.map (fun c =>
        if c.id == course.id then
          { c with tickets := c.tickets +
              (((minorsOfGroup s e.group_id).length : Int) +
                ((groupOf s e.group_id).length : Int)) }
        else c) := by
  unfold deleteEnrollmentById at hok ⊢
  rw [settle_response] at hok
  rcases deleteAttempt_cases s id faults with h | h | ⟨x, course, hx, hc, hd⟩
  · rw [h.1] at hok
    cases hok
  · rw [h.1] at hok
    cases hok
  · rw [hfind] at hx
    cases hx
    obtain ⟨hen, hmi, hco, -, -, -, htx⟩ := hd
    rw [settle_committed _ _ htx]
    exact ⟨course, hc, hen, hmi, hco⟩

/-- The enrollment rows after any delete are rows from before. -/
theorem deleteEnrollmentById_subset (s : Store) (id : Nat) (faults : Faults) :
    ∀ x ∈ (deleteEnrollmentById s id faults).store.enrollments, x ∈ s.enrollments := by
  unfold deleteEnrollmentById
  rcases deleteAttempt_cases s id faults with h | h | ⟨e, course, -, -, hd⟩
  · have hn : (deleteAttempt s id faults).tx ≠ .committed := by rw [h.2]; simp
    rw [(settle_not_committed s _ hn).1]
    exact fun x hx => hx
  · have hn : (deleteAttempt s id faults).tx ≠ .committed := by rw [h.2.1]; simp
    rw [(settle_not_committed s _ hn).1]
    exact fun x hx => hx
  · rw [settle_committed _ _ hd.2.2.2.2.2.2, hd.1]
    exact fun x hx => (List.mem_filter.mp hx).1

/-! ### Lemmas on the body as received and on the calls around the `try` block -/

theorem createAttemptRaw_missing {readId : String → Option Nat} {s : Store} {b : CreateBody}
    {faults : Faults} (h : missingBody b = true) :
    createAttemptRaw readId s b faults =
      ⟨s, reply 400 "Faltan datos obligatorios: fullname, email, o id_course.", .leftOpen⟩ := by
  unfold missingBody at h
  simp only [createAttemptRaw, h, if_true]

theorem createAttemptRaw_age {readId : String → Option Nat} {s : Store} {b : CreateBody}
    {faults : Faults} (h : missingBody b = false) (ha : b.age.getD 0 < 14) :
    createAttemptRaw readId s b faults =
      ⟨s, reply 400 "El titular debe ser mayor de 14 años.", .leftOpen⟩ := by
  unfold missingBody at h
  simp [createAttemptRaw, h, ha]

theorem createAttemptRaw_findFault {readId : String → Option Nat} {s : Store}
    {b : CreateBody} {faults : Faults}
    (h : missingBody b = false) (ha : 14 ≤ b.age.getD 0)
    (hf : faults .findCourse = true) :
    createAttemptRaw readId s b faults = thrown s "storage failure" := by
  unfold missingBody at h
  simp [createAttemptRaw, h, not_lt.mpr ha, hf]

theorem createAttemptRaw_noCourse {readId : String → Option Nat} {s : Store}
    {b : CreateBody} {faults : Faults}
    (h : missingBody b = false) (ha : 14 ≤ b.age.getD 0)
    (hf : faults .findCourse = false)
    (hc : lookupCourse readId s b = none) :
    createAttemptRaw readId s b faults = ⟨s, reply 404 "Curso no encontrado.", .leftOpen⟩ := by
  unfold missingBody at h
  simp [createAttemptRaw, h, not_lt.mpr ha, hf, hc]

theorem createAttemptRaw_noTickets {readId : String → Option Nat} {s : Store}
    {b : CreateBody} {faults : Faults} {course : Course}
    (h : missingBody b = false) (ha : 14 ≤ b.age.getD 0)
    (hf : faults .findCourse = false)
    (hc : lookupCourse readId s b = some course)
    (ht : course.tickets < totalTicketsRequired (b.typed course.id)) :
    createAttemptRaw readId s b faults =
      ⟨s, reply 400 "No hay suficientes tickets disponibles para esta inscripción.",
        .leftOpen⟩ := by
  unfold missingBody at h
  simp [createAttemptRaw, h, not_lt.mpr ha, hf, hc, ht]

theorem createAttemptRaw_writes {readId : String → Option Nat} {s : Store}
    {b : CreateBody} {faults : Faults} {course : Course}
    (h : missingBody b = false) (ha : 14 ≤ b.age.getD 0)
    (hf : faults .findCourse = false)
    (hc : lookupCourse readId s b = some course)
    (ht : totalTicketsRequired (b.typed course.id) ≤ course.tickets) :
    createAttemptRaw readId s b faults =
      createWrites s (b.typed course.id) course (totalTicketsRequired (b.typed course.id))
        faults := by
  unfold missingBody at h
  simp [createAttemptRaw, h, not_lt.mpr ha, hf, hc, not_lt.mpr ht]

/-- The test of line 115 fails exactly on a required field that is absent or
empty and on an `id_course` of 0. -/
theorem missingBody_iff (b : CreateBody) : missingBody b = true ↔ absentOrEmpty b := by
  unfold missingBody absentOrEmpty
  cases hf : b.fullname <;> cases he : b.email <;>
    rcases hc : b.id_course with _ | (n | t) <;>
    simp [truthyStr, truthyId, or_assoc]

/-- Every create on a body as received either answers 400, 404 or 500 without
committing, or commits what `CreateCommitted` describes and answers 201. -/
theorem createAttemptRaw_cases (readId : String → Option Nat) (s : Store) (b : CreateBody)
    (faults : Faults) :
    (((createAttemptRaw readId s b faults).response.status = 400 ∨
        (createAttemptRaw readId s b faults).response.status = 404 ∨
        (createAttemptRaw readId s b faults).response.status = 500) ∧
      (createAttemptRaw readId s b faults).tx ≠ .committed) ∨
    (∃ course, missingBody b = false ∧ 14 ≤ b.age.getD 0 ∧
      lookupCourse readId s b = some course ∧
      totalTicketsRequired (b.typed course.id) ≤ course.tickets ∧
      CreateCommitted s (b.typed course.id) course (createAttemptRaw readId s b faults)) := by
  cases h : missingBody b with
  | true => left; rw [createAttemptRaw_missing h]; simp [reply]
  | false =>
    by_cases ha : b.age.getD 0 < 14
    · left; rw [createAttemptRaw_age h ha]; simp [reply]
    have ha := not_lt.mp ha
    cases hf : faults .findCourse with
    | true => left; rw [createAttemptRaw_findFault h ha hf]; simp [thrown]
    | false =>
      cases hc : lookupCourse readId s b with
      | none => left; rw [createAttemptRaw_noCourse h ha hf hc]; simp [reply]
      | some course =>
        by_cases ht : course.tickets < totalTicketsRequired (b.typed course.id)
        · left; rw [createAttemptRaw_noTickets h ha hf hc ht]; simp [reply]
        have ht := not_lt.mp ht
        rw [createAttemptRaw_writes h ha hf hc ht]
        rcases createWrites_cases s (b.typed course.id) course faults with h5 | h5
        · left
          exact ⟨Or.inr (Or.inr h5.1), by rw [h5.2]; simp⟩
        · right
          exact ⟨course, rfl, ha, rfl, ht, h5⟩

/-- When no storage call of the `try` block fails, i.e. the status is not 500,
the status of a create is the one of the decision list. -/
theorem createAttemptRaw_status (readId : String → Option Nat) (s : Store) (b : CreateBody)
    (faults : Faults)
    (hne : (createAttemptRaw readId s b faults).response.status ≠ 500) :
    (createAttemptRaw readId s b faults).response.status = createStatusList readId s b := by
  have htot : ∀ cid, totalTicketsRequired (b.typed cid) =
      1 + (b.adults.length : Int) + (b.minors.length : Int) := fun _ => rfl
  unfold createStatusList
  cases hm : missingBody b with
  | true =>
    rw [if_pos ((missingBody_iff b).mp hm), createAttemptRaw_missing hm]
    rfl
  | false =>
    rw [if_neg (fun hc => by rw [(missingBody_iff b).mpr hc] at hm; cases hm)]
    by_cases ha : b.age.getD 0 < 14
    · rw [if_pos ha, createAttemptRaw_age hm ha]
      rfl
    rw [if_neg ha]
    have ha := not_lt.mp ha
    cases hf : faults .findCourse with
    | true =>
      rw [createAttemptRaw_findFault hm ha hf] at hne
      exact absurd rfl hne
    | false =>
      cases hc : lookupCourse readId s b with
      | none =>
        rw [createAttemptRaw_noCourse hm ha hf hc]
        rfl
      | some course =>
        simp only
        rw [← htot course.id]
        by_cases ht : course.tickets < totalTicketsRequired (b.typed course.id)
        · rw [if_pos ht, createAttemptRaw_noTickets hm ha hf hc ht]
          rfl
        rw [if_neg ht]
        have ht := not_lt.mp ht
        rw [createAttemptRaw_writes hm ha hf hc ht] at hne ⊢
        by_cases hw : writeFails s (b.typed course.id) faults
        · exact absurd ((createWrites_status s (b.typed course.id) course faults).1 hw) hne
        · exact (createWrites_status s (b.typed course.id) course faults).2 hw

/-- Without injected faults and without payload minors that carry an id, no
storage call of a create fails. -/
theorem createAttemptRaw_noFaults (readId : String → Option Nat) (s : Store)
    (b : CreateBody) (faults : Faults)
    (hf : ∀ c, faults c = false) (hid : ∀ m ∈ b.minors, truthyNat m.id = false) :
    (createAttemptRaw readId s b faults).response.status ≠ 500 := by
  intro h2
  cases hm : missingBody b with
  | true =>
    rw [createAttemptRaw_missing hm] at h2
    simp [reply] at h2
  | false =>
    by_cases ha : b.age.getD 0 < 14
    · rw [createAttemptRaw_age hm ha] at h2
      simp [reply] at h2
    have ha := not_lt.mp ha
    cases hc : lookupCourse readId s b with
    | none =>
      rw [createAttemptRaw_noCourse hm ha (hf _) hc] at h2
      simp [reply] at h2
    | some course =>
      by_cases ht : course.tickets < totalTicketsRequired (b.typed course.id)
      · rw [createAttemptRaw_noTickets hm ha (hf _) hc ht] at h2
        simp [reply] at h2
      have ht := not_lt.mp ht
      rw [createAttemptRaw_writes hm ha (hf _) hc ht] at h2
      exact not_writeFails s (b.typed course.id) faults hf hid (createWrites_failed_faults h2)

/-- On a body whose `id_course` is a number, the handler is the one on typed
requests. -/
theorem createAttemptRaw_body (readId : String → Option Nat) (s : Store)
    (req : EnrollmentRequest) (faults : Faults) :
    createAttemptRaw readId s req.body faults = createAttempt s req faults := by
  have hmiss : missingBody req.body = missingRequired req := by
    have hcast : ∀ n : Nat, (((n : Int) != 0) = (n != 0)) := by
      intro n
      rw [Bool.eq_iff_iff]
      simp only [bne_iff_ne, ne_eq, Int.natCast_eq_zero]
    unfold missingBody missingRequired EnrollmentRequest.body
    cases hc : req.id_course <;> simp [truthyId, truthyNat, hcast]
  cases hm : missingRequired req with
  | true =>
    rw [createAttemptRaw_missing (hmiss.trans hm), createAttempt_missing hm]
  | false =>
    have hmb : missingBody req.body = false := hmiss.trans hm
    have hage : req.body.age = req.age := rfl
    by_cases ha : req.age.getD 0 < 14
    · rw [createAttemptRaw_age hmb (by rw [hage]; exact ha), createAttempt_age hm ha]
    have ha := not_lt.mp ha
    have hab : 14 ≤ req.body.age.getD 0 := by rw [hage]; exact ha
    cases hf : faults .findCourse with
    | true => rw [createAttemptRaw_findFault hmb hab hf, createAttempt_findFault hm ha hf]
    | false =>
      have htr : truthyNat req.id_course = true := by
        unfold missingRequired at hm
        simp only [Bool.or_eq_false_iff, Bool.not_eq_false'] at hm
        exact hm.2
      have hsome := truthyNat_some htr
      have hlook : lookupCourse readId s req.body = Course.findByPk s (req.id_course.getD 0) := by
        unfold lookupCourse EnrollmentRequest.body
        simp only
        rw [hsome]
        simp [resolveId]
      cases hc : Course.findByPk s (req.id_course.getD 0) with
      | none =>
        rw [createAttemptRaw_noCourse hmb hab hf (hlook.trans hc),
          createAttempt_noCourse hm ha hf hc]
      | some course =>
        have hid := Course.findByPk_course_id hc
        have hty : req.body.typed course.id = req := by
          unfold CreateBody.typed EnrollmentRequest.body
          simp only
          rw [hid, ← hsome]
        by_cases ht : course.tickets < totalTicketsRequired req
        · rw [createAttemptRaw_noTickets hmb hab hf (hlook.trans hc) (by rw [hty]; exact ht),
            createAttempt_noTickets hm ha hf hc ht]
        have ht := not_lt.mp ht
        rw [createAttemptRaw_writes hmb hab hf (hlook.trans hc) (by rw [hty]; exact ht),
          createAttempt_writes hm ha hf hc ht, hty]

/-- When the transaction opens and no rollback fails, the response of the `try`
block or of the `catch` block is sent. -/
theorem serve_sent {s : Store} {faults : Faults} {a : Attempt}
    (hb : faults .beginTransaction = false)
    (hr : a.tx ≠ .rolledBack ∨ faults .rollback = false) :
    serve s faults a = ⟨(settle s a).store, some a.response⟩ := by
  unfold serve
  have hn : ¬ (a.tx = .rolledBack ∧ faults .rollback = true) := by
    rintro ⟨h1, h2⟩
    rcases hr with hr | hr
    · exact hr h1
    · rw [hr] at h2
      cases h2
  simp [hb, hn]

/-- A response is sent only when the transaction was opened, and it is the one
of the `try` block or of the `catch` block. -/
theorem serve_some {s : Store} {faults : Faults} {a : Attempt} {r : Response}
    (h : (serve s faults a).response = some r) :
    faults .beginTransaction = false ∧ r = a.response ∧
    (serve s faults a).store = (settle s a).store := by
  by_cases hb : faults .beginTransaction = true
  · simp [serve, hb] at h
  · have hb2 : faults .beginTransaction = false := by simpa using hb
    by_cases hr : a.tx = .rolledBack ∧ faults .rollback = true
    · simp [serve, hb2, hr] at h
    · have hor : a.tx ≠ .rolledBack ∨ faults .rollback = false := by
        by_cases h1 : a.tx = .rolledBack
        · right
          cases h2 : faults .rollback with
          | false => rfl
          | true => exact absurd ⟨h1, h2⟩ hr
        · exact Or.inl h1
      rw [serve_sent hb2 hor] at h ⊢
      exact ⟨hb2, (Option.some.inj h).symm, rfl⟩

/-- Whatever call fails, the store a served call leaves is the one it was given
(the transaction could not be opened) or the one `settle` gives. -/
theorem serve_store (s : Store) (faults : Faults) (a : Attempt) :
    (serve s faults a).store = s ∨ (serve s faults a).store = (settle s a).store := by
  unfold serve
  split
  · exact Or.inl rfl
  · split <;> exact Or.inr rfl

/-- With no failing call of the transaction, the handler as the router calls it
is the handler on typed requests. -/
theorem createEnrollmentHandler_body (readId : String → Option Nat) (s : Store)
    (req : EnrollmentRequest) (faults : Faults)
    (hb : faults .beginTransaction = false) (hr : faults .rollback = false) :
    createEnrollmentHandler readId s req.body faults =
      ⟨(createEnrollment s req faults).store, some (createEnrollment s req faults).response⟩ := by
  unfold createEnrollmentHandler createEnrollment
  rw [createAttemptRaw_body, serve_sent hb (Or.inr hr), settle_response]

/-! ### Lemmas on the read handlers -/

/-- The statement `findAll` hands the database back as it was. -/
theorem Enrollment.findAll_store (s : Store) (faults : Faults) (p : Enrollment → Bool)
    (view : Store → Enrollment → EnrollmentView) :
    (Enrollment.findAll s faults p view).1 = s := by
  unfold Enrollment.findAll
  split <;> rfl

/-- The statement `findByPk` hands the database back as it was. -/
theorem Enrollment.findByPkWith_store (s : Store) (faults : Faults) (id : Nat)
    (view : Store → Enrollment → EnrollmentView) :
    (Enrollment.findByPkWith s faults id view).1 = s := by
  unfold Enrollment.findByPkWith
  split <;> rfl

/-- The result of `findAll` is read off the rows of the tables. -/
theorem Enrollment.findAll_rows (s s2 : Store) (faults : Faults) (p : Enrollment → Bool)
    (view : Store → Enrollment → EnrollmentView)
    (hen : s2.enrollments = s.enrollments)
    (hview : ∀ e, view s2 e = view s e) :
    (Enrollment.findAll s2 faults p view).2 = (Enrollment.findAll s faults p view).2 := by
  unfold Enrollment.findAll
  have hfun : view s2 = view s := funext hview
  split
  · rfl
  · simp only [hen, hfun]

/-- The result of `findByPk` is read off the rows of the tables. -/
theorem Enrollment.findByPkWith_rows (s s2 : Store) (faults : Faults) (id : Nat)
    (view : Store → Enrollment → EnrollmentView)
    (hen : s2.enrollments = s.enrollments)
    (hview : ∀ e, view s2 e = view s e) :
    (Enrollment.findByPkWith s2 faults id view).2 =
      (Enrollment.findByPkWith s faults id view).2 := by
  unfold Enrollment.findByPkWith Enrollment.findByPk
  have hfun : view s2 = view s := funext hview
  split
  · rfl
  · simp only [hen, hfun]

theorem getAllEnrollments_store (s : Store) (faults : Faults) :
    (getAllEnrollments s faults).store = s := by
  have h := Enrollment.findAll_store s faults (fun _ => true)
    (fun db e => ⟨e, courseInclude db e, minorsInclude db e, []⟩)
  unfold getAllEnrollments
  split <;> (rename_i heq; rw [heq] at h; exact h)

theorem getEnrollmentById_store (s : Store) (id : Nat) (faults : Faults) :
    (getEnrollmentById s id faults).store = s := by
  have h := Enrollment.findByPkWith_store s faults id
    (fun db e => ⟨e, none, minorsInclude db e, adultsInclude db e⟩)
  unfold getEnrollmentById
  split
  · rfl
  · split <;> (rename_i heq; rw [heq] at h; exact h)

theorem getEnrollmentByIdWithMinors_store (s : Store) (id : Nat) (faults : Faults) :
    (getEnrollmentByIdWithMinors s id faults).store = s := by
  have h := Enrollment.findByPkWith_store s faults id
    (fun db e => ⟨e, none, minorsInclude db e, []⟩)
  unfold getEnrollmentByIdWithMinors getEnrollmentWithMinors
  split <;> (rename_i heq; rw [heq] at h; exact h)

theorem getAllEnrollmentsByCourseId_store (s : Store) (id : Nat) (faults : Faults) :
    (getAllEnrollmentsByCourseId s id faults).store = s := by
  have h := Enrollment.findAll_store s faults (fun e => e.id_course == some id)
    (fun db e => ⟨e, courseInclude db e, minorsInclude db e, []⟩)
  unfold getAllEnrollmentsByCourseId
  split <;> (rename_i heq; rw [heq] at h; exact h)

/-- The response of a read handler that lists enrollments is determined by the
result of its `findAll`. -/
theorem listResponse_congr {a b : Store × Except String (List EnrollmentView)}
    (h : a.2 = b.2) :
    (match a with
      | (db, .error msg) => (⟨db, ⟨500, msg, []⟩⟩ : ReadOutcome)
      | (db, .ok enrollments) => ⟨db, ⟨200, "", enrollments⟩⟩).response =
    (match b with
      | (db, .error msg) => (⟨db, ⟨500, msg, []⟩⟩ : ReadOutcome)
      | (db, .ok enrollments) => ⟨db, ⟨200, "", enrollments⟩⟩).response := by
  obtain ⟨a1, a2⟩ := a
  obtain ⟨b1, b2⟩ := b
  simp only at h
  subst h
  cases a2 <;> rfl

/-- The response of a read handler that looks one enrollment up is determined
by the result of its `findByPk`. -/
theorem oneResponse_congr {a b : Store × Except String (Option EnrollmentView)}
    (h : a.2 = b.2) :
    (match a with
      | (db, .error msg) => (⟨db, ⟨500, msg, []⟩⟩ : ReadOutcome)
      | (db, .ok none) => ⟨db, ⟨404, "Inscripción no encontrada", []⟩⟩
      | (db, .ok (some enrollment)) => ⟨db, ⟨200, "", [enrollment]⟩⟩).response =
    (match b with
      | (db, .error msg) => (⟨db, ⟨500, msg, []⟩⟩ : ReadOutcome)
      | (db, .ok none) => ⟨db, ⟨404, "Inscripción no encontrada", []⟩⟩
      | (db, .ok (some enrollment)) => ⟨db, ⟨200, "", [enrollment]⟩⟩).response := by
  obtain ⟨a1, a2⟩ := a
  obtain ⟨b1, b2⟩ := b
  simp only at h
  subst h
  rcases a2 with msg | (_ | v) <;> rfl

/-- The responses of the read handlers are read off the rows of the three
tables: two stores with the same rows get the same responses. -/
theorem readResponses_rows (s s2 : Store) (id : Nat) (faults : Faults)
    (hen : s2.enrollments = s.enrollments) (hmi : s2.minors = s.minors)
    (hco : s2.courses = s.courses) :
    readResponses s2 id faults = readResponses s id faults := by
  have hminors : ∀ e, minorsInclude s2 e = minorsInclude s e := by
    intro e
    unfold minorsInclude
    rw [hmi]
  have hcourse : ∀ e, courseInclude s2 e = courseInclude s e := by
    intro e
    unfold courseInclude Course.findByPk
    rw [hco]
  have hadults : ∀ e, adultsInclude s2 e = adultsInclude s e := by
    intro e
    unfold adultsInclude
    rw [hen]
  have k1 : (getAllEnrollments s2 faults).response = (getAllEnrollments s faults).response := by
    unfold getAllEnrollments
    apply listResponse_congr
    apply Enrollment.findAll_rows s s2 faults _ _ hen
    intro e
    simp only [hminors, hcourse]
  have k2 : (getEnrollmentById s2 id faults).response =
      (getEnrollmentById s id faults).response := by
    unfold getEnrollmentById
    split
    · rfl
    · apply oneResponse_congr
      apply Enrollment.findByPkWith_rows s s2 faults id _ hen
      intro e
      simp only [hminors, hadults]
  have k3 : (getEnrollmentByIdWithMinors s2 id faults).response =
      (getEnrollmentByIdWithMinors s id faults).response := by
    unfold getEnrollmentByIdWithMinors getEnrollmentWithMinors
    apply oneResponse_congr
    apply Enrollment.findByPkWith_rows s s2 faults id _ hen
    intro e
    simp only [hminors]
  have k4 : (getAllEnrollmentsByCourseId s2 id faults).response =
      (getAllEnrollmentsByCourseId s id faults).response := by
    unfold getAllEnrollmentsByCourseId
    apply listResponse_congr
    apply Enrollment.findAll_rows s s2 faults _ _ hen
    intro e
    simp only [hminors, hcourse]
  unfold readResponses
  rw [k1, k2, k3, k4]

/-! ## The claims -/

/-- C1 (ticket conservation).  For a create whose required fields are present,
whose primary age is at least 14 and whose `id_course` resolves to a course with
`T` tickets, and during which no storage call fails (the response is not 500):
the response is 201 exactly when `T ≥ 1 + k + a`, where `k` and `a` are the
numbers of minors and adults of the payload, and on 201 the course is left with
`T - (1 + k + a)` tickets. -/
theorem C1_ticket_conservation (s : Store) (req : EnrollmentRequest) (faults : Faults)
    (course : Course)
    (hreq : missingRequired req = false)
    (hage : 14 ≤ req.age.getD 0)
    (hcourse : Course.findByPk s (req.id_course.getD 0) = some course)
    (hstorage : (createEnrollment s req faults).response.status ≠ 500) :
    ((createEnrollment s req faults).response.status = 201 ↔
      1 + (req.minors.length : Int) + req.adults.length ≤ course.tickets) ∧
    ((createEnrollment s req faults).response.status = 201 →
      ticketsOf (createEnrollment s req faults).store (req.id_course.getD 0) =
        some (course.tickets - (1 + (req.minors.length : Int) + req.adults.length))) := by
  have htot : totalTicketsRequired req = 1 + (req.minors.length : Int) + req.adults.length := by
    unfold totalTicketsRequired
    ring
  rw [← htot]
  unfold createEnrollment at hstorage ⊢
  rw [settle_response] at hstorage ⊢
  cases hf : faults .findCourse with
  | true =>
    rw [createAttempt_findFault hreq hage hf] at hstorage
    exact absurd rfl hstorage
  | false =>
    by_cases ht : course.tickets < totalTicketsRequired req
    · rw [createAttempt_noTickets hreq hage hf hcourse ht]
      simp [reply, not_le.mpr ht]
    · have ht := not_lt.mp ht
      rcases createAttempt_cases s req faults with h1 | ⟨c2, -, -, hc2, -, hcomm⟩
      · rw [createAttempt_writes hreq hage hf hcourse ht] at h1 hstorage ⊢
        rcases createWrites_cases s req course faults with h5 | ⟨_, -, -, -, -, -, hr, -⟩
        · exact absurd h5.1 hstorage
        · rw [hr] at h1
          simp at h1
      · rw [hcourse] at hc2
        cases hc2
        obtain ⟨added, -, -, -, -, hcs, hr, htx⟩ := hcomm
        refine ⟨by simp [hr, ht], fun _ => ?_⟩
        rw [settle_committed _ _ htx, ticketsOf_map_set s _ _ _ _ hcs]
        simp [ticketsOf, hcourse]

/-- Witness of C1: a course with 5 tickets, a payload with one minor and one
adult. -/
theorem C1_ticket_conservation_witness :
    ((createEnrollment ⟨[⟨1, "c", 5⟩], [], [], 1, 1⟩
        ⟨some "A", some "a@x.com", none, some 20, none, none, some 1, none, none,
          [⟨none, some "m1", some 5, none⟩],
          [⟨none, some "B", some "b@x.com", none, some 21, none, none, none⟩]⟩
        noFaults).response.status = 201 ↔ 1 + ((1 : Nat) : Int) + (1 : Nat) ≤ (5 : Int)) ∧
    ((createEnrollment ⟨[⟨1, "c", 5⟩], [], [], 1, 1⟩
        ⟨some "A", some "a@x.com", none, some 20, none, none, some 1, none, none,
          [⟨none, some "m1", some 5, none⟩],
          [⟨none, some "B", some "b@x.com", none, some 21, none, none, none⟩]⟩
        noFaults).response.status = 201 →
      ticketsOf (createEnrollment ⟨[⟨1, "c", 5⟩], [], [], 1, 1⟩
        ⟨some "A", some "a@x.com", none, some 20, none, none, some 1, none, none,
          [⟨none, some "m1", some 5, none⟩],
          [⟨none, some "B", some "b@x.com", none, some 21, none, none, none⟩]⟩
        noFaults).store 1 = some (5 - (1 + ((1 : Nat) : Int) + (1 : Nat)))) :=
  C1_ticket_conservation ⟨[⟨1, "c", 5⟩], [], [], 1, 1⟩
    ⟨some "A", some "a@x.com", none, some 20, none, none, some 1, none, none,
      [⟨none, some "m1", some 5, none⟩],
      [⟨none, some "B", some "b@x.com", none, some 21, none, none, none⟩]⟩
    noFaults ⟨1, "c", 5⟩ (by decide) (by decide) (by decide) (by decide)

/-- C2 (atomicity of create).  Whenever the response of a create is not 201 -
whatever the request, the store and the storage calls that fail - the
enrollment rows, the minor rows and the course rows (hence every course's
tickets) are those from before the call, and the transaction was not
committed. -/
theorem C2_create_atomic (s : Store) (req : EnrollmentRequest) (faults : Faults)
    (hfail : (createEnrollment s req faults).response.status ≠ 201) :
    (createEnrollment s req faults).store.enrollments = s.enrollments ∧
    (createEnrollment s req faults).store.minors = s.minors ∧
    (createEnrollment s req faults).store.courses = s.courses ∧
    (createEnrollment s req faults).tx ≠ .committed := by
  unfold createEnrollment at hfail ⊢
  rw [settle_response] at hfail
  have hn := createAttempt_not_committed hfail
  obtain ⟨h1, h2, h3⟩ := settle_not_committed s _ hn
  exact ⟨h1, h2, h3, by rw [settle_tx]; exact hn⟩

/-- Witness of C2: the insertion of the secondary adults fails after the primary
and the minor were written. -/
theorem C2_create_atomic_witness :
    (createEnrollment scenarioStore scenarioRequest adultsInsertFails).response.status = 500 ∧
    (createEnrollment scenarioStore scenarioRequest adultsInsertFails).store.enrollments =
      scenarioStore.enrollments ∧
    (createEnrollment scenarioStore scenarioRequest adultsInsertFails).store.minors =
      scenarioStore.minors ∧
    (createEnrollment scenarioStore scenarioRequest adultsInsertFails).store.courses =
      scenarioStore.courses ∧
    (createEnrollment scenarioStore scenarioRequest adultsInsertFails).tx ≠ .committed :=
  ⟨by decide, C2_create_atomic scenarioStore scenarioRequest adultsInsertFails (by decide)⟩

/-- C3 (group deletion symmetry).  In a store whose enrollment ids are unique
(the primary key), deleting an existing enrollment whose course resolves, with no storage failure (the response
is not 500): the response is 200 with `ticketsReturned = g + m`, where `g` is
the number of rows sharing the enrollment's `group_id` and `m` the number of
minor rows attached to them; exactly those `g` enrollment rows and `m` minor
rows are removed; the course's tickets grow by `g + m`; and deleting any other
member of the group (whose course resolves) removes the same rows and returns
the same number. -/
theorem C3_group_deletion (s : Store) (id : Nat) (e : Enrollment) (course : Course)
    (faults : Faults) (hids : (s.enrollments.map (fun x => x.id)).Nodup)
    (he : Enrollment.findByPk s id = some e)
    (hc : e.id_course.bind (Course.findByPk s) = some course)
    (hstorage : (deleteEnrollmentById s id faults).response.status ≠ 500) :
    (deleteEnrollmentById s id faults).response.status = 200 ∧
    (deleteEnrollmentById s id faults).response.ticketsReturned =
      some (((groupOf s e.group_id).length : Int) + (minorsOfGroup s e.group_id).length) ∧
    (deleteEnrollmentById s id faults).store.enrollments =
      s.enrollments.filter (fun x => !(x.group_id == e.group_id)) ∧
    (deleteEnrollmentById s id faults).store.minors =
      s.minors.filter (fun m =>
        !(((groupOf s e.group_id).map (fun x => x.id)).contains m.enrollment_id)) ∧
    (deleteEnrollmentById s id faults).store.enrollments.length +
      (groupOf s e.group_id).length = s.enrollments.length ∧
    (deleteEnrollmentById s id faults).store.minors.length +
      (minorsOfGroup s e.group_id).length = s.minors.length ∧
    ticketsOf (deleteEnrollmentById s id faults).store course.id =
      some (course.tickets +
        (((groupOf s e.group_id).length : Int) + (minorsOfGroup s e.group_id).length)) ∧
    (∀ (id2 : Nat) (e2 : Enrollment) (course2 : Course) (faults2 : Faults),
      Enrollment.findByPk s id2 = some e2 → e2.group_id = e.group_id →
      e2.id_course.bind (Course.findByPk s) = some course2 →
      (deleteEnrollmentById s id2 faults2).response.status ≠ 500 →
      (deleteEnrollmentById s id2 faults2).store.enrollments =
        (deleteEnrollmentById s id faults).store.enrollments ∧
      (deleteEnrollmentById s id2 faults2).store.minors =
        (deleteEnrollmentById s id faults).store.minors ∧
      (deleteEnrollmentById s id2 faults2).response.ticketsReturned =
        (deleteEnrollmentById s id faults).response.ticketsReturned) := by
  have key : ∀ (i : Nat) (x : Enrollment) (cx : Course) (fx : Faults),
      Enrollment.findByPk s i = some x → x.id_course.bind (Course.findByPk s) = some cx →
      (deleteEnrollmentById s i fx).response.status ≠ 500 →
      DeleteCommitted s x.group_id cx (deleteAttempt s i fx) ∧
        (deleteEnrollmentById s i fx).store = (deleteAttempt s i fx).working ∧
        (deleteEnrollmentById s i fx).response = (deleteAttempt s i fx).response := by
    intro i x cx fx hx hcx hst
    unfold deleteEnrollmentById at hst ⊢
    rw [settle_response] at hst ⊢
    rcases deleteAttempt_cases s i fx with h | h | ⟨x2, c2, hx2, hc2, hd⟩
    · exact absurd h.1 hst
    · rcases h.2.2 with h3 | ⟨x2, hx2, hc2⟩
      · rw [hx] at h3
        cases h3
      · rw [hx] at hx2
        cases hx2
        rw [hcx] at hc2
        cases hc2
    · rw [hx] at hx2
      cases hx2
      rw [hcx] at hc2
      cases hc2
      exact ⟨hd, settle_committed _ _ hd.2.2.2.2.2.2, rfl⟩
  obtain ⟨hd, hs, hr⟩ := key id e course faults he hc hstorage
  obtain ⟨hen, hmi, hco, -, -, hresp, -⟩ := hd
  have hnd := hids
  have hfil : s.enrollments.filter
        (fun x => !(((groupOf s e.group_id).map (fun e => e.id)).contains x.id)) =
      s.enrollments.filter (fun x => !(x.group_id == e.group_id)) := by
    apply List.filter_congr
    intro x hx
    rw [contains_groupIds_iff hnd e.group_id hx]
  have hgrp : (s.enrollments.filter (fun x => x.group_id == e.group_id)).length =
      (groupOf s e.group_id).length := rfl
  refine ⟨?_, ?_, ?_, ?_, ?_, ?_, ?_, ?_⟩
  · rw [hr, hresp]
  · rw [hr, hresp]
    simp only [Option.some.injEq]
    ring
  · rw [hs, hen, hfil]
  · rw [hs, hmi]
  · rw [hs, hen, hfil, ← hgrp]
    exact filter_length_add (fun x => x.group_id == e.group_id) s.enrollments
  · rw [hs, hmi]
    exact filter_length_add
      (fun m => ((groupOf s e.group_id).map (fun x => x.id)).contains m.enrollment_id) s.minors
  · rw [hs, ticketsOf_map_add s _ course.id course.id _ hco]
    have hcourse : ticketsOf s course.id = some course.tickets := by
      cases hid : e.id_course with
      | none => simp [hid] at hc
      | some cid =>
        simp only [hid, Option.some_bind] at hc
        rw [Course.findByPk_course_id hc]
        simp [ticketsOf, hc]
    rw [hcourse]
    simp only [Option.map_some', if_true, Option.some.injEq]
    ring
  · intro id2 e2 course2 faults2 he2 hg2 hc2 hst2
    obtain ⟨hd2, hs2, hr2⟩ := key id2 e2 course2 faults2 he2 hc2 hst2
    obtain ⟨hen2, hmi2, -, -, -, hresp2, -⟩ := hd2
    rw [hg2] at hen2 hmi2 hresp2
    refine ⟨?_, ?_, ?_⟩
    · rw [hs2, hs, hen2, hen]
    · rw [hs2, hs, hmi2, hmi]
    · rw [hr2, hr, hresp2, hresp]

/-- Witness of C3: in `busyStore`, deleting row 2, a secondary member of group 7
(two rows, one minor), returns 3 tickets to course 1. -/
theorem C3_group_deletion_witness :
    (busyStore.enrollments.map (fun x => x.id)).Nodup ∧
    (deleteEnrollmentById busyStore 2 noFaults).response.ticketsReturned = some 3 ∧
    (deleteEnrollmentById busyStore 2 noFaults).store.enrollments = [sampleRow 3 2 8] :=
  ⟨by decide,
   (C3_group_deletion busyStore 2 (sampleRow 2 1 7) ⟨1, "Taller", 4⟩ noFaults
      (by decide) (by decide) (by decide) (by decide)).2.1,
   (C3_group_deletion busyStore 2 (sampleRow 2 1 7) ⟨1, "Taller", 4⟩ noFaults
      (by decide) (by decide) (by decide) (by decide)).2.2.1⟩

/-- Counterexample to C4 as stated.  In `busyStore` (course 1 has 4 tickets) a
create that supplies the group id 7 of an existing group answers 201 and
creates row 4; deleting row 4 then also removes rows 1 and 2 and their minor,
and course 1 ends with 7 tickets. -/
theorem C4_round_trip_counterexample :
    (createEnrollment busyStore (soloRequest (some 7)) noFaults).response.status = 201 ∧
    ((createEnrollment busyStore (soloRequest (some 7)) noFaults).response.enrollment.map
      (fun e => e.id)) = some 4 ∧
    (deleteEnrollmentById (createEnrollment busyStore (soloRequest (some 7)) noFaults).store
      4 noFaults).store.enrollments = [sampleRow 3 2 8] ∧
    (deleteEnrollmentById (createEnrollment busyStore (soloRequest (some 7)) noFaults).store
      4 noFaults).store.enrollments ≠ busyStore.enrollments ∧
    (deleteEnrollmentById (createEnrollment busyStore (soloRequest (some 7)) noFaults).store
      4 noFaults).store.minors ≠ busyStore.minors ∧
    ticketsOf busyStore 1 = some 4 ∧
    ticketsOf (deleteEnrollmentById
      (createEnrollment busyStore (soloRequest (some 7)) noFaults).store 4 noFaults).store 1 =
      some 7 := by
  decide

/-- C4 (create/delete round trip, amended).  In a store that satisfies its
integrity constraints, after a create that answered 201 with the primary
enrollment `primary`, and whose group id is either generated (none or 0
supplied) or supplied and carried by no existing row, deleting `primary.id`
without storage failure answers 200, returns `1 + a + k` tickets, and leaves the
enrollment rows, the minor rows and the course rows (hence the tickets) as they
were before the create. -/
theorem C4_round_trip (s : Store) (req : EnrollmentRequest) (faults faults2 : Faults)
    (primary : Enrollment) (hwf : s.wf)
    (hcreated : (createEnrollment s req faults).response.status = 201)
    (hprimary : (createEnrollment s req faults).response.enrollment = some primary)
    (hgroup : truthyInt req.group_id = true → ∀ e ∈ s.enrollments, e.group_id ≠ req.group_id)
    (hstorage : (deleteEnrollmentById (createEnrollment s req faults).store primary.id
      faults2).response.status ≠ 500) :
    (deleteEnrollmentById (createEnrollment s req faults).store primary.id
      faults2).response.status = 200 ∧
    (deleteEnrollmentById (createEnrollment s req faults).store primary.id
      faults2).response.ticketsReturned = some (totalTicketsRequired req) ∧
    (deleteEnrollmentById (createEnrollment s req faults).store primary.id
      faults2).store.enrollments = s.enrollments ∧
    (deleteEnrollmentById (createEnrollment s req faults).store primary.id
      faults2).store.minors = s.minors ∧
    (deleteEnrollmentById (createEnrollment s req faults).store primary.id
      faults2).store.courses = s.courses := by
  obtain ⟨course, added, hm, -, hc, -, he, hmi, hl, hall, hco, hr, -⟩ :=
    createEnrollment_created hcreated
  rw [hr] at hprimary
  cases hprimary
  obtain ⟨hndc, -, -, hlt, -, hfk⟩ := hwf
  generalize (createEnrollment s req faults).store = s1 at *
  have hpid : (createdPrimary s req).id = s.nextEnrollmentId := rfl
  rw [hpid] at hstorage ⊢
  have hrows := createdRows_spec s req
  -- the created primary is found
  have hfind : Enrollment.findByPk s1 s.nextEnrollmentId = some (createdPrimary s req) := by
    unfold Enrollment.findByPk
    rw [he, find?_append_of_none]
    · simp [createdPrimary]
    · intro x hx
      have := hlt x hx
      simp only [beq_eq_false_iff_ne, ne_eq]
      omega
  -- its course resolves
  have htruthy : truthyNat req.id_course = true := by
    unfold missingRequired at hm
    simp only [Bool.or_eq_false_iff, Bool.not_eq_false'] at hm
    exact hm.2
  have hcid := truthyNat_some htruthy
  have hcourse1 : (createdPrimary s req).id_course.bind (Course.findByPk s1) =
      some { course with tickets := course.tickets - totalTicketsRequired req } := by
    have h1 : (createdPrimary s req).id_course = req.id_course := rfl
    rw [h1, hcid, Option.some_bind]
    unfold Course.findByPk at hc ⊢
    rw [hco, find?_map_courses _ _ _
      (fun c => { c with tickets := course.tickets - totalTicketsRequired req })
      (fun _ => rfl), hc]
    simp [Course.findByPk_course_id hc]
  -- the group of the created primary is the set of created rows
  have hfresh := newGroupId_fresh s req.group_id hgroup
  have hgrp : groupOf s1 (createdPrimary s req).group_id =
      createdPrimary s req :: createdAdults s req := by
    unfold groupOf
    rw [he]
    apply filter_append_right
    · intro x hx
      have := hfresh x hx
      simpa [createdPrimary, primaryRow] using this
    · intro x hx
      have := (hrows x hx).1
      simpa [createdPrimary, primaryRow] using this
  have hold_e : ∀ x ∈ s.enrollments,
      ((createdPrimary s req :: createdAdults s req).map (fun e => e.id)).contains x.id
        = false := by
    intro x hx
    apply contains_ids_false
    intro y hy
    have h1 := (hrows y hy).2.2
    have h2 := hlt x hx
    omega
  have hnew_e : ∀ x ∈ createdPrimary s req :: createdAdults s req,
      ((createdPrimary s req :: createdAdults s req).map (fun e => e.id)).contains x.id
        = true :=
    fun x hx => (contains_ids_iff _ _).mpr ⟨x, hx, rfl⟩
  have hold_m : ∀ m ∈ s.minors,
      ((createdPrimary s req :: createdAdults s req).map (fun e => e.id)).contains
        m.enrollment_id = false := by
    intro m hmem
    obtain ⟨x, hx, hxm⟩ := hfk m hmem
    rw [← hxm]
    exact hold_e x hx
  have hnew_m : ∀ m ∈ added,
      ((createdPrimary s req :: createdAdults s req).map (fun e => e.id)).contains
        m.enrollment_id = true := by
    intro m hmem
    rw [hall m hmem]
    exact (contains_ids_iff _ _).mpr ⟨createdPrimary s req, List.mem_cons_self _ _, rfl⟩
  have hmog : minorsOfGroup s1 (createdPrimary s req).group_id = added := by
    unfold minorsOfGroup
    rw [hgrp, hmi]
    exact filter_append_right _ _ _ hold_m hnew_m
  -- the delete commits
  unfold deleteEnrollmentById at hstorage ⊢
  rw [settle_response] at hstorage ⊢
  rcases deleteAttempt_cases s1 s.nextEnrollmentId faults2 with h | h | ⟨x, c1, hx, hc1, hd⟩
  · exact absurd h.1 hstorage
  · rcases h.2.2 with h3 | ⟨x, hx, hcx⟩
    · rw [hfind] at h3
      cases h3
    · rw [hfind] at hx
      cases hx
      rw [hcourse1] at hcx
      cases hcx
  · rw [hfind] at hx
    cases hx
    rw [hcourse1] at hc1
    cases hc1
    obtain ⟨hen, hmin, hcou, -, -, hresp, htx⟩ := hd
    rw [settle_committed _ _ htx]
    rw [hgrp] at hen hmin hcou hresp
    rw [hmog] at hcou hresp
    have hcount : ((added.length : Int) +
        ((createdPrimary s req :: createdAdults s req).length : Int)) =
        totalTicketsRequired req := by
      rw [createdRows_length, hl]
      unfold totalTicketsRequired
      push_cast
      ring
    rw [hcount] at hcou hresp
    refine ⟨by rw [hresp], by rw [hresp], ?_, ?_, ?_⟩
    · rw [hen, he]
      apply filter_append_left
      · intro y hy
        simp only [hold_e y hy, Bool.not_false]
      · intro y hy
        simp only [hnew_e y hy, Bool.not_true]
    · rw [hmin, hmi]
      apply filter_append_left
      · intro y hy
        simp only [hold_m y hy, Bool.not_false]
      · intro y hy
        simp only [hnew_m y hy, Bool.not_true]
    · rw [hcou, hco]
      simp only [Course.findByPk_course_id hc]
      exact courses_set_then_add s.courses _ course _ hndc (Course.findByPk_course_mem hc)
        (Course.findByPk_course_id hc)

/-- Witness of C4: the scenario request on the scenario store, then the delete
of the created primary (row 1). -/
theorem C4_round_trip_witness :
    scenarioStore.wf ∧
    (createEnrollment scenarioStore scenarioRequest noFaults).response.status = 201 ∧
    (deleteEnrollmentById (createEnrollment scenarioStore scenarioRequest noFaults).store 1
      noFaults).response.status = 200 ∧
    (deleteEnrollmentById (createEnrollment scenarioStore scenarioRequest noFaults).store 1
      noFaults).response.ticketsReturned = some 3 ∧
    (deleteEnrollmentById (createEnrollment scenarioStore scenarioRequest noFaults).store 1
      noFaults).store.enrollments = scenarioStore.enrollments ∧
    (deleteEnrollmentById (createEnrollment scenarioStore scenarioRequest noFaults).store 1
      noFaults).store.minors = scenarioStore.minors ∧
    (deleteEnrollmentById (createEnrollment scenarioStore scenarioRequest noFaults).store 1
      noFaults).store.courses = scenarioStore.courses :=
  ⟨by decide, by decide,
   C4_round_trip scenarioStore scenarioRequest noFaults noFaults
     (createdPrimary scenarioStore scenarioRequest)
     (by decide) (by decide) (by decide) (by decide) (by decide)⟩

/-- C5 (global ticket invariant), evaluated where the code breaks it.  In
`busyStore` course 1 has 4 tickets, 2 enrollment rows and 1 minor row (ledger 7).
The update `addMinorRequest` of row 1 answers 200 and adds a minor row without
taking a ticket, so the ledger becomes 8; deleting the group afterwards returns
4 tickets and leaves course 1 with 8 tickets and no row. -/
theorem C5_update_breaks_ledger :
    busyStore.wf ∧
    ledger busyStore 1 = some 7 ∧
    (updateEnrollmentById busyStore 1 addMinorRequest noFaults).response.status = 200 ∧
    ticketsOf (updateEnrollmentById busyStore 1 addMinorRequest noFaults).store 1 = some 4 ∧
    (minorsOfCourse (updateEnrollmentById busyStore 1 addMinorRequest noFaults).store 1).length
      = 2 ∧
    ledger (updateEnrollmentById busyStore 1 addMinorRequest noFaults).store 1 = some 8 ∧
    (deleteEnrollmentById (updateEnrollmentById busyStore 1 addMinorRequest noFaults).store 1
      noFaults).response.ticketsReturned = some 4 ∧
    ticketsOf (deleteEnrollmentById
      (updateEnrollmentById busyStore 1 addMinorRequest noFaults).store 1 noFaults).store 1
      = some 8 := by
  decide

/-- C6 (non-negative inventory).  If no course has negative tickets, then after
any create, update or delete - whatever the request, the target id and the
storage calls that fail - no course has negative tickets. -/
theorem C6_nonnegative_inventory (s : Store) (req : EnrollmentRequest) (id : Nat)
    (faults : Faults) (h : ∀ c ∈ s.courses, 0 ≤ c.tickets) :
    (∀ c ∈ (createEnrollment s req faults).store.courses, 0 ≤ c.tickets) ∧
    (∀ c ∈ (updateEnrollmentById s id req faults).store.courses, 0 ≤ c.tickets) ∧
    (∀ c ∈ (deleteEnrollmentById s id faults).store.courses, 0 ≤ c.tickets) := by
  refine ⟨?_, ?_, ?_⟩
  · by_cases hst : (createEnrollment s req faults).response.status = 201
    · obtain ⟨course, added, -, -, -, ht, -, -, -, -, hco, -, -⟩ :=
        createEnrollment_created hst
      rw [hco]
      intro c hc
      obtain ⟨c0, hc0, rfl⟩ := List.mem_map.mp hc
      split
      · simp only
        omega
      · exact h c0 hc0
    · have hn : (createAttempt s req faults).tx ≠ .committed := by
        apply createAttempt_not_committed
        unfold createEnrollment at hst
        rw [settle_response] at hst
        exact hst
      unfold createEnrollment
      rw [(settle_not_committed s _ hn).2.2]
      exact h
  · rw [updateEnrollmentById_courses]
    exact h
  · unfold deleteEnrollmentById
    rcases deleteAttempt_cases s id faults with h1 | h1 | ⟨e, course, -, -, hd⟩
    · have hn : (deleteAttempt s id faults).tx ≠ .committed := by rw [h1.2]; simp
      rw [(settle_not_committed s _ hn).2.2]
      exact h
    · have hn : (deleteAttempt s id faults).tx ≠ .committed := by rw [h1.2.1]; simp
      rw [(settle_not_committed s _ hn).2.2]
      exact h
    · obtain ⟨-, -, hco, -, -, -, htx⟩ := hd
      rw [settle_committed _ _ htx, hco]
      intro c hc
      obtain ⟨c0, hc0, rfl⟩ := List.mem_map.mp hc
      have := h c0 hc0
      split
      · simp only
        omega
      · exact this

/-- Witness of C6 on `busyStore`, with the update that adds a minor to row 1. -/
theorem C6_nonnegative_inventory_witness :
    (∀ c ∈ busyStore.courses, 0 ≤ c.tickets) ∧
    (∀ c ∈ (createEnrollment busyStore addMinorRequest noFaults).store.courses,
      0 ≤ c.tickets) ∧
    (∀ c ∈ (updateEnrollmentById busyStore 1 addMinorRequest noFaults).store.courses,
      0 ≤ c.tickets) ∧
    (∀ c ∈ (deleteEnrollmentById busyStore 1 noFaults).store.courses, 0 ≤ c.tickets) :=
  ⟨by decide, C6_nonnegative_inventory busyStore addMinorRequest 1 noFaults (by decide)⟩

/-- C7 (end-to-end scenario).  From course 1 with 5 tickets and no enrollment:
the first create answers 201, leaves 2 tickets, two enrollment rows of one group
and one minor attached to the primary; the same request again (3 tickets needed)
answers 400 and changes nothing; deleting the first primary answers 200 with
`ticketsReturned = 3`, restores 5 tickets and removes all the rows. -/
theorem C7_scenario :
    (createEnrollment scenarioStore scenarioRequest noFaults).response.status = 201 ∧
    ((createEnrollment scenarioStore scenarioRequest noFaults).response.enrollment.map
      (fun e => e.id)) = some 1 ∧
    ticketsOf scenarioAfterCreate 1 = some 2 ∧
    (scenarioAfterCreate.enrollments.map
      (fun e => (e.id, e.fullname, e.group_id, e.id_course))) =
      [(1, some "A", some 1, some 1), (2, some "B", some 1, some 1)] ∧
    (scenarioAfterCreate.minors.map (fun m => (m.name, m.age, m.enrollment_id))) =
      [(some "m1", some 5, 1)] ∧
    totalTicketsRequired scenarioRequest = 3 ∧
    (createEnrollment scenarioAfterCreate scenarioRequest noFaults).response.status = 400 ∧
    ticketsOf scenarioAfterRefusal 1 = some 2 ∧
    scenarioAfterRefusal.enrollments = scenarioAfterCreate.enrollments ∧
    scenarioAfterRefusal.minors = scenarioAfterCreate.minors ∧
    (deleteEnrollmentById scenarioAfterRefusal 1 noFaults).response.status = 200 ∧
    (deleteEnrollmentById scenarioAfterRefusal 1 noFaults).response.ticketsReturned =
      some 3 ∧
    ticketsOf (deleteEnrollmentById scenarioAfterRefusal 1 noFaults).store 1 = some 5 ∧
    (deleteEnrollmentById scenarioAfterRefusal 1 noFaults).store.enrollments = [] ∧
    (deleteEnrollmentById scenarioAfterRefusal 1 noFaults).store.minors = [] := by
  decide

/-- C8 (rows written by a successful create).  A create that answers 201 appends
to the enrollment table the primary row (the one returned in the response)
followed by one row per payload adult, appends to the minor table one row per
payload minor, and leaves the rows that were there untouched; every appended
enrollment row carries the primary's `group_id` and the request's `id_course`,
and every appended minor row has the primary's id as `enrollment_id`, whatever
`enrollment_id` the payload carried. -/
theorem C8_rows_written (s : Store) (req : EnrollmentRequest) (faults : Faults)
    (h : (createEnrollment s req faults).response.status = 201) :
    ∃ (primary : Enrollment) (adultsAdded : List Enrollment) (minorsAdded : List Minor),
      (createEnrollment s req faults).response.enrollment = some primary ∧
      (createEnrollment s req faults).store.enrollments =
        s.enrollments ++ primary :: adultsAdded ∧
      adultsAdded.length = req.adults.length ∧
      (createEnrollment s req faults).store.minors = s.minors ++ minorsAdded ∧
      minorsAdded.length = req.minors.length ∧
      (∀ e ∈ primary :: adultsAdded,
        e.group_id = primary.group_id ∧ e.id_course = req.id_course) ∧
      (∀ m ∈ minorsAdded, m.enrollment_id = primary.id) := by
  obtain ⟨course, added, -, -, -, -, he, hmi, hl, hall, -, hr, -⟩ :=
    createEnrollment_created h
  refine ⟨createdPrimary s req, createdAdults s req, added, hr, he, ?_, hmi, hl, ?_, hall⟩
  · simp [createdAdults, assignIds_length]
  · intro e hmem
    obtain ⟨h1, h2, -⟩ := createdRows_spec s req e hmem
    exact ⟨h1, h2⟩

/-- Witness of C8: on `busyStore`, a payload minor that carries
`enrollment_id = 99` is attached to the created primary, row 4. -/
theorem C8_rows_written_witness :
    (createEnrollment busyStore foreignMinorRequest noFaults).response.status = 201 ∧
    ∃ (primary : Enrollment) (adultsAdded : List Enrollment) (minorsAdded : List Minor),
      (createEnrollment busyStore foreignMinorRequest noFaults).response.enrollment =
        some primary ∧
      (createEnrollment busyStore foreignMinorRequest noFaults).store.enrollments =
        busyStore.enrollments ++ primary :: adultsAdded ∧
      adultsAdded.length = foreignMinorRequest.adults.length ∧
      (createEnrollment busyStore foreignMinorRequest noFaults).store.minors =
        busyStore.minors ++ minorsAdded ∧
      minorsAdded.length = foreignMinorRequest.minors.length ∧
      (∀ e ∈ primary :: adultsAdded,
        e.group_id = primary.group_id ∧ e.id_course = foreignMinorRequest.id_course) ∧
      (∀ m ∈ minorsAdded, m.enrollment_id = primary.id) :=
  ⟨by decide, C8_rows_written busyStore foreignMinorRequest noFaults (by decide)⟩

/-- Counterexample to C9 as stated.  A request that supplies `group_id = 0` is
answered 201, and the created row carries group id 1, not the supplied 0. -/
theorem C9_group_id_counterexample :
    (soloRequest (some 0)).group_id = some 0 ∧
    (createEnrollment scenarioStore (soloRequest (some 0)) noFaults).response.status = 201 ∧
    ((createEnrollment scenarioStore (soloRequest (some 0)) noFaults).store.enrollments.map
      (fun e => e.group_id)) = [some 1] := by
  decide

/-- C9 (group id assignment, amended).  A create that answers 201 appends
`1 + a` enrollment rows.  If the request supplies a non-zero `group_id`, they
all carry it.  If it supplies none, or 0, they all carry `m + 1` where `m` is the
largest group id of the existing rows, and 1 when no existing row has a group
id (in particular when there is no enrollment). -/
theorem C9_group_id_assignment (s : Store) (req : EnrollmentRequest) (faults : Faults)
    (h : (createEnrollment s req faults).response.status = 201) :
    ∃ added : List Enrollment,
      (createEnrollment s req faults).store.enrollments = s.enrollments ++ added ∧
      added.length = 1 + req.adults.length ∧
      (∀ g : Int, req.group_id = some g → g ≠ 0 → ∀ e ∈ added, e.group_id = some g) ∧
      ((req.group_id = none ∨ req.group_id = some 0) →
        (∀ m : Int, (∃ x ∈ s.enrollments, x.group_id = some m) →
          (∀ x ∈ s.enrollments, ∀ g : Int, x.group_id = some g → g ≤ m) →
          ∀ e ∈ added, e.group_id = some (m + 1)) ∧
        ((∀ x ∈ s.enrollments, x.group_id = none) →
          ∀ e ∈ added, e.group_id = some 1)) := by
  obtain ⟨course, minorsAdded, -, -, -, -, he, -, -, -, -, -, -⟩ :=
    createEnrollment_created h
  refine ⟨createdPrimary s req :: createdAdults s req, he, createdRows_length s req, ?_, ?_⟩
  · intro g hg hg0 e hmem
    rw [(createdRows_spec s req e hmem).1, newGroupId_supplied s req.group_id]
    · exact hg
    · simp [hg, truthyInt, hg0]
  · intro hnone
    have hfalsy : truthyInt req.group_id = false := by
      rcases hnone with h0 | h0 <;> simp [h0, truthyInt]
    refine ⟨?_, ?_⟩
    · intro m ⟨x, hx, hxm⟩ hmax e hmem
      rw [(createdRows_spec s req e hmem).1, newGroupId_generated s req.group_id hfalsy]
      have hmem2 : m ∈ s.enrollments.filterMap (fun e => e.group_id) :=
        List.mem_filterMap.mpr ⟨x, hx, hxm⟩
      obtain ⟨m1, hm1, hle⟩ := maxOpt_ge hmem2
      obtain ⟨y, hy, hym⟩ := List.mem_filterMap.mp (maxOpt_mem hm1)
      have hle2 := hmax y hy m1 hym
      have hm2 : Enrollment.maxGroupId s = some m1 := hm1
      rw [hm2]
      simp only [Option.getD_some, Option.some.injEq]
      omega
    · intro hall e hmem
      rw [(createdRows_spec s req e hmem).1, newGroupId_generated s req.group_id hfalsy]
      have hnil : s.enrollments.filterMap (fun e => e.group_id) = [] := by
        apply List.filterMap_eq_nil_iff.mpr
        intro x hx
        exact hall x hx
      have hm2 : Enrollment.maxGroupId s = none := maxOpt_eq_none hnil
      rw [hm2]
      rfl

/-- Witness of C9: on `busyStore` (largest group id 8) a request without
`group_id` creates a row of group 9. -/
theorem C9_group_id_assignment_witness :
    (createEnrollment busyStore (soloRequest none) noFaults).response.status = 201 ∧
    ((createEnrollment busyStore (soloRequest none) noFaults).store.enrollments.map
      (fun e => e.group_id)) = [some 7, some 7, some 8, some 9] ∧
    ∃ added : List Enrollment,
      (createEnrollment busyStore (soloRequest none) noFaults).store.enrollments =
        busyStore.enrollments ++ added ∧
      added.length = 1 + (soloRequest none).adults.length ∧
      (∀ g : Int, (soloRequest none).group_id = some g → g ≠ 0 →
        ∀ e ∈ added, e.group_id = some g) ∧
      (((soloRequest none).group_id = none ∨ (soloRequest none).group_id = some 0) →
        (∀ m : Int, (∃ x ∈ busyStore.enrollments, x.group_id = some m) →
          (∀ x ∈ busyStore.enrollments, ∀ g : Int, x.group_id = some g → g ≤ m) →
          ∀ e ∈ added, e.group_id = some (m + 1)) ∧
        ((∀ x ∈ busyStore.enrollments, x.group_id = none) →
          ∀ e ∈ added, e.group_id = some 1)) :=
  ⟨by decide, by decide,
    C9_group_id_assignment busyStore (soloRequest none) noFaults (by decide)⟩

/-- Counterexample to C10 as stated.  (a) A body with `id_course = 0`: the
decision list of the claim gives 404 (no course has the key 0), the handler
answers 400.  (b) A body whose `fullname` is the empty string, on a course with
tickets: the list gives 201, the handler answers 400.  (c) Storage failures that
do not yield 500: when the opening of the transaction fails no response is
sent, and when the insertion of the primary fails and the rollback fails too no
response is sent either - whereas the failing insertion alone yields 500. -/
theorem C10_create_status_counterexample :
    createStatusClaimed readNoId busyStore (soloBody (some (.num 0))) = 404 ∧
    (createEnrollmentHandler readNoId busyStore (soloBody (some (.num 0)))
      noFaults).response.map (fun r => r.status) = some 400 ∧
    createStatusClaimed readNoId busyStore emptyNameBody = 201 ∧
    (createEnrollmentHandler readNoId busyStore emptyNameBody noFaults).response.map
      (fun r => r.status) = some 400 ∧
    beginFails .beginTransaction = true ∧
    (createEnrollmentHandler readNoId busyStore (soloBody (some (.num 1)))
      beginFails).response = none ∧
    insertAndRollbackFail .createPrimary = true ∧
    insertAndRollbackFail .rollback = true ∧
    (createEnrollmentHandler readNoId busyStore (soloBody (some (.num 1)))
      insertAndRollbackFail).response = none ∧
    (createEnrollmentHandler readNoId busyStore (soloBody (some (.num 1)))
      insertFails).response.map (fun r => r.status) = some 500 := by
  decide

/-- C10 (response status of create, amended).  (1) When a response is sent and
no storage call of the `try` block has failed, i.e. the status is not 500, the
status is the one of the decision list `createStatusList`: 400 if `fullname`,
`email` or `id_course` is absent or empty or `id_course` is 0, otherwise 400 if
the primary age is below 14, otherwise 404 if `id_course` does not resolve to a
course, otherwise 400 if the tickets of the course are fewer than
`1 + len(adults) + len(minors)`, otherwise 201.  (2) A 201 response carries the
created primary enrollment, which is in the store.  (3), (4) When the
transaction could be opened and the rollback does not fail, a failure of the
course lookup, or of any storage call made after the capacity check, yields 500
when the request reaches it.  (5) Without any failing storage call and without
payload minors that carry an id, a response is sent and its status is the one of
the decision list. -/
theorem C10_create_status (readId : String → Option Nat) (s : Store) (b : CreateBody)
    (faults : Faults) :
    (∀ r, (createEnrollmentHandler readId s b faults).response = some r → r.status ≠ 500 →
      r.status = createStatusList readId s b) ∧
    (∀ r, (createEnrollmentHandler readId s b faults).response = some r → r.status = 201 →
      ∃ course, lookupCourse readId s b = some course ∧
        r.enrollment = some (createdPrimary s (b.typed course.id)) ∧
        createdPrimary s (b.typed course.id) ∈
          (createEnrollmentHandler readId s b faults).store.enrollments) ∧
    (faults .beginTransaction = false → faults .rollback = false →
      ¬ absentOrEmpty b → 14 ≤ b.age.getD 0 → faults .findCourse = true →
      (createEnrollmentHandler readId s b faults).response.map (fun r => r.status) =
        some 500) ∧
    (∀ course, faults .beginTransaction = false → faults .rollback = false →
      ¬ absentOrEmpty b → 14 ≤ b.age.getD 0 → faults .findCourse = false →
      lookupCourse readId s b = some course →
      totalTicketsRequired (b.typed course.id) ≤ course.tickets →
      writeFails s (b.typed course.id) faults →
      (createEnrollmentHandler readId s b faults).response.map (fun r => r.status) =
        some 500) ∧
    ((∀ c, faults c = false) → (∀ m ∈ b.minors, truthyNat m.id = false) →
      (createEnrollmentHandler readId s b faults).response.map (fun r => r.status) =
        some (createStatusList readId s b)) := by
  have hmiss : ¬ absentOrEmpty b → missingBody b = false := by
    intro h
    cases hm : missingBody b with
    | false => rfl
    | true => exact absurd ((missingBody_iff b).mp hm) h
  refine ⟨?_, ?_, ?_, ?_, ?_⟩
  · intro r hr hne
    obtain ⟨-, hra, -⟩ := serve_some hr
    rw [hra] at hne ⊢
    exact createAttemptRaw_status readId s b faults hne
  · intro r hr h201
    obtain ⟨-, hra, hst⟩ := serve_some hr
    rw [hra] at h201 ⊢
    unfold createEnrollmentHandler
    rw [hst]
    rcases createAttemptRaw_cases readId s b faults with h1 | ⟨course, -, -, hc, -, hcomm⟩
    · rcases h1.1 with h2 | h2 | h2 <;> rw [h2] at h201 <;> simp at h201
    · obtain ⟨added, he, -, -, -, -, hresp, htx⟩ := hcomm
      refine ⟨course, hc, by rw [hresp], ?_⟩
      rw [settle_committed _ _ htx, he]
      exact List.mem_append_right _ (List.mem_cons_self _ _)
  · intro hb hrb hm ha hf
    unfold createEnrollmentHandler
    rw [serve_sent hb (Or.inr hrb), createAttemptRaw_findFault (hmiss hm) ha hf]
    rfl
  · intro course hb hrb hm ha hf hc ht hw
    unfold createEnrollmentHandler
    rw [serve_sent hb (Or.inr hrb), createAttemptRaw_writes (hmiss hm) ha hf hc ht]
    simp only [Option.map_some']
    rw [(createWrites_status s (b.typed course.id) course faults).1 hw]
  · intro hf hid
    unfold createEnrollmentHandler
    rw [serve_sent (hf _) (Or.inr (hf _))]
    simp only [Option.map_some']
    rw [createAttemptRaw_status readId s b faults
      (createAttemptRaw_noFaults readId s b faults hf hid)]

/-- Witness of C10: the scenario request is answered as the decision list says,
201, and 500 when the insertion of the secondary adults fails. -/
theorem C10_create_status_witness :
    (createEnrollmentHandler readNoId scenarioStore scenarioRequest.body
      noFaults).response.map (fun r => r.status) =
      some (createStatusList readNoId scenarioStore scenarioRequest.body) ∧
    createStatusList readNoId scenarioStore scenarioRequest.body = 201 ∧
    writeFails scenarioStore (scenarioRequest.body.typed 1) adultsInsertFails ∧
    (createEnrollmentHandler readNoId scenarioStore scenarioRequest.body
      adultsInsertFails).response.map (fun r => r.status) = some 500 :=
  ⟨(C10_create_status readNoId scenarioStore scenarioRequest.body noFaults).2.2.2.2
     (fun _ => rfl) (by decide),
   by decide,
   by decide,
   (C10_create_status readNoId scenarioStore scenarioRequest.body adultsInsertFails).2.2.2.1
     ⟨1, "Taller", 5⟩ (by decide) (by decide) (by decide) (by decide) (by decide)
     (by decide) (by decide) (by decide)⟩

/-- Counterexample to C11 as stated.  A body whose three required fields are
present and not empty, with `id_course = 0`, is rejected with 400 and the
missing-data message. -/
theorem C11_required_fields_counterexample :
    (soloBody (some (.num 0))).fullname = some "C" ∧
    (soloBody (some (.num 0))).email = some "c@x.com" ∧
    (soloBody (some (.num 0))).id_course = some (.num 0) ∧
    (createEnrollmentHandler readNoId busyStore (soloBody (some (.num 0))) noFaults).response =
      some (reply 400 missingDataMessage) := by
  decide

/-- C11 (required fields, amended).  A create in which `fullname`, `email` or
`id_course` is absent or empty, or `id_course` is 0, answers 400 with the
missing-data message and leaves the store as it was (the transaction being
opened); and a create is answered 400 with that message only if one of these
three fields is absent or empty, or `id_course` is 0. -/
theorem C11_required_fields (readId : String → Option Nat) (s : Store) (b : CreateBody)
    (faults : Faults) :
    ((b.fullname = none ∨ b.fullname = some "" ∨ b.email = none ∨ b.email = some "" ∨
        b.id_course = none ∨ b.id_course = some (.text "") ∨ b.id_course = some (.num 0)) →
      faults .beginTransaction = false →
      (createEnrollmentHandler readId s b faults).response =
        some (reply 400 missingDataMessage) ∧
      (createEnrollmentHandler readId s b faults).store = s) ∧
    (∀ r, (createEnrollmentHandler readId s b faults).response = some r →
      r.status = 400 → r.message = missingDataMessage →
      (b.fullname = none ∨ b.fullname = some "" ∨ b.email = none ∨ b.email = some "" ∨
        b.id_course = none ∨ b.id_course = some (.text "") ∨ b.id_course = some (.num 0))) := by
  constructor
  · intro h hb
    have hm : missingBody b = true := (missingBody_iff b).mpr h
    unfold createEnrollmentHandler
    rw [createAttemptRaw_missing hm, serve_sent hb (Or.inl (by simp))]
    exact ⟨rfl, rfl⟩
  · intro r hr hst hmsg
    obtain ⟨-, hra, -⟩ := serve_some hr
    rw [hra] at hst hmsg
    apply (missingBody_iff b).mp
    cases hm : missingBody b with
    | true => rfl
    | false =>
      exfalso
      by_cases ha : b.age.getD 0 < 14
      · rw [createAttemptRaw_age hm ha] at hmsg
        have hne : ("El titular debe ser mayor de 14 años." : String) ≠ missingDataMessage := by
          decide
        exact hne hmsg
      have ha := not_lt.mp ha
      cases hf : faults .findCourse with
      | true =>
        rw [createAttemptRaw_findFault hm ha hf] at hst
        simp [thrown] at hst
      | false =>
        cases hc : lookupCourse readId s b with
        | none =>
          rw [createAttemptRaw_noCourse hm ha hf hc] at hst
          simp [reply] at hst
        | some course =>
          by_cases ht : course.tickets < totalTicketsRequired (b.typed course.id)
          · rw [createAttemptRaw_noTickets hm ha hf hc ht] at hmsg
            have hne : ("No hay suficientes tickets disponibles para esta inscripción." : String)
                ≠ missingDataMessage := by
              decide
            exact hne hmsg
          have ht := not_lt.mp ht
          rw [createAttemptRaw_writes hm ha hf hc ht] at hst
          rcases createWrites_cases s (b.typed course.id) course faults with
            h5 | ⟨_, -, -, -, -, -, hresp, -⟩
          · rw [h5.1] at hst
            cases hst
          · rw [hresp] at hst
            cases hst

/-- Witness of C11: the body whose `id_course` is the empty string is rejected
and writes nothing; the rejected body with `id_course = 0` has a required field
that is absent or empty, or an `id_course` of 0. -/
theorem C11_required_fields_witness :
    ((createEnrollmentHandler readNoId busyStore (soloBody (some (.text ""))) noFaults).response =
        some (reply 400 missingDataMessage) ∧
      (createEnrollmentHandler readNoId busyStore (soloBody (some (.text ""))) noFaults).store =
        busyStore) ∧
    ((soloBody (some (.num 0))).fullname = none ∨
      (soloBody (some (.num 0))).fullname = some "" ∨
      (soloBody (some (.num 0))).email = none ∨
      (soloBody (some (.num 0))).email = some "" ∨
      (soloBody (some (.num 0))).id_course = none ∨
      (soloBody (some (.num 0))).id_course = some (.text "") ∨
      (soloBody (some (.num 0))).id_course = some (.num 0)) :=
  ⟨(C11_required_fields readNoId busyStore (soloBody (some (.text ""))) noFaults).1
     (by decide) (by decide),
   (C11_required_fields readNoId busyStore (soloBody (some (.num 0))) noFaults).2
     (reply 400 missingDataMessage) (by decide) (by decide) (by decide)⟩

/-- C12 (age boundary).  For a create whose required fields are present, whose
course exists with enough tickets, and during which no storage call fails: the
response is 400 when the primary age (0 when omitted) is below 14, and 201 when
it is 14 or more. -/
theorem C12_age_boundary (s : Store) (req : EnrollmentRequest) (faults : Faults)
    (course : Course)
    (hreq : missingRequired req = false)
    (hcourse : Course.findByPk s (req.id_course.getD 0) = some course)
    (htickets : totalTicketsRequired req ≤ course.tickets)
    (hfind : faults .findCourse = false)
    (hwrites : ¬ writeFails s req faults) :
    (req.age.getD 0 < 14 → (createEnrollment s req faults).response.status = 400) ∧
    (14 ≤ req.age.getD 0 → (createEnrollment s req faults).response.status = 201) := by
  unfold createEnrollment
  rw [settle_response]
  constructor
  · intro ha
    rw [createAttempt_age hreq ha]
    rfl
  · intro ha
    rw [createAttempt_writes hreq ha hfind hcourse htickets]
    exact (createWrites_status s req course faults).2 hwrites

/-- Witness of C12: on `busyStore`, age 13 is refused and age 14 accepted. -/
theorem C12_age_boundary_witness :
    (createEnrollment busyStore (agedRequest (some 13)) noFaults).response.status = 400 ∧
    (createEnrollment busyStore (agedRequest (some 14)) noFaults).response.status = 201 :=
  ⟨(C12_age_boundary busyStore (agedRequest (some 13)) noFaults ⟨1, "Taller", 4⟩
      (by decide) (by decide) (by decide) (by decide) (by decide)).1 (by decide),
   (C12_age_boundary busyStore (agedRequest (some 14)) noFaults ⟨1, "Taller", 4⟩
      (by decide) (by decide) (by decide) (by decide) (by decide)).2 (by decide)⟩

/-- C13 (transaction outcome), evaluated where the code breaks it.  Each of the
four early returns of `createEnrollment` - missing field (400), primary under
14 (400), unknown course (404), not enough tickets (400) - answers with the
transaction neither committed nor rolled back, whereas the 404 answers of
`updateEnrollmentById` and `deleteEnrollmentById` roll back first. -/
theorem C13_create_leaves_transaction_open :
    (createEnrollment busyStore namelessRequest noFaults).response.status = 400 ∧
    (createEnrollment busyStore namelessRequest noFaults).tx = .leftOpen ∧
    (createEnrollment busyStore (agedRequest (some 13)) noFaults).response.status = 400 ∧
    (createEnrollment busyStore (agedRequest (some 13)) noFaults).tx = .leftOpen ∧
    (createEnrollment busyStore unknownCourseRequest noFaults).response.status = 404 ∧
    (createEnrollment busyStore unknownCourseRequest noFaults).tx = .leftOpen ∧
    (createEnrollment scenarioAfterCreate scenarioRequest noFaults).response.status = 400 ∧
    (createEnrollment scenarioAfterCreate scenarioRequest noFaults).tx = .leftOpen ∧
    (updateEnrollmentById busyStore 99 addMinorRequest noFaults).response.status = 404 ∧
    (updateEnrollmentById busyStore 99 addMinorRequest noFaults).tx = .rolledBack ∧
    (deleteEnrollmentById busyStore 99 noFaults).response.status = 404 ∧
    (deleteEnrollmentById busyStore 99 noFaults).tx = .rolledBack := by
  decide

/-- C14 (not found on update and delete).  When the lookups themselves do not
fail: an update of an id that resolves to no enrollment answers 404; a delete
answers 404 when the id resolves to no enrollment, and when the enrollment's
`id_course` resolves to no course; in each case the enrollment rows, the minor
rows and the course rows are left as they were. -/
theorem C14_not_found (s : Store) (id : Nat) (req : EnrollmentRequest) (faults : Faults) :
    (faults .findEnrollment = false → Enrollment.findByPk s id = none →
      (updateEnrollmentById s id req faults).response.status = 404 ∧
      (updateEnrollmentById s id req faults).store.enrollments = s.enrollments ∧
      (updateEnrollmentById s id req faults).store.minors = s.minors ∧
      (updateEnrollmentById s id req faults).store.courses = s.courses) ∧
    (faults .findEnrollment = false → Enrollment.findByPk s id = none →
      (deleteEnrollmentById s id faults).response.status = 404 ∧
      (deleteEnrollmentById s id faults).store.enrollments = s.enrollments ∧
      (deleteEnrollmentById s id faults).store.minors = s.minors ∧
      (deleteEnrollmentById s id faults).store.courses = s.courses) ∧
    (∀ e, faults .findEnrollment = false → faults .findCourse = false →
      Enrollment.findByPk s id = some e →
      e.id_course.bind (Course.findByPk s) = none →
      (deleteEnrollmentById s id faults).response.status = 404 ∧
      (deleteEnrollmentById s id faults).store.enrollments = s.enrollments ∧
      (deleteEnrollmentById s id faults).store.minors = s.minors ∧
      (deleteEnrollmentById s id faults).store.courses = s.courses) := by
  refine ⟨?_, ?_, ?_⟩
  · intro hf he
    have ha : updateAttempt s id req faults =
        ⟨s, reply 404 "Inscripción no encontrada", .rolledBack⟩ := by
      simp [updateAttempt, hf, he]
    unfold updateEnrollmentById
    rw [ha]
    exact ⟨rfl, rfl, rfl, rfl⟩
  · intro hf he
    have ha : deleteAttempt s id faults =
        ⟨s, reply 404 "Inscripción no encontrada", .rolledBack⟩ := by
      simp [deleteAttempt, hf, he]
    unfold deleteEnrollmentById
    rw [ha]
    exact ⟨rfl, rfl, rfl, rfl⟩
  · intro e hf hfc he hc
    have ha : deleteAttempt s id faults =
        ⟨s, reply 404 "Curso no encontrado.", .rolledBack⟩ := by
      simp [deleteAttempt, hf, hfc, he, hc]
    unfold deleteEnrollmentById
    rw [ha]
    exact ⟨rfl, rfl, rfl, rfl⟩

/-- Witness of C14: no row 99 in `busyStore`; row 1 of `danglingStore` refers to
a course that does not exist. -/
theorem C14_not_found_witness :
    (updateEnrollmentById busyStore 99 addMinorRequest noFaults).response.status = 404 ∧
    (deleteEnrollmentById busyStore 99 noFaults).response.status = 404 ∧
    (deleteEnrollmentById danglingStore 1 noFaults).response.status = 404 ∧
    (deleteEnrollmentById danglingStore 1 noFaults).store.enrollments =
      danglingStore.enrollments :=
  ⟨((C14_not_found busyStore 99 addMinorRequest noFaults).1 (by decide) (by decide)).1,
   ((C14_not_found busyStore 99 addMinorRequest noFaults).2.1 (by decide) (by decide)).1,
   ((C14_not_found danglingStore 1 addMinorRequest noFaults).2.2 (sampleRow 1 9 7)
      (by decide) (by decide) (by decide) (by decide)).1,
   ((C14_not_found danglingStore 1 addMinorRequest noFaults).2.2 (sampleRow 1 9 7)
      (by decide) (by decide) (by decide) (by decide)).2.1⟩

/-- C15 (update does not touch the ledger).  Whatever the store, the target id,
the request and the storage calls that fail, an update leaves the course table,
and so the tickets of every course, as it was. -/
theorem C15_update_keeps_tickets (s : Store) (id : Nat) (req : EnrollmentRequest)
    (faults : Faults) :
    (updateEnrollmentById s id req faults).store.courses = s.courses ∧
    ∀ c : Nat, ticketsOf (updateEnrollmentById s id req faults).store c = ticketsOf s c := by
  have h := updateEnrollmentById_courses s id req faults
  refine ⟨h, fun c => ?_⟩
  unfold ticketsOf Course.findByPk
  rw [h]

/-- C17 (group id continuity), evaluated where the code breaks it.  Row 1 of
`busyStore` is in group 7; the update `regroupRequest`, whose body names group
99, answers 200 and leaves row 1 in group 99. -/
theorem C17_update_changes_group :
    (Enrollment.findByPk busyStore 1).map (fun e => e.group_id) = some (some 7) ∧
    regroupRequest.group_id = some 99 ∧
    (updateEnrollmentById busyStore 1 regroupRequest noFaults).response.status = 200 ∧
    (Enrollment.findByPk (updateEnrollmentById busyStore 1 regroupRequest noFaults).store
      1).map (fun e => e.group_id) = some (some 99) := by
  decide

/-- Counterexample to C16 as stated.  An update of an id that does not exist,
whose payload has one minor without id, answers 404 and adds no row; an update
whose only payload minor and only payload adult carry the id 0 answers 200 and
adds one minor row and one enrollment row. -/
theorem C16_update_never_deletes_counterexample :
    addMinorRequest.minors.map (fun p => p.id) = [none] ∧
    (updateEnrollmentById busyStore 99 addMinorRequest noFaults).response.status = 404 ∧
    (updateEnrollmentById busyStore 99 addMinorRequest noFaults).store.minors.length =
      busyStore.minors.length ∧
    zeroIdRequest.minors.map (fun p => p.id) = [some 0] ∧
    zeroIdRequest.adults.map (fun a => a.id) = [some 0] ∧
    (updateEnrollmentById busyStore 1 zeroIdRequest noFaults).response.status = 200 ∧
    (updateEnrollmentById busyStore 1 zeroIdRequest noFaults).store.minors.length =
      busyStore.minors.length + 1 ∧
    (updateEnrollmentById busyStore 1 zeroIdRequest noFaults).store.enrollments.length =
      busyStore.enrollments.length + 1 := by
  decide

/-- C16 (update never deletes, amended).  After any update every enrollment id
and every minor id that was present is still present.  An update that answers
200 adds one enrollment row per payload adult whose id is absent or 0 and one
minor row per payload minor whose id is absent or 0; an update that answers
anything else adds no row. -/
theorem C16_update_never_deletes (s : Store) (id : Nat) (req : EnrollmentRequest)
    (faults : Faults) :
    (∀ e ∈ s.enrollments,
      ∃ x ∈ (updateEnrollmentById s id req faults).store.enrollments, x.id = e.id) ∧
    (∀ m ∈ s.minors,
      ∃ x ∈ (updateEnrollmentById s id req faults).store.minors, x.id = m.id) ∧
    ((updateEnrollmentById s id req faults).response.status = 200 →
      (updateEnrollmentById s id req faults).store.enrollments.length =
        s.enrollments.length + adultsWithoutId req ∧
      (updateEnrollmentById s id req faults).store.minors.length =
        s.minors.length + minorsWithoutId req) ∧
    ((updateEnrollmentById s id req faults).response.status ≠ 200 →
      (updateEnrollmentById s id req faults).store.enrollments = s.enrollments ∧
      (updateEnrollmentById s id req faults).store.minors = s.minors) := by
  by_cases hst : (updateEnrollmentById s id req faults).response.status = 200
  · obtain ⟨e0, addedM, addedA, -, he, hal, -, hm, hml, -, -⟩ := updateEnrollmentById_ok hst
    refine ⟨?_, ?_, fun _ => ⟨?_, ?_⟩, fun hne => absurd hst hne⟩
    · intro e hmem
      refine ⟨applyAdults req.group_id req.adults (applyPrimary id req e), ?_, ?_⟩
      · rw [he]
        apply List.mem_append_left
        exact List.mem_map_of_mem _ (List.mem_map_of_mem _ hmem)
      · rw [(applyAdults_keys _ _ _).1, applyPrimary_id]
    · intro m hmem
      refine ⟨applyMinors id req.minors m, ?_, (applyMinors_keys _ _ _).1⟩
      rw [hm]
      exact List.mem_append_left _ (List.mem_map_of_mem _ hmem)
    · rw [he]
      simp [hal]
    · rw [hm]
      simp [hml]
  · obtain ⟨he, hm, -, -⟩ := updateEnrollmentById_failed hst
    refine ⟨?_, ?_, fun h => absurd h hst, fun _ => ⟨he, hm⟩⟩
    · intro e hmem
      exact ⟨e, by rw [he]; exact hmem, rfl⟩
    · intro m hmem
      exact ⟨m, by rw [hm]; exact hmem, rfl⟩

/-- Witness of C16: `upsertRequest` on row 1 of `busyStore` adds one enrollment
row and one minor row. -/
theorem C16_update_never_deletes_witness :
    (updateEnrollmentById busyStore 1 upsertRequest noFaults).response.status = 200 ∧
    (updateEnrollmentById busyStore 1 upsertRequest noFaults).store.enrollments.length =
      busyStore.enrollments.length + 1 ∧
    (updateEnrollmentById busyStore 1 upsertRequest noFaults).store.minors.length =
      busyStore.minors.length + 1 :=
  ⟨by decide,
   (C16_update_never_deletes busyStore 1 upsertRequest noFaults).2.2.1 (by decide)⟩

/-- Counterexample to C18 as stated.  An update of an id that does not exist,
whose payload has one minor without id, answers 404 and creates no minor row;
an update whose payload minor carries the id 0 answers 200 and creates a minor
row for it. -/
theorem C18_minor_upsert_counterexample :
    addMinorRequest.minors.map (fun p => p.id) = [none] ∧
    (updateEnrollmentById busyStore 99 addMinorRequest noFaults).response.status = 404 ∧
    (updateEnrollmentById busyStore 99 addMinorRequest noFaults).store.minors =
      busyStore.minors ∧
    zeroIdRequest.minors = [⟨some 0, some "z", some 2, none⟩] ∧
    (updateEnrollmentById busyStore 1 zeroIdRequest noFaults).response.status = 200 ∧
    (updateEnrollmentById busyStore 1 zeroIdRequest noFaults).store.minors =
      busyStore.minors ++ [⟨3, some "z", some 2, 1⟩] := by
  decide

/-- C18 (minor upsert in update, amended).  After an update that answers 200 the
minor table is the old rows, each transformed by `applyMinors`, followed by one
new row per payload minor whose id is absent or 0, each owned by the target id.
`applyMinors` applies, in payload order, the payload minors with a non-zero id;
each of them changes only `name` and `age`, and only on the row that has its id
and whose `enrollment_id` is the target id.  So a row of another enrollment, and
a row whose id no payload minor carries, are left as they were.  An update that
answers anything else leaves the minor table as it was. -/
theorem C18_minor_upsert (s : Store) (id : Nat) (req : EnrollmentRequest) (faults : Faults) :
    ((updateEnrollmentById s id req faults).response.status = 200 →
      ∃ added : List Minor,
        (updateEnrollmentById s id req faults).store.minors =
          s.minors.map (applyMinors id req.minors) ++ added ∧
        added.length = minorsWithoutId req ∧
        (∀ a ∈ added, a.enrollment_id = id) ∧
        (∀ m : Minor, applyMinors id req.minors m =
          (req.minors.filter (fun p => truthyNat p.id)).foldl
            (fun acc p => applyMinor id p acc) m) ∧
        (∀ (p : MinorPayload) (m : Minor), applyMinor id p m =
          if m.id = p.id.getD 0 ∧ m.enrollment_id = id then
            { m with name := orKeep p.name m.name, age := orKeep p.age m.age }
          else m) ∧
        (∀ m : Minor, (applyMinors id req.minors m).id = m.id ∧
          (applyMinors id req.minors m).enrollment_id = m.enrollment_id) ∧
        (∀ m : Minor, m.enrollment_id ≠ id → applyMinors id req.minors m = m) ∧
        (∀ m : Minor, (∀ p ∈ req.minors, truthyNat p.id = true → p.id ≠ some m.id) →
          applyMinors id req.minors m = m)) ∧
    ((updateEnrollmentById s id req faults).response.status ≠ 200 →
      (updateEnrollmentById s id req faults).store.minors = s.minors) := by
  constructor
  · intro hst
    obtain ⟨e0, addedM, addedA, -, -, -, -, hm, hml, hmall, -⟩ := updateEnrollmentById_ok hst
    refine ⟨addedM, hm, hml, hmall, applyMinors_eq_foldl id req.minors, ?_,
      applyMinors_keys id req.minors, applyMinors_other_enrollment id req.minors,
      applyMinors_not_carried id req.minors⟩
    intro p m
    unfold applyMinor
    by_cases h1 : m.id = p.id.getD 0 <;> by_cases h2 : m.enrollment_id = id <;> simp [h1, h2]
  · intro hst
    exact (updateEnrollmentById_failed hst).2.1

/-- Witness of C18: `upsertRequest` on row 1 of `busyStore` renames minor 1,
leaves minor 2 (a minor of row 3) alone and adds minor 3, owned by row 1 although
the payload named `enrollment_id = 3`. -/
theorem C18_minor_upsert_witness :
    (updateEnrollmentById busyStore 1 upsertRequest noFaults).response.status = 200 ∧
    (updateEnrollmentById busyStore 1 upsertRequest noFaults).store.minors =
      [⟨1, some "M1", some 5, 1⟩, ⟨2, some "m2", some 6, 3⟩, ⟨3, some "m3", some 4, 1⟩] ∧
    ∃ added : List Minor,
      (updateEnrollmentById busyStore 1 upsertRequest noFaults).store.minors =
        busyStore.minors.map (applyMinors 1 upsertRequest.minors) ++ added ∧
      added.length = minorsWithoutId upsertRequest ∧
      (∀ a ∈ added, a.enrollment_id = 1) := by
  obtain ⟨added, h1, h2, h3, -⟩ :=
    (C18_minor_upsert busyStore 1 upsertRequest noFaults).1 (by decide)
  exact ⟨by decide, by decide, added, h1, h2, h3⟩

/-- Counterexample to C19 as stated.  An update of an id that does not exist,
whose payload has one adult without id, answers 404 and creates no enrollment
row; an update whose payload adult carries the id 0 answers 200 and creates an
enrollment row for it. -/
theorem C19_adult_upsert_counterexample :
    upsertRequest.adults.map (fun a => a.id) = [some 2, some 3, none] ∧
    (updateEnrollmentById busyStore 99 upsertRequest noFaults).response.status = 404 ∧
    (updateEnrollmentById busyStore 99 upsertRequest noFaults).store.enrollments =
      busyStore.enrollments ∧
    zeroIdRequest.adults.map (fun a => a.id) = [some 0] ∧
    (updateEnrollmentById busyStore 1 zeroIdRequest noFaults).response.status = 200 ∧
    (updateEnrollmentById busyStore 1 zeroIdRequest noFaults).store.enrollments.map
      (fun e => (e.id, e.fullname, e.group_id, e.id_course)) =
      [(1, some "P", some 7, some 1), (2, some "P", some 7, some 1),
       (3, some "P", some 8, some 2), (4, some "Z", some 7, some 1)] := by
  decide

/-- C19 (adult upsert in update, amended).  After an update that answers 200 the
enrollment table is the old rows, the target row transformed by the update of
the primary (`applyPrimary`, identity on every other row) and then every row
transformed by `applyAdults`, followed by one new row per payload adult whose id
is absent or 0, each carrying the request's `group_id` and `id_course`.
`applyAdults` applies, in payload order, the payload adults with a non-zero id;
each of them changes only `fullname`, `email`, `gender` and `age`, and only on
the row that has its id and whose `group_id` is the request's.  So a row of
another group, and a row whose id no payload adult carries, are left as they
were.  An update that answers anything else leaves the enrollment table as it
was. -/
theorem C19_adult_upsert (s : Store) (id : Nat) (req : EnrollmentRequest) (faults : Faults) :
    ((updateEnrollmentById s id req faults).response.status = 200 →
      ∃ added : List Enrollment,
        (updateEnrollmentById s id req faults).store.enrollments =
          (s.enrollments.map (applyPrimary id req)).map
            (applyAdults req.group_id req.adults) ++ added ∧
        added.length = adultsWithoutId req ∧
        (∀ x ∈ added, x.group_id = req.group_id ∧ x.id_course = req.id_course) ∧
        (∀ e : Enrollment, e.id ≠ id → applyPrimary id req e = e) ∧
        (∀ e : Enrollment, applyAdults req.group_id req.adults e =
          (req.adults.filter (fun a => truthyNat a.id)).foldl
            (fun acc a => applyAdult req.group_id a acc) e) ∧
        (∀ (a : AdultPayload) (e : Enrollment), applyAdult req.group_id a e =
          if e.id = a.id.getD 0 ∧ e.group_id = req.group_id then
            { e with
              fullname := orKeep a.fullname e.fullname
              email := orKeep a.email e.email
              gender := orKeep a.gender e.gender
              age := orKeep a.age e.age }
          else e) ∧
        (∀ e : Enrollment,
          (applyAdults req.group_id req.adults e).id = e.id ∧
          (applyAdults req.group_id req.adults e).is_first_activity = e.is_first_activity ∧
          (applyAdults req.group_id req.adults e).id_admin = e.id_admin ∧
          (applyAdults req.group_id req.adults e).id_course = e.id_course ∧
          (applyAdults req.group_id req.adults e).group_id = e.group_id ∧
          (applyAdults req.group_id req.adults e).accepts_newsletter =
            e.accepts_newsletter) ∧
        (∀ e : Enrollment, e.group_id ≠ req.group_id →
          applyAdults req.group_id req.adults e = e) ∧
        (∀ e : Enrollment, (∀ a ∈ req.adults, truthyNat a.id = true → a.id ≠ some e.id) →
          applyAdults req.group_id req.adults e = e)) ∧
    ((updateEnrollmentById s id req faults).response.status ≠ 200 →
      (updateEnrollmentById s id req faults).store.enrollments = s.enrollments) := by
  constructor
  · intro hst
    obtain ⟨e0, addedM, addedA, -, he, hal, haall, -, -, -, -⟩ := updateEnrollmentById_ok hst
    refine ⟨addedA, he, hal, haall, applyPrimary_other id req,
      applyAdults_eq_foldl req.group_id req.adults, ?_,
      applyAdults_keys req.group_id req.adults,
      applyAdults_other_group req.group_id req.adults,
      applyAdults_not_carried req.group_id req.adults⟩
    intro a e
    unfold applyAdult
    by_cases h1 : e.id = a.id.getD 0 <;> by_cases h2 : e.group_id = req.group_id <;>
      simp [h1, h2]
  · intro hst
    exact (updateEnrollmentById_failed hst).1

/-- Witness of C19: `upsertRequest` on row 1 of `busyStore` renames row 2 (group
7), leaves row 3 (group 8) alone and adds row 4 in group 7 on course 1. -/
theorem C19_adult_upsert_witness :
    (updateEnrollmentById busyStore 1 upsertRequest noFaults).response.status = 200 ∧
    (updateEnrollmentById busyStore 1 upsertRequest noFaults).store.enrollments.map
      (fun e => (e.id, e.fullname, e.age, e.group_id, e.id_course)) =
      [(1, some "P", some 30, some 7, some 1), (2, some "Q", some 41, some 7, some 1),
       (3, some "P", some 30, some 8, some 2), (4, some "N", some 50, some 7, some 1)] ∧
    ∃ added : List Enrollment,
      (updateEnrollmentById busyStore 1 upsertRequest noFaults).store.enrollments =
        (busyStore.enrollments.map (applyPrimary 1 upsertRequest)).map
          (applyAdults upsertRequest.group_id upsertRequest.adults) ++ added ∧
      added.length = adultsWithoutId upsertRequest ∧
      (∀ x ∈ added, x.group_id = upsertRequest.group_id ∧
        x.id_course = upsertRequest.id_course) := by
  obtain ⟨added, h1, h2, h3, -⟩ :=
    (C19_adult_upsert busyStore 1 upsertRequest noFaults).1 (by decide)
  exact ⟨by decide, by decide, added, h1, h2, h3⟩

/-- C20 (no orphan minors).  If every minor row refers to an enrollment row,
then so it is after any create, update or delete, whatever the request, the
target id and the storage calls that fail. -/
theorem C20_no_orphan_minors (s : Store) (id : Nat) (req : EnrollmentRequest)
    (faults : Faults) (h : noOrphans s) :
    noOrphans (createEnrollment s req faults).store ∧
    noOrphans (updateEnrollmentById s id req faults).store ∧
    noOrphans (deleteEnrollmentById s id faults).store := by
  refine ⟨?_, ?_, ?_⟩
  · by_cases hst : (createEnrollment s req faults).response.status = 201
    · obtain ⟨course, added, -, -, -, -, he, hmi, -, hall, -, -, -⟩ :=
        createEnrollment_created hst
      intro m hm
      rw [hmi] at hm
      rw [he]
      rcases List.mem_append.mp hm with hm | hm
      · obtain ⟨e, hmem, hid⟩ := h m hm
        exact ⟨e, List.mem_append_left _ hmem, hid⟩
      · refine ⟨createdPrimary s req, ?_, ?_⟩
        · exact List.mem_append_right _ (List.mem_cons_self _ _)
        · rw [hall m hm]
          rfl
    · have hn : (createAttempt s req faults).tx ≠ .committed := by
        apply createAttempt_not_committed
        unfold createEnrollment at hst
        rw [settle_response] at hst
        exact hst
      obtain ⟨he, hmi, -⟩ := settle_not_committed s _ hn
      intro m hm
      unfold createEnrollment at hm ⊢
      rw [hmi] at hm
      rw [he]
      exact h m hm
  · by_cases hst : (updateEnrollmentById s id req faults).response.status = 200
    · obtain ⟨e0, addedM, addedA, hfind, he, -, -, hmi, -, hmall, -⟩ :=
        updateEnrollmentById_ok hst
      have himg : ∀ e ∈ s.enrollments,
          ∃ x ∈ (updateEnrollmentById s id req faults).store.enrollments, x.id = e.id := by
        intro e hmem
        refine ⟨applyAdults req.group_id req.adults (applyPrimary id req e), ?_, ?_⟩
        · rw [he]
          apply List.mem_append_left
          exact List.mem_map_of_mem _ (List.mem_map_of_mem _ hmem)
        · rw [(applyAdults_keys _ _ _).1, applyPrimary_id]
      intro m hm
      rw [hmi] at hm
      rcases List.mem_append.mp hm with hm | hm
      · obtain ⟨m0, hm0, rfl⟩ := List.mem_map.mp hm
        obtain ⟨e, hmem, hid⟩ := h m0 hm0
        obtain ⟨x, hx, hxid⟩ := himg e hmem
        exact ⟨x, hx, by rw [hxid, hid, (applyMinors_keys _ _ _).2]⟩
      · obtain ⟨x, hx, hxid⟩ := himg e0 (Enrollment.findByPk_row_mem hfind)
        exact ⟨x, hx, by rw [hxid, Enrollment.findByPk_row_id hfind, hmall m hm]⟩
    · obtain ⟨he, hmi, -, -⟩ := updateEnrollmentById_failed hst
      intro m hm
      rw [hmi] at hm
      rw [he]
      exact h m hm
  · unfold deleteEnrollmentById
    rcases deleteAttempt_cases s id faults with h1 | h1 | ⟨e, course, -, -, hd⟩
    · have hn : (deleteAttempt s id faults).tx ≠ .committed := by rw [h1.2]; simp
      obtain ⟨he, hmi, -⟩ := settle_not_committed s _ hn
      intro m hm
      rw [hmi] at hm
      rw [he]
      exact h m hm
    · have hn : (deleteAttempt s id faults).tx ≠ .committed := by rw [h1.2.1]; simp
      obtain ⟨he, hmi, -⟩ := settle_not_committed s _ hn
      intro m hm
      rw [hmi] at hm
      rw [he]
      exact h m hm
    · obtain ⟨he, hmi, -, -, -, -, htx⟩ := hd
      rw [settle_committed _ _ htx]
      intro m hm
      rw [hmi] at hm
      rw [he]
      obtain ⟨hmem, hkeep⟩ := List.mem_filter.mp hm
      obtain ⟨x, hx, hxid⟩ := h m hmem
      refine ⟨x, List.mem_filter.mpr ⟨hx, ?_⟩, hxid⟩
      rw [hxid]
      exact hkeep

/-- Witness of C20 on `busyStore`: a create with a minor, an update that adds a
minor, and the delete of row 1. -/
theorem C20_no_orphan_minors_witness :
    noOrphans busyStore ∧
    noOrphans (createEnrollment busyStore foreignMinorRequest noFaults).store ∧
    noOrphans (updateEnrollmentById busyStore 1 foreignMinorRequest noFaults).store ∧
    noOrphans (deleteEnrollmentById busyStore 1 noFaults).store :=
  ⟨by decide, C20_no_orphan_minors busyStore 1 foreignMinorRequest noFaults (by decide)⟩

/-- Counterexample to C21 as stated.  On the scenario store a create without
`group_id` is assigned group 1.  After the delete of that enrollment, the only
row of the table, the next create without `group_id` is assigned group 1
again. -/
theorem C21_group_counter_counterexample :
    (createEnrollment scenarioStore (soloRequest none) noFaults).response.enrollment.map
      (fun e => e.group_id) = some (some 1) ∧
    (deleteEnrollmentById afterFirstSolo 1 noFaults).response.status = 200 ∧
    (runCalls afterFirstSolo [.delete 1 noFaults]).enrollments = [] ∧
    (createEnrollment (runCalls afterFirstSolo [.delete 1 noFaults])
      (soloRequest none) noFaults).response.enrollment.map (fun e => e.group_id) =
      some (some 1) := by
  decide

/-- C21 (group counter, amended).  Take a successful create that supplies no
`group_id` (none or 0) and is assigned the group `g1`, then any sequence of
create, update and delete calls, then another successful create that supplies
no `group_id`.  If the calls in between are all creates, or more generally if
some enrollment row still carries a group id that is at least `g1` when the
second create runs, the group id assigned by the second is strictly greater than
`g1`; and `g1` is strictly greater than every group id of the rows that existed
before the first create. -/
theorem C21_group_counter (s : Store) (req1 req2 : EnrollmentRequest) (f1 f2 : Faults)
    (between : List Call) (p1 : Enrollment) (g1 : Int)
    (h1 : truthyInt req1.group_id = false) (h2 : truthyInt req2.group_id = false)
    (hc1 : (createEnrollment s req1 f1).response.status = 201)
    (hp1 : (createEnrollment s req1 f1).response.enrollment = some p1)
    (hg1 : p1.group_id = some g1)
    (hc2 : (createEnrollment (runCalls (createEnrollment s req1 f1).store between)
      req2 f2).response.status = 201)
    (hkeep : (∀ c ∈ between, c.isCreate = true) ∨
      ∃ x ∈ (runCalls (createEnrollment s req1 f1).store between).enrollments,
        ∃ g : Int, x.group_id = some g ∧ g1 ≤ g) :
    ∃ (p2 : Enrollment) (g2 : Int),
      (createEnrollment (runCalls (createEnrollment s req1 f1).store between)
        req2 f2).response.enrollment = some p2 ∧
      p2.group_id = some g2 ∧
      g1 < g2 ∧
      (∀ e ∈ s.enrollments, ∀ g : Int, e.group_id = some g → g < g1) := by
  obtain ⟨c1, a1, -, -, -, -, he1, -, -, -, -, hr1, -⟩ := createEnrollment_created hc1
  obtain ⟨c2, a2, -, -, -, -, -, -, -, -, -, hr2, -⟩ := createEnrollment_created hc2
  have hp : p1 = createdPrimary s req1 := by
    rw [hr1] at hp1
    exact (Option.some.inj hp1).symm
  have hg : g1 = newGroupId s req1.group_id := by
    rw [hp] at hg1
    exact (Option.some.inj hg1).symm
  have hsurvive : ∃ x ∈ (runCalls (createEnrollment s req1 f1).store between).enrollments,
      ∃ g : Int, x.group_id = some g ∧ g1 ≤ g := by
    rcases hkeep with hall | hex
    · have hmem1 : createdPrimary s req1 ∈ (createEnrollment s req1 f1).store.enrollments := by
        rw [he1]
        exact List.mem_append_right _ (List.mem_cons_self _ _)
      exact ⟨createdPrimary s req1, runCalls_keeps_rows between _ hall _ hmem1,
        newGroupId s req1.group_id, rfl, by rw [hg]⟩
    · exact hex
  obtain ⟨x, hx, g, hxg, hle⟩ := hsurvive
  refine ⟨_, newGroupId _ req2.group_id, hr2, rfl, ?_, ?_⟩
  · exact lt_of_le_of_lt hle (newGroupId_gt _ req2.group_id h2 x hx g hxg)
  · rw [hg]
    exact newGroupId_gt s req1.group_id h1

/-- Witness of C21: the first create is assigned group 1; then a create is
assigned group 2, its row is deleted and row 1 is updated with its own group;
row 1 still carries group 1, and the next create without `group_id` is assigned
a group greater than 1. -/
theorem C21_group_counter_witness :
    (runCalls afterFirstSolo mixedCalls).enrollments.map (fun e => (e.id, e.group_id)) =
      [(1, some 1)] ∧
    ∃ (p2 : Enrollment) (g2 : Int),
      (createEnrollment
        (runCalls (createEnrollment scenarioStore (soloRequest none) noFaults).store
          mixedCalls)
        (soloRequest none) noFaults).response.enrollment = some p2 ∧
      p2.group_id = some g2 ∧
      1 < g2 ∧
      (∀ e ∈ scenarioStore.enrollments, ∀ g : Int, e.group_id = some g → g < 1) :=
  ⟨by decide,
   C21_group_counter scenarioStore (soloRequest none) (soloRequest none) noFaults noFaults
     mixedCalls (createdPrimary scenarioStore (soloRequest none)) 1
     (by decide) (by decide) (by decide) (by decide) (by decide) (by decide)
     (Or.inr ⟨⟨1, some "D", some "c@x.com", some "NS/NC", some 30, false, none, some 1,
       some 1, false⟩, by decide, 1, by decide, by decide⟩)⟩

/-- C22 (GET by id), evaluated where the code breaks it.  `getEnrollmentById`
evaluates `Sequelize.col(...)` while it builds the options of `findByPk`, and
`Sequelize` is not bound in the module (lines 1-5 import `sequelize` and `Op`
only): every call, whether the id resolves or not, answers 500 with the message
of the `ReferenceError`.  On `busyStore`, neither the existing row 1 nor the
unknown id 99 gets the 200 or 404 of the claim. -/
theorem C22_get_by_id_always_500 :
    (∀ (s : Store) (id : Nat) (faults : Faults),
      (getEnrollmentById s id faults).response = ⟨500, "Sequelize is not defined", []⟩) ∧
    (Enrollment.findByPk busyStore 1).isSome = true ∧
    (getEnrollmentById busyStore 1 noFaults).response.status = 500 ∧
    (Enrollment.findByPk busyStore 99).isSome = false ∧
    (getEnrollmentById busyStore 99 noFaults).response.status = 500 := by
  have hmsg : "Sequelize" ++ " is not defined" = "Sequelize is not defined" := by decide
  have h : resolveIdentifier "Sequelize" = .error "Sequelize is not defined" := by
    unfold resolveIdentifier
    rw [if_neg (by decide), hmsg]
  have hall : ∀ (s : Store) (id : Nat) (faults : Faults),
      (getEnrollmentById s id faults).response = ⟨500, "Sequelize is not defined", []⟩ := by
    intro s id faults
    unfold getEnrollmentById
    rw [h]
  refine ⟨hall, by decide, by rw [hall], by decide, by rw [hall]⟩

/-- C23 (read paths are pure).  For every store, id and set of failing storage
calls: (1) each of the four read handlers hands back the store it was given: its
only storage call is a `findAll` or a `findByPk`; (2) every read made on the
store that a read has left gets the response it gets on the store before that
read, so a read repeated with the same id gets the same response; (3) the
responses are read off the rows of the three tables: a store with the same
Enrollment, Minor and Course rows gets the same responses, whatever else
differs; (4) a create, update or delete that does not answer with its success
status is not an intervening write: the reads get the same responses after it as
before. -/
theorem C23_reads_are_pure (s : Store) (id : Nat) (faults : Faults) :
    ((getAllEnrollments s faults).store = s ∧
      (getEnrollmentById s id faults).store = s ∧
      (getEnrollmentByIdWithMinors s id faults).store = s ∧
      (getAllEnrollmentsByCourseId s id faults).store = s) ∧
    (readResponses (getAllEnrollments s faults).store id faults = readResponses s id faults ∧
      readResponses (getEnrollmentById s id faults).store id faults =
        readResponses s id faults ∧
      readResponses (getEnrollmentByIdWithMinors s id faults).store id faults =
        readResponses s id faults ∧
      readResponses (getAllEnrollmentsByCourseId s id faults).store id faults =
        readResponses s id faults) ∧
    (∀ s2 : Store, s2.enrollments = s.enrollments → s2.minors = s.minors →
      s2.courses = s.courses → readResponses s2 id faults = readResponses s id faults) ∧
    (∀ (req : EnrollmentRequest) (f : Faults),
      (createEnrollment s req f).response.status ≠ 201 →
      readResponses (createEnrollment s req f).store id faults = readResponses s id faults) ∧
    (∀ (k : Nat) (req : EnrollmentRequest) (f : Faults),
      (updateEnrollmentById s k req f).response.status ≠ 200 →
      readResponses (updateEnrollmentById s k req f).store id faults =
        readResponses s id faults) ∧
    (∀ (k : Nat) (f : Faults),
      (deleteEnrollmentById s k f).response.status ≠ 200 →
      readResponses (deleteEnrollmentById s k f).store id faults =
        readResponses s id faults) := by
  have h1 := getAllEnrollments_store s faults
  have h2 := getEnrollmentById_store s id faults
  have h3 := getEnrollmentByIdWithMinors_store s id faults
  have h4 := getAllEnrollmentsByCourseId_store s id faults
  refine ⟨⟨h1, h2, h3, h4⟩, ⟨by rw [h1], by rw [h2], by rw [h3], by rw [h4]⟩,
    fun s2 hen hmi hco => readResponses_rows s s2 id faults hen hmi hco, ?_, ?_, ?_⟩
  · intro req f hst
    have hn : (createAttempt s req f).tx ≠ .committed := by
      apply createAttempt_not_committed
      unfold createEnrollment at hst
      rw [settle_response] at hst
      exact hst
    obtain ⟨k1, k2, k3⟩ := settle_not_committed s _ hn
    exact readResponses_rows s _ id faults k1 k2 k3
  · intro k req f hst
    obtain ⟨k1, k2, k3, -⟩ := updateEnrollmentById_failed hst
    exact readResponses_rows s _ id faults k1 k2 k3
  · intro k f hst
    have hn : (deleteAttempt s k f).tx ≠ .committed := by
      rcases deleteAttempt_cases s k f with h | h | ⟨e, course, -, -, hd⟩
      · rw [h.2]
        simp
      · rw [h.2.1]
        simp
      · exfalso
        apply hst
        unfold deleteEnrollmentById
        rw [settle_response, hd.2.2.2.2.2.1]
    obtain ⟨k1, k2, k3⟩ := settle_not_committed s _ hn
    exact readResponses_rows s _ id faults k1 k2 k3

/-- Witness of C23 on `busyStore`: the reads of enrollment 1 get the same
responses on the store with other auto-increment counters and after a create
that was refused, and the list of all enrollments has its three rows. -/
theorem C23_reads_are_pure_witness :
    ((getAllEnrollments busyStore noFaults).response.body.map (fun v => v.enrollment.id) =
      [1, 2, 3]) ∧
    busyStoreLater ≠ busyStore ∧
    readResponses busyStoreLater 1 noFaults = readResponses busyStore 1 noFaults ∧
    (createEnrollment busyStore namelessRequest noFaults).response.status = 400 ∧
    readResponses (createEnrollment busyStore namelessRequest noFaults).store 1 noFaults =
      readResponses busyStore 1 noFaults :=
  ⟨by decide, by decide,
   (C23_reads_are_pure busyStore 1 noFaults).2.2.1 busyStoreLater rfl rfl rfl,
   by decide,
   (C23_reads_are_pure busyStore 1 noFaults).2.2.2.1 namelessRequest noFaults (by decide)⟩

/-- C24 (minor age range), evaluated where the code breaks it.  A create whose
payload minor is 20 years old answers 201 and stores the minor with age 20; an
update that sets the age of minor 1 to 99 and adds a minor of age -3 answers 200
and stores both ages. -/
theorem C24_minor_age_not_checked :
    (createEnrollment busyStore grownMinorRequest noFaults).response.status = 201 ∧
    (createEnrollment busyStore grownMinorRequest noFaults).store.minors.map
      (fun m => (m.id, m.age, m.enrollment_id)) =
      [(1, some 5, 1), (2, some 6, 3), (3, some 20, 4)] ∧
    (updateEnrollmentById busyStore 1 badAgesRequest noFaults).response.status = 200 ∧
    (updateEnrollmentById busyStore 1 badAgesRequest noFaults).store.minors.map
      (fun m => (m.id, m.age, m.enrollment_id)) =
      [(1, some 99, 1), (2, some 6, 3), (3, some (-3), 1)] := by
  decide

/-- C25 (omitted age is rejected).  A create whose required fields are present
and whose `age` is omitted sees the age 0 and answers 400 with the age message,
leaving the store as it was, whatever the course, its tickets and the storage
calls that would fail. -/
theorem C25_omitted_age (s : Store) (req : EnrollmentRequest) (faults : Faults)
    (hreq : missingRequired req = false) (hage : req.age = none) :
    req.age.getD 0 = 0 ∧
    (createEnrollment s req faults).response.status = 400 ∧
    (createEnrollment s req faults).response.message =
      "El titular debe ser mayor de 14 años." ∧
    (createEnrollment s req faults).store = s ∧
    (createEnrollment s req faults).tx ≠ .committed := by
  have h0 : req.age.getD 0 = 0 := by rw [hage]; rfl
  have ha : req.age.getD 0 < 14 := by rw [h0]; decide
  unfold createEnrollment
  rw [createAttempt_age hreq ha]
  exact ⟨h0, rfl, rfl, rfl, by simp [settle]⟩

/-- Witness of C25: the request without age on `busyStore`, whose course 1 has 4
tickets for the 1 ticket needed. -/
theorem C25_omitted_age_witness :
    ticketsOf busyStore 1 = some 4 ∧
    totalTicketsRequired agelessRequest = 1 ∧
    (createEnrollment busyStore agelessRequest noFaults).response.status = 400 ∧
    (createEnrollment busyStore agelessRequest noFaults).store = busyStore :=
  ⟨by decide, by decide,
   (C25_omitted_age busyStore agelessRequest noFaults (by decide) (by decide)).2.1,
   (C25_omitted_age busyStore agelessRequest noFaults (by decide) (by decide)).2.2.2.1⟩

/-- Counterexample to C26 as stated.  In `busyStore` every group is on one
course.  A create that supplies group 7 (rows of course 1) for course 2 answers
201, and an update of row 1 that keeps group 7 and names course 2 answers 200;
after either, group 7 has rows on courses 1 and 2. -/
theorem C26_groups_one_course_counterexample :
    oneCoursePerGroup busyStore ∧
    (createEnrollment busyStore crossCourseRequest noFaults).response.status = 201 ∧
    ¬ oneCoursePerGroup (createEnrollment busyStore crossCourseRequest noFaults).store ∧
    (updateEnrollmentById busyStore 1 moveCourseRequest noFaults).response.status = 200 ∧
    ¬ oneCoursePerGroup (updateEnrollmentById busyStore 1 moveCourseRequest noFaults).store := by
  decide

/-- C26 (groups stay within one course, amended).  In a store with unique
enrollment ids where all the rows that share a `group_id` have the same
`id_course`, the same holds after any delete; after any create whose group id is
generated (none or 0 supplied), or supplied and carried only by rows of the
request's course; and after any update whose body passes the `group_id` and the
`id_course` the target has.  In such a store all the rows of the group of a
delete's target are on the target's course. -/
theorem C26_groups_one_course (s : Store) (id : Nat) (req : EnrollmentRequest)
    (faults : Faults) (hids : (s.enrollments.map (fun x => x.id)).Nodup)
    (h : oneCoursePerGroup s) :
    oneCoursePerGroup (deleteEnrollmentById s id faults).store ∧
    ((truthyInt req.group_id = true →
        ∀ e ∈ s.enrollments, e.group_id = req.group_id → e.id_course = req.id_course) →
      oneCoursePerGroup (createEnrollment s req faults).store) ∧
    ((∀ e, Enrollment.findByPk s id = some e →
        req.group_id = e.group_id ∧ req.id_course = e.id_course) →
      oneCoursePerGroup (updateEnrollmentById s id req faults).store) ∧
    (∀ e, Enrollment.findByPk s id = some e →
      ∀ x ∈ groupOf s e.group_id, x.id_course = e.id_course) := by
  refine ⟨?_, ?_, ?_, ?_⟩
  · intro e1 h1 e2 h2 hg
    exact h e1 (deleteEnrollmentById_subset s id faults e1 h1) e2
      (deleteEnrollmentById_subset s id faults e2 h2) hg
  · intro hsup
    by_cases hst : (createEnrollment s req faults).response.status = 201
    · obtain ⟨course, added, -, -, -, -, he, -, -, -, -, -, -⟩ := createEnrollment_created hst
      unfold oneCoursePerGroup
      rw [he]
      apply oneCourse_append s.enrollments _ (some (newGroupId s req.group_id)) req.id_course h
      · intro x hx
        exact ⟨(createdRows_spec s req x hx).1, (createdRows_spec s req x hx).2.1⟩
      · intro x hx hg
        cases ht : truthyInt req.group_id with
        | true =>
          rw [newGroupId_supplied s req.group_id ht] at hg
          exact hsup ht x hx hg
        | false =>
          have hlt := newGroupId_gt s req.group_id ht x hx _ hg
          omega
    · have hn : (createAttempt s req faults).tx ≠ .committed := by
        apply createAttempt_not_committed
        unfold createEnrollment at hst
        rw [settle_response] at hst
        exact hst
      unfold oneCoursePerGroup createEnrollment
      rw [(settle_not_committed s _ hn).1]
      exact h
  · intro hsame
    by_cases hst : (updateEnrollmentById s id req faults).response.status = 200
    · obtain ⟨e0, addedM, addedA, hfind, he, -, haall, -, -, -, -⟩ :=
        updateEnrollmentById_ok hst
      obtain ⟨hg0, hc0⟩ := hsame e0 hfind
      have he0mem := Enrollment.findByPk_row_mem hfind
      have he0id := Enrollment.findByPk_row_id hfind
      have hkeep : ∀ x ∈ s.enrollments,
          (applyAdults req.group_id req.adults (applyPrimary id req x)).group_id = x.group_id ∧
          (applyAdults req.group_id req.adults (applyPrimary id req x)).id_course =
            x.id_course := by
        intro x hx
        obtain ⟨-, -, -, k4, k5, -⟩ :=
          applyAdults_keys req.group_id req.adults (applyPrimary id req x)
        rw [k4, k5]
        by_cases hxid : x.id = id
        · have hxe : x = e0 :=
            List.inj_on_of_nodup_map hids hx he0mem (hxid.trans he0id.symm)
          subst hxe
          unfold applyPrimary
          simp only [hxid, beq_self_eq_true, if_true, hg0, hc0, orKeep_self, and_self]
        · rw [applyPrimary_other id req x hxid]
          exact ⟨rfl, rfl⟩
      unfold oneCoursePerGroup
      rw [he]
      apply oneCourse_append _ _ req.group_id req.id_course
      · intro e1 h1 e2 h2 hg
        obtain ⟨y1, hy1, rfl⟩ := List.mem_map.mp h1
        obtain ⟨x1, hx1, rfl⟩ := List.mem_map.mp hy1
        obtain ⟨y2, hy2, rfl⟩ := List.mem_map.mp h2
        obtain ⟨x2, hx2, rfl⟩ := List.mem_map.mp hy2
        rw [(hkeep x1 hx1).1, (hkeep x2 hx2).1] at hg
        rw [(hkeep x1 hx1).2, (hkeep x2 hx2).2]
        exact h x1 hx1 x2 hx2 hg
      · exact haall
      · intro x hx hg
        obtain ⟨y1, hy1, rfl⟩ := List.mem_map.mp hx
        obtain ⟨x1, hx1, rfl⟩ := List.mem_map.mp hy1
        rw [(hkeep x1 hx1).1] at hg
        rw [(hkeep x1 hx1).2, hc0]
        exact h x1 hx1 e0 he0mem (hg.trans hg0)
    · unfold oneCoursePerGroup
      rw [(updateEnrollmentById_failed hst).1]
      exact h
  · intro e hfind x hx
    have hxm := List.mem_filter.mp hx
    exact h x hxm.1 e (Enrollment.findByPk_row_mem hfind) (by simpa using hxm.2)

/-- Witness of C26 on `busyStore`: the delete of row 1, and the create and the
update with `addMinorRequest`, which names the group 7 and the course 1 that
rows 1 and 2 have. -/
theorem C26_groups_one_course_witness :
    (busyStore.enrollments.map (fun x => x.id)).Nodup ∧
    oneCoursePerGroup busyStore ∧
    oneCoursePerGroup (deleteEnrollmentById busyStore 1 noFaults).store ∧
    oneCoursePerGroup (createEnrollment busyStore addMinorRequest noFaults).store ∧
    oneCoursePerGroup (updateEnrollmentById busyStore 1 addMinorRequest noFaults).store :=
  ⟨by decide, by decide,
   (C26_groups_one_course busyStore 1 addMinorRequest noFaults (by decide) (by decide)).1,
   (C26_groups_one_course busyStore 1 addMinorRequest noFaults (by decide) (by decide)).2.1
     (by decide),
   (C26_groups_one_course busyStore 1 addMinorRequest noFaults (by decide) (by decide)).2.2.1
     (by decide)⟩

/-- C27 (frame of delete).  In a store with unique enrollment ids, after a
delete that answers 200: every enrollment row whose `group_id` differs from the
target's is still there, every minor row attached to such an enrollment is still
there, no row has appeared, and the tickets of every course other than the
target's course are what they were. -/
theorem C27_delete_frame (s : Store) (id : Nat) (faults : Faults) (e : Enrollment)
    (hids : (s.enrollments.map (fun x => x.id)).Nodup)
    (hfind : Enrollment.findByPk s id = some e)
    (hok : (deleteEnrollmentById s id faults).response.status = 200) :
    (∀ x ∈ s.enrollments, x.group_id ≠ e.group_id →
      x ∈ (deleteEnrollmentById s id faults).store.enrollments) ∧
    (∀ m ∈ s.minors, ∀ x ∈ s.enrollments, x.id = m.enrollment_id →
      x.group_id ≠ e.group_id → m ∈ (deleteEnrollmentById s id faults).store.minors) ∧
    (∀ x ∈ (deleteEnrollmentById s id faults).store.enrollments, x ∈ s.enrollments) ∧
    (∀ m ∈ (deleteEnrollmentById s id faults).store.minors, m ∈ s.minors) ∧
    (∀ c : Nat, e.id_course ≠ some c →
      ticketsOf (deleteEnrollmentById s id faults).store c = ticketsOf s c) := by
  obtain ⟨course, hc, hen, hmi, hco⟩ := deleteEnrollmentById_ok hfind hok
  have hout : ∀ x ∈ s.enrollments, x.group_id ≠ e.group_id →
      ((groupOf s e.group_id).map (fun e => e.id)).contains x.id = false := by
    intro x hx hg
    rw [contains_groupIds_iff hids e.group_id hx]
    simpa using hg
  refine ⟨?_, ?_, ?_, ?_, ?_⟩
  · intro x hx hg
    rw [hen]
    exact List.mem_filter.mpr ⟨hx, by rw [hout x hx hg]; rfl⟩
  · intro m hm x hx hxm hg
    rw [hmi]
    exact List.mem_filter.mpr ⟨hm, by rw [← hxm, hout x hx hg]; rfl⟩
  · intro x hx
    rw [hen] at hx
    exact (List.mem_filter.mp hx).1
  · intro m hm
    rw [hmi] at hm
    exact (List.mem_filter.mp hm).1
  · intro c hne
    rw [ticketsOf_map_add s _ course.id c _ hco]
    have hcid : e.id_course = some course.id := by
      cases hid : e.id_course with
      | none => simp [hid] at hc
      | some cid =>
        simp only [hid, Option.some_bind] at hc
        rw [Course.findByPk_course_id hc]
    have hcc : c ≠ course.id := by
      intro heq
      apply hne
      rw [hcid, heq]
    cases ticketsOf s c with
    | none => rfl
    | some t => simp [hcc]

/-- Witness of C27: the delete of row 1 of `busyStore` (group 7, course 1) keeps
row 3 of group 8, its minor 2, and the 9 tickets of course 2. -/
theorem C27_delete_frame_witness :
    sampleRow 3 2 8 ∈ (deleteEnrollmentById busyStore 1 noFaults).store.enrollments ∧
    (⟨2, some "m2", some 6, 3⟩ : Minor) ∈
      (deleteEnrollmentById busyStore 1 noFaults).store.minors ∧
    ticketsOf (deleteEnrollmentById busyStore 1 noFaults).store 2 = ticketsOf busyStore 2 :=
  ⟨(C27_delete_frame busyStore 1 noFaults (sampleRow 1 1 7) (by decide) (by decide)
      (by decide)).1 (sampleRow 3 2 8) (by decide) (by decide),
   (C27_delete_frame busyStore 1 noFaults (sampleRow 1 1 7) (by decide) (by decide)
      (by decide)).2.1 ⟨2, some "m2", some 6, 3⟩ (by decide) (sampleRow 3 2 8) (by decide)
      (by decide) (by decide),
   (C27_delete_frame busyStore 1 noFaults (sampleRow 1 1 7) (by decide) (by decide)
      (by decide)).2.2.2.2 2 (by decide)⟩

/-- C28 (search and pagination), evaluated where the code breaks it.  A table
holds eleven enrollments and shows its second page, the single row "Zoe".  After
`handleSearch "ZOE"` both components filter down to that row; `EnrollmentsTable`
stays on page 2 and shows an empty page, whereas `EnrollmentsTableByCourse`
goes back to page 1 and shows the row. -/
theorem C28_search_keeps_page :
    currentEnrollments 10 secondPage = [⟨11, "Zoe"⟩] ∧
    (EnrollmentsTable.handleSearch asciiLower secondPage "ZOE").filteredEnrollments =
      [⟨11, "Zoe"⟩] ∧
    (EnrollmentsTable.handleSearch asciiLower secondPage "ZOE").currentPage = 2 ∧
    currentEnrollments 10 (EnrollmentsTable.handleSearch asciiLower secondPage "ZOE") = [] ∧
    (EnrollmentsTableByCourse.handleSearch asciiLower secondPage "ZOE").filteredEnrollments =
      [⟨11, "Zoe"⟩] ∧
    (EnrollmentsTableByCourse.handleSearch asciiLower secondPage "ZOE").currentPage = 1 ∧
    currentEnrollments 8 (EnrollmentsTableByCourse.handleSearch asciiLower secondPage "ZOE") =
      [⟨11, "Zoe"⟩] := by
  decide

end OdcManagement
